import Mathlib

/-!
# graphicat_gl: handle ownership, vertex layout bookkeeping, shader creation and uniform
uploads, lifecycle guard, monitor queries, window construction and window modes

A shallow embedding of the bookkeeping code of the repository.  Calls into the
wrapped native libraries (OpenGL, GLFW, the logging sink) are recorded, in
program order, as a list of `NativeCall` values; values that the native side
hands back (fresh identifiers, compile and link statuses, monitor lists) are
explicit inputs of the embedded functions.
-/

namespace gc

/-! ## Machine integers -/

/-- Value of a mathematical integer after conversion to a 32-bit signed `int`. -/
def to_int (z : Int) : Int := (z + 2147483648) % 4294967296 - 2147483648

/-- Value of a mathematical integer after conversion to `unsigned int` (`GLuint`). -/
def to_uint (z : Int) : Nat := (z % 4294967296).toNat

/-- Value of a mathematical integer after conversion to the 64-bit `size_t`. -/
def to_size_t (z : Int) : Nat := (z % 18446744073709551616).toNat

/-- Value of a mathematical integer after conversion to a 64-bit signed integer
(`GLsizeiptr`, `GLintptr`). -/
def to_intptr (z : Int) : Int :=
  (z + 9223372036854775808) % 18446744073709551616 - 9223372036854775808

/-- The constant `sizeof(float)`. -/
def sizeof_float : Nat := 4

/-- The constant `GL_FLOAT`. -/
def GL_FLOAT : Nat := 5126

/-- The constant `GL_TRUE`. -/
def GL_TRUE : Int := 1

/-! ## Calls into the wrapped native libraries -/

/-- Texts written to the logging sink (`spdlog::error`). -/
inductive LogMessage where
  | failed_to_compile_shader (log_text : String)
  | module_failed_not_linking
  | failed_to_link_shader (log_text : String)
deriving DecidableEq, Repr

/-- The enum `ShaderType` (its enumerators stand for the OpenGL shader-stage constants). -/
inductive ShaderType where
  | Vertex
  | Fragment
  | Geometry
  | TessControl
  | TessEval
  | Compute
deriving DecidableEq, Repr

/-- The native struct `GLFWvidmode`, as far as `VideoMode::from` reads it; the fields are
C `int`s. -/
structure GLFWvidmode where
  width : Int
  height : Int
  redBits : Int
  greenBits : Int
  blueBits : Int
  refreshRate : Int
deriving DecidableEq, Repr

/-- The window attributes passed to `glfwSetWindowAttrib`; the code uses `GLFW_DECORATED`
only. -/
inductive WindowAttrib where
  | GLFW_DECORATED
deriving DecidableEq, Repr

/-- The constant `GLFW_DONT_CARE` of the windowing library. -/
def GLFW_DONT_CARE : Int := -1

/-- A `float` value passed to an upload call.  No arithmetic is done on it, so it is kept as
its bit pattern. -/
structure GLfloat where
  bits : Nat
deriving DecidableEq, Repr

/-- A `double` value passed to an upload call, kept as its bit pattern. -/
structure GLdouble where
  bits : Nat
deriving DecidableEq, Repr

/-- The vector type `glm::vec1`. -/
structure vec1 where
  x : GLfloat
deriving DecidableEq, Repr

/-- The vector type `glm::vec2`. -/
structure vec2 where
  x : GLfloat
  y : GLfloat
deriving DecidableEq, Repr

/-- The vector type `glm::vec3`. -/
structure vec3 where
  x : GLfloat
  y : GLfloat
  z : GLfloat
deriving DecidableEq, Repr

/-- The vector type `glm::vec4`. -/
structure vec4 where
  x : GLfloat
  y : GLfloat
  z : GLfloat
  w : GLfloat
deriving DecidableEq, Repr

/-- The vector type `glm::ivec1`. -/
structure ivec1 where
  x : Int
deriving DecidableEq, Repr

/-- The vector type `glm::ivec2`. -/
structure ivec2 where
  x : Int
  y : Int
deriving DecidableEq, Repr

/-- The vector type `glm::ivec3`. -/
structure ivec3 where
  x : Int
  y : Int
  z : Int
deriving DecidableEq, Repr

/-- The vector type `glm::ivec4`. -/
structure ivec4 where
  x : Int
  y : Int
  z : Int
  w : Int
deriving DecidableEq, Repr

/-- The vector type `glm::uvec1`. -/
structure uvec1 where
  x : Nat
deriving DecidableEq, Repr

/-- The vector type `glm::uvec2`. -/
structure uvec2 where
  x : Nat
  y : Nat
deriving DecidableEq, Repr

/-- The vector type `glm::uvec3`. -/
structure uvec3 where
  x : Nat
  y : Nat
  z : Nat
deriving DecidableEq, Repr

/-- The vector type `glm::uvec4`. -/
structure uvec4 where
  x : Nat
  y : Nat
  z : Nat
  w : Nat
deriving DecidableEq, Repr

/-- The vector type `glm::dvec1`. -/
structure dvec1 where
  x : GLdouble
deriving DecidableEq, Repr

/-- The vector type `glm::dvec2`. -/
structure dvec2 where
  x : GLdouble
  y : GLdouble
deriving DecidableEq, Repr

/-- The vector type `glm::dvec3`. -/
structure dvec3 where
  x : GLdouble
  y : GLdouble
  z : GLdouble
deriving DecidableEq, Repr

/-- The vector type `glm::dvec4`. -/
structure dvec4 where
  x : GLdouble
  y : GLdouble
  z : GLdouble
  w : GLdouble
deriving DecidableEq, Repr

/-- The enum `ContextRobustness`. -/
inductive ContextRobustness where
  | None
  | NoResetNotification
  | LoseContextOnReset
deriving DecidableEq, Repr

/-- The enum `ContextReleaseBehavior`. -/
inductive ContextReleaseBehavior where
  | Any
  | Flush
  | None
deriving DecidableEq, Repr

/-- The hints the code passes to `glfwWindowHint`. -/
inductive WindowHint where
  | GLFW_DECORATED
  | GLFW_RESIZABLE
  | GLFW_VISIBLE
  | GLFW_AUTO_ICONIFY
  | GLFW_FLOATING
  | GLFW_MAXIMIZED
  | GLFW_CENTER_CURSOR
  | GLFW_TRANSPARENT_FRAMEBUFFER
  | GLFW_FOCUS_ON_SHOW
  | GLFW_SCALE_TO_MONITOR
  | GLFW_RED_BITS
  | GLFW_GREEN_BITS
  | GLFW_BLUE_BITS
  | GLFW_ALPHA_BITS
  | GLFW_DEPTH_BITS
  | GLFW_STENCIL_BITS
  | GLFW_REFRESH_RATE
  | GLFW_CONTEXT_VERSION_MAJOR
  | GLFW_CONTEXT_VERSION_MINOR
  | GLFW_CLIENT_API
  | GLFW_CONTEXT_CREATION_API
  | GLFW_CONTEXT_ROBUSTNESS
  | GLFW_CONTEXT_RELEASE_BEHAVIOR
  | GLFW_OPENGL_PROFILE
  | GLFW_OPENGL_DEBUG_CONTEXT
deriving DecidableEq, Repr

/-- The values the code passes to `glfwWindowHint`: an `int`, a `bool`, one of three
constants of the windowing library, or an enumerator cast to `int`. -/
inductive HintValue where
  | int (value : Int)
  | bool (value : Bool)
  | GLFW_OPENGL_API
  | GLFW_NATIVE_CONTEXT_API
  | GLFW_OPENGL_CORE_PROFILE
  | robustness (value : ContextRobustness)
  | release_behavior (value : ContextReleaseBehavior)
deriving DecidableEq, Repr

/-- One typed native upload call `glProgramUniform{1,2,3,4}{f,i,ui,d}`, with its arguments. -/
inductive UniformCall where
  | glProgramUniform1f (program : Nat) (location : Int) (x : GLfloat)
  | glProgramUniform1i (program : Nat) (location : Int) (x : Int)
  | glProgramUniform1ui (program : Nat) (location : Int) (x : Nat)
  | glProgramUniform1d (program : Nat) (location : Int) (x : GLdouble)
  | glProgramUniform2f (program : Nat) (location : Int) (x : GLfloat) (y : GLfloat)
  | glProgramUniform2i (program : Nat) (location : Int) (x : Int) (y : Int)
  | glProgramUniform2ui (program : Nat) (location : Int) (x : Nat) (y : Nat)
  | glProgramUniform2d (program : Nat) (location : Int) (x : GLdouble) (y : GLdouble)
  | glProgramUniform3f (program : Nat) (location : Int) (x : GLfloat) (y : GLfloat) (z : GLfloat)
  | glProgramUniform3i (program : Nat) (location : Int) (x : Int) (y : Int) (z : Int)
  | glProgramUniform3ui (program : Nat) (location : Int) (x : Nat) (y : Nat) (z : Nat)
  | glProgramUniform3d (program : Nat) (location : Int) (x : GLdouble) (y : GLdouble) (z : GLdouble)
  | glProgramUniform4f (program : Nat) (location : Int) (x : GLfloat) (y : GLfloat) (z : GLfloat) (w : GLfloat)
  | glProgramUniform4i (program : Nat) (location : Int) (x : Int) (y : Int) (z : Int) (w : Int)
  | glProgramUniform4ui (program : Nat) (location : Int) (x : Nat) (y : Nat) (z : Nat) (w : Nat)
  | glProgramUniform4d (program : Nat) (location : Int) (x : GLdouble) (y : GLdouble) (z : GLdouble) (w : GLdouble)
deriving DecidableEq, Repr

set_option maxHeartbeats 2000000 in
/-- One call into the native graphics or windowing library, with its arguments
(and, for calls that hand a value back, the value handed back). -/
inductive NativeCall where
  | glCreateBuffers (result : Nat)
  | glNamedBufferData (buffer : Nat) (size : Int) (has_data : Bool) (usage : Nat)
  | glDeleteBuffers (buffer : Nat)
  | glBindBuffer (target : Nat) (buffer : Nat)
  | glCreateVertexArrays (result : Nat)
  | glDeleteVertexArrays (array : Nat)
  | glBindVertexArray (array : Nat)
  | glVertexArrayAttribBinding (vaobj : Nat) (attribindex : Nat) (bindingindex : Nat)
  | glVertexArrayAttribFormat (vaobj : Nat) (attribindex : Nat) (size : Int) (type : Nat)
      (normalized : Bool) (relativeoffset : Nat)
  | glEnableVertexArrayAttrib (vaobj : Nat) (index : Nat)
  | glVertexArrayVertexBuffer (vaobj : Nat) (bindingindex : Nat) (buffer : Nat) (offset : Int)
      (stride : Int)
  | glCreateProgram (result : Nat)
  | glCreateShader (type : ShaderType) (result : Nat)
  | glShaderSource (shader : Nat) (source : String)
  | glCompileShader (shader : Nat)
  | glGetShaderiv_compile_status (shader : Nat) (result : Int)
  | glGetShaderiv_info_log_length (shader : Nat) (result : Int)
  | glGetShaderInfoLog (shader : Nat) (length : Int)
  | glDeleteShader (shader : Nat)
  | glAttachShader (program : Nat) (shader : Nat)
  | glLinkProgram (program : Nat)
  | glGetProgramiv_link_status (program : Nat) (result : Int)
  | glGetProgramiv_info_log_length (program : Nat) (result : Int)
  | glGetProgramInfoLog (program : Nat) (length : Int)
  | glDeleteProgram (program : Nat)
  | glUseProgram (program : Nat)
  | glBindAttribLocation (program : Nat) (index : Nat) (name : String)
  | glfwInit
  | glfwTerminate
  | glfwGetMonitors (result : List Nat)
  | glfwSetMonitorCallback
  | spdlog_error (message : LogMessage)
  | glfwGetVideoMode (monitor : Nat) (result : GLFWvidmode)
  | glfwGetMonitorPos (monitor : Nat) (xpos : Int) (ypos : Int)
  | glfwGetWindowPos (window : Option Nat) (xpos : Int) (ypos : Int)
  | glfwSetWindowAttrib (window : Option Nat) (attrib : WindowAttrib) (value : Bool)
  | glfwSetWindowMonitor (window : Option Nat) (monitor : Option Nat) (xpos : Int) (ypos : Int)
      (width : Int) (height : Int) (refreshRate : Int)
  | glfwSetWindowPos (window : Option Nat) (xpos : Int) (ypos : Int)
  | glfwSetWindowSize (window : Option Nat) (width : Int) (height : Int)
  | glGetUniformLocation (program : Nat) (name : String) (result : Int)
  | glProgramUniform (call : UniformCall)
  | glfwDefaultWindowHints
  | glfwWindowHint (hint : WindowHint) (value : HintValue)
  | glfwCreateWindow (width : Int) (height : Int) (title : String) (monitor : Option Nat)
      (result : Option Nat)
  | glfwGetError (description : String)
  | std_cerr_failed_to_create_window (error_text : String)
  | glfwMakeContextCurrent (window : Option Nat)
  | gladLoadGL
deriving DecidableEq, Repr

/-! ## Buffer (buffer.hpp, buffer.cpp) -/

/-- The class `Buffer`: a driver identifier and the `owned` flag. -/
structure Buffer where
  owned : Bool
  handle : Nat
deriving DecidableEq, Repr

/-- The destructor `Buffer::~Buffer`. -/
def Buffer.destroy (self : Buffer) : List NativeCall :=
  if self.owned then [NativeCall.glDeleteBuffers self.handle] else []

/-- The helper `raw_buffer_create`; `b` is the name written by `glCreateBuffers`. -/
def raw_buffer_create (b : Nat) : Nat × List NativeCall :=
  (b, [NativeCall.glCreateBuffers b])

/-- The helper `raw_load_buffer`. -/
def raw_load_buffer (b : Nat) (size : Nat) (has_data : Bool) (usage : Nat) : Nat × List NativeCall :=
  let r := raw_buffer_create b
  (r.1, r.2 ++ [NativeCall.glNamedBufferData r.1 (to_intptr (size : Int)) has_data usage])

/-- The helper `raw_allocate_buffer`: a load with a null data pointer. -/
def raw_allocate_buffer (b : Nat) (size : Nat) (usage : Nat) : Nat × List NativeCall :=
  raw_load_buffer b size false usage

/-- The factory `Buffer::wrap`. -/
def Buffer.wrap (handle : Nat) (take_ownership : Bool) : Buffer × List NativeCall :=
  ({ owned := take_ownership, handle := handle }, [])

/-- The factory `Buffer::create`. -/
def Buffer.create (b : Nat) : Buffer × List NativeCall :=
  let r := raw_buffer_create b
  let w := Buffer.wrap r.1 true
  (w.1, r.2 ++ w.2)

/-- The factory `Buffer::allocate`. -/
def Buffer.allocate (b : Nat) (size : Nat) (usage : Nat) : Buffer × List NativeCall :=
  let r := raw_allocate_buffer b size usage
  let w := Buffer.wrap r.1 true
  (w.1, r.2 ++ w.2)

/-- The factory `Buffer::load` (size and data pointer form). -/
def Buffer.load (b : Nat) (size : Nat) (has_data : Bool) (usage : Nat) : Buffer × List NativeCall :=
  let r := raw_load_buffer b size has_data usage
  let w := Buffer.wrap r.1 true
  (w.1, r.2 ++ w.2)

/-- The factory `Buffer::wrap_shared`. -/
def Buffer.wrap_shared (handle : Nat) (take_ownership : Bool) : Buffer × List NativeCall :=
  ({ owned := take_ownership, handle := handle }, [])

/-- The factory `Buffer::create_shared`. -/
def Buffer.create_shared (b : Nat) : Buffer × List NativeCall :=
  let r := raw_buffer_create b
  let w := Buffer.wrap_shared r.1 true
  (w.1, r.2 ++ w.2)

/-- The factory `Buffer::allocate_shared`. -/
def Buffer.allocate_shared (b : Nat) (size : Nat) (usage : Nat) : Buffer × List NativeCall :=
  let r := raw_allocate_buffer b size usage
  let w := Buffer.wrap_shared r.1 true
  (w.1, r.2 ++ w.2)

/-- The factory `Buffer::load_shared` (size and data pointer form). -/
def Buffer.load_shared (b : Nat) (size : Nat) (has_data : Bool) (usage : Nat) :
    Buffer × List NativeCall :=
  let r := raw_load_buffer b size has_data usage
  let w := Buffer.wrap_shared r.1 true
  (w.1, r.2 ++ w.2)

/-- The template `Buffer::load(const std::vector<T>&, usage)` of buffer.hpp: it forwards to
`load_shared` with `data.size() * sizeof(T)` bytes and the pointer `data.data()`
(`has_data` tells whether that pointer is non-null). -/
def Buffer.load_vector (b : Nat) (count : Nat) (sizeof_T : Nat) (has_data : Bool) (usage : Nat) :
    Buffer × List NativeCall :=
  Buffer.load_shared b (count * sizeof_T % 18446744073709551616) has_data usage

/-- The template `Buffer::load_shared(const std::vector<T>&, usage)` of buffer.hpp. -/
def Buffer.load_shared_vector (b : Nat) (count : Nat) (sizeof_T : Nat) (has_data : Bool)
    (usage : Nat) : Buffer × List NativeCall :=
  Buffer.load_shared b (count * sizeof_T % 18446744073709551616) has_data usage

/-- The accessor `Buffer::get_handle`. -/
def Buffer.get_handle (self : Buffer) : Nat := self.handle

/-! ## VertexArray (vertex_array.hpp, vertex_array.cpp) -/

/-- The struct `VertexAttribute`. -/
structure VertexAttribute where
  size : Nat
  offset : Nat
  name : String
deriving DecidableEq, Repr

/-- The class `VertexArray`.  The `std::unordered_map` `attribute_names` is kept as an
association list with one entry per key. -/
structure VertexArray where
  handle : Nat
  owned : Bool
  next_binding : Nat
  next_attribute : Nat
  attribute_names : List (String × Nat)
deriving DecidableEq, Repr

/-- The assignment `m[key] = value` on the `std::unordered_map`: an existing entry for
the key is overwritten, otherwise a new entry is added. -/
def map_assign : List (String × Nat) → String → Nat → List (String × Nat)
  | [], key, value => [(key, value)]
  | (k, v) :: rest, key, value =>
      if k = key then (k, value) :: rest else (k, v) :: map_assign rest key value

/-- Look-up of a key in the map. -/
def map_find : List (String × Nat) → String → Option Nat
  | [], _ => none
  | (k, v) :: rest, key => if k = key then some v else map_find rest key

/-- The constructor `VertexArray::VertexArray(handle, owned)` with the default member
initialisers `next_binding = 0`, `next_attribute = 0` and an empty map. -/
def VertexArray.mk_new (handle : Nat) (owned : Bool) : VertexArray :=
  { handle := handle, owned := owned, next_binding := 0, next_attribute := 0,
    attribute_names := [] }

/-- The factory `VertexArray::wrap`. -/
def VertexArray.wrap (handle : Nat) (take_ownership : Bool) : VertexArray × List NativeCall :=
  (VertexArray.mk_new handle take_ownership, [])

/-- The factory `VertexArray::create`; `h` is the name written by `glCreateVertexArrays`. -/
def VertexArray.create (h : Nat) : VertexArray × List NativeCall :=
  let w := VertexArray.wrap h true
  (w.1, [NativeCall.glCreateVertexArrays h] ++ w.2)

/-- The factory `VertexArray::wrap_shared`. -/
def VertexArray.wrap_shared (handle : Nat) (take_ownership : Bool) :
    VertexArray × List NativeCall :=
  (VertexArray.mk_new handle take_ownership, [])

/-- The factory `VertexArray::create_shared`. -/
def VertexArray.create_shared (h : Nat) : VertexArray × List NativeCall :=
  let w := VertexArray.wrap_shared h true
  (w.1, [NativeCall.glCreateVertexArrays h] ++ w.2)

/-- The destructor `VertexArray::~VertexArray`. -/
def VertexArray.destroy (self : VertexArray) : List NativeCall :=
  if self.owned then [NativeCall.glDeleteVertexArrays self.handle] else []

/-- State carried round the loop of the packed `vertex_buffer` overload: the object,
the local `int stride`, and the native calls issued so far. -/
structure PackedLoop where
  self : VertexArray
  stride : Int
  calls : List NativeCall
deriving DecidableEq, Repr

/-- One iteration of the loop of the packed overload
`vertex_buffer(unsigned int, const std::vector<std::pair<size_t,std::string>>&)`. -/
def packed_body (st : PackedLoop) (pair : Nat × String) : PackedLoop :=
  { self :=
      { st.self with
        attribute_names := map_assign st.self.attribute_names pair.2 st.self.next_attribute
        next_attribute := (st.self.next_attribute + 1) % 4294967296 }
    stride := to_int (st.stride + to_int ((pair.1 * sizeof_float % 18446744073709551616 : Nat) : Int))
    calls := st.calls ++
      [ NativeCall.glVertexArrayAttribBinding st.self.handle st.self.next_attribute
          st.self.next_binding,
        NativeCall.glVertexArrayAttribFormat st.self.handle st.self.next_attribute
          (to_int (pair.1 : Int)) GL_FLOAT false (to_uint st.stride),
        NativeCall.glEnableVertexArrayAttrib st.self.handle st.self.next_attribute ] }

/-- The packed overload
`VertexArray::vertex_buffer(unsigned int buffer, const std::vector<std::pair<size_t,std::string>>&)`:
the updated object and the native calls issued. -/
def VertexArray.vertex_buffer (self : VertexArray) (buffer : Nat)
    (attributes : List (Nat × String)) : VertexArray × List NativeCall :=
  let st := attributes.foldl packed_body { self := self, stride := 0, calls := [] }
  ({ st.self with next_binding := (st.self.next_binding + 1) % 4294967296 },
   st.calls ++
     [NativeCall.glVertexArrayVertexBuffer st.self.handle st.self.next_binding buffer 0 st.stride])

/-- State carried round the loop of the explicit `vertex_buffer` overload: the object,
the `size_t stride` parameter (which the loop modifies), and the native calls issued so far. -/
structure ExplicitLoop where
  self : VertexArray
  stride : Nat
  calls : List NativeCall
deriving DecidableEq, Repr

/-- One iteration of the loop of the explicit overload
`vertex_buffer(unsigned int, const std::vector<VertexAttribute>&, size_t, size_t)`. -/
def explicit_body (st : ExplicitLoop) (attrib : VertexAttribute) : ExplicitLoop :=
  { self :=
      { st.self with
        attribute_names := map_assign st.self.attribute_names attrib.name st.self.next_attribute
        next_attribute := (st.self.next_attribute + 1) % 4294967296 }
    stride := to_size_t ((st.stride : Int) +
      to_int ((attrib.size * sizeof_float % 18446744073709551616 : Nat) : Int))
    calls := st.calls ++
      [ NativeCall.glVertexArrayAttribBinding st.self.handle st.self.next_attribute
          st.self.next_binding,
        NativeCall.glVertexArrayAttribFormat st.self.handle st.self.next_attribute
          (to_int (attrib.size : Int)) GL_FLOAT false (to_uint (attrib.offset : Int)),
        NativeCall.glEnableVertexArrayAttrib st.self.handle st.self.next_attribute ] }

/-- The explicit overload
`VertexArray::vertex_buffer(unsigned int buffer, const std::vector<VertexAttribute>&, size_t stride, size_t offset)`:
the updated object and the native calls issued. -/
def VertexArray.vertex_buffer_stride (self : VertexArray) (buffer : Nat)
    (attributes : List VertexAttribute) (stride : Nat) (offset : Nat) :
    VertexArray × List NativeCall :=
  let st := attributes.foldl explicit_body { self := self, stride := stride, calls := [] }
  ({ st.self with next_binding := (st.self.next_binding + 1) % 4294967296 },
   st.calls ++
     [NativeCall.glVertexArrayVertexBuffer st.self.handle st.self.next_binding buffer
        (to_int (offset : Int)) (to_int (st.stride : Int))])

/-- The packed overloads taking a `Buffer` (shared pointer, unique pointer and raw pointer
have the same body): forward `buffer->get_handle()`. -/
def VertexArray.vertex_buffer_of_buffer (self : VertexArray) (buffer : Buffer)
    (attributes : List (Nat × String)) : VertexArray × List NativeCall :=
  self.vertex_buffer buffer.get_handle attributes

/-- The explicit overloads taking a `Buffer` (shared pointer, unique pointer and raw pointer
have the same body): they call `vertex_buffer(buffer->get_handle(), attributes, stride)`, so
the raw overload runs with its default `offset = 0`. -/
def VertexArray.vertex_buffer_stride_of_buffer (self : VertexArray) (buffer : Buffer)
    (attributes : List VertexAttribute) (stride : Nat) (_offset : Nat) :
    VertexArray × List NativeCall :=
  self.vertex_buffer_stride buffer.get_handle attributes stride 0

/-- One `vertex_buffer` call made by a client, with its arguments. -/
inductive AttachCall where
  | packed (buffer : Nat) (attributes : List (Nat × String))
  | explicit (buffer : Nat) (attributes : List VertexAttribute) (stride : Nat) (offset : Nat)
  | packed_of_buffer (buffer : Buffer) (attributes : List (Nat × String))
  | explicit_of_buffer (buffer : Buffer) (attributes : List VertexAttribute) (stride : Nat)
      (offset : Nat)
deriving DecidableEq, Repr

/-- Number of descriptors passed by a `vertex_buffer` call. -/
def AttachCall.count : AttachCall → Nat
  | AttachCall.packed _ attributes => attributes.length
  | AttachCall.explicit _ attributes _ _ => attributes.length
  | AttachCall.packed_of_buffer _ attributes => attributes.length
  | AttachCall.explicit_of_buffer _ attributes _ _ => attributes.length

/-- The attribute names passed by a `vertex_buffer` call, in order. -/
def AttachCall.names : AttachCall → List String
  | AttachCall.packed _ attributes => attributes.map Prod.snd
  | AttachCall.explicit _ attributes _ _ => attributes.map VertexAttribute.name
  | AttachCall.packed_of_buffer _ attributes => attributes.map Prod.snd
  | AttachCall.explicit_of_buffer _ attributes _ _ => attributes.map VertexAttribute.name

/-- Dispatch of one client call to the overload it names. -/
def VertexArray.attach (self : VertexArray) : AttachCall → VertexArray × List NativeCall
  | AttachCall.packed buffer attributes => self.vertex_buffer buffer attributes
  | AttachCall.explicit buffer attributes stride offset =>
      self.vertex_buffer_stride buffer attributes stride offset
  | AttachCall.packed_of_buffer buffer attributes => self.vertex_buffer_of_buffer buffer attributes
  | AttachCall.explicit_of_buffer buffer attributes stride offset =>
      self.vertex_buffer_stride_of_buffer buffer attributes stride offset

/-- A sequence of client calls on one array, executed in order; the native calls of the
successive calls are concatenated. -/
def VertexArray.attach_all (self : VertexArray) : List AttachCall → VertexArray × List NativeCall
  | [] => (self, [])
  | c :: rest =>
      let r := self.attach c
      let r2 := r.1.attach_all rest
      (r2.1, r.2 ++ r2.2)

/-- The raw buffer identifier a client call passes to the raw overload. -/
def AttachCall.buffer_id : AttachCall → Nat
  | AttachCall.packed buffer _ => buffer
  | AttachCall.explicit buffer _ _ _ => buffer
  | AttachCall.packed_of_buffer buffer _ => buffer.get_handle
  | AttachCall.explicit_of_buffer buffer _ _ _ => buffer.get_handle

/-- Total number of descriptors passed by a sequence of client calls. -/
def totalCount (calls : List AttachCall) : Nat :=
  (calls.map AttachCall.count).sum

/-! ## Shader (shader.hpp, shader.cpp): creation and destruction -/

/-- The struct `ShaderSource`. -/
structure ShaderSource where
  type : ShaderType
  source : String
deriving DecidableEq, Repr

/-- The class `Shader`: a program identifier and the `owned` flag. -/
structure Shader where
  handle : Nat
  owned : Bool
deriving DecidableEq, Repr

/-- What the driver answers while one shader module is created: the name returned by
`glCreateShader`, the `GL_COMPILE_STATUS`, the `GL_INFO_LOG_LENGTH` and the info log. -/
structure ModuleReply where
  shader : Nat
  compile_status : Int
  log_length : Int
  log_text : String
deriving DecidableEq, Repr

/-- What the driver answers during one run of `create_shader`: the name returned by
`glCreateProgram`, the answers for the module compiled at each position of the source list,
the `GL_LINK_STATUS`, and the program's info log length and text. -/
structure ShaderDriver where
  program : Nat
  module : Nat → ModuleReply
  link_status : Int
  link_log_length : Int
  link_log_text : String

/-- The destructor `Shader::~Shader`. -/
def Shader.destroy (self : Shader) : List NativeCall :=
  if self.owned then [NativeCall.glDeleteProgram self.handle] else []

/-- The helper `create_shader_module`: the value returned and the native calls issued. -/
def create_shader_module (source : ShaderSource) (r : ModuleReply) : Nat × List NativeCall :=
  let calls :=
    [ NativeCall.glCreateShader source.type r.shader,
      NativeCall.glShaderSource r.shader source.source,
      NativeCall.glCompileShader r.shader,
      NativeCall.glGetShaderiv_compile_status r.shader r.compile_status ]
  if r.compile_status ≠ GL_TRUE then
    (0, calls ++
      [ NativeCall.glGetShaderiv_info_log_length r.shader r.log_length,
        NativeCall.glGetShaderInfoLog r.shader r.log_length,
        NativeCall.spdlog_error (LogMessage.failed_to_compile_shader r.log_text),
        NativeCall.glDeleteShader r.shader ])
  else
    (r.shader, calls)

/-- The loop of `create_shader` over the sources from position `k` on, with the modules
attached so far in `shaders`.  The first component is `none` when the loop leaves the
function through its `return 0`, and the final `shaders` vector otherwise. -/
def create_shader_loop (d : ShaderDriver) :
    Nat → List ShaderSource → List Nat → List NativeCall → Option (List Nat) × List NativeCall
  | _, [], shaders, calls => (some shaders, calls)
  | k, source :: rest, shaders, calls =>
      let m := create_shader_module source (d.module k)
      if m.1 = 0 then
        (none, calls ++ m.2 ++
          [NativeCall.spdlog_error LogMessage.module_failed_not_linking] ++
          shaders.map NativeCall.glDeleteShader)
      else
        create_shader_loop d (k + 1) rest (shaders ++ [m.1])
          (calls ++ m.2 ++ [NativeCall.glAttachShader d.program m.1])

/-- The helper `create_shader`: the value returned and the native calls issued. -/
def create_shader (sources : List ShaderSource) (d : ShaderDriver) : Nat × List NativeCall :=
  match create_shader_loop d 0 sources [] [NativeCall.glCreateProgram d.program] with
  | (none, calls) => (0, calls)
  | (some shaders, calls) =>
      let linked := calls ++
        [ NativeCall.glLinkProgram d.program,
          NativeCall.glGetProgramiv_link_status d.program d.link_status ]
      if d.link_status ≠ GL_TRUE then
        (0, linked ++
          [ NativeCall.glGetProgramiv_info_log_length d.program d.link_log_length,
            NativeCall.glGetProgramInfoLog d.program d.link_log_length,
            NativeCall.spdlog_error (LogMessage.failed_to_link_shader d.link_log_text) ] ++
          shaders.map NativeCall.glDeleteShader)
      else
        (d.program, linked ++ shaders.map NativeCall.glDeleteShader)

/-- An exception that leaves a function of the repository. -/
inductive Thrown where
  | length_error
deriving DecidableEq, Repr

/-- The helper `read_file`.  `files` gives the contents of every path that can be opened and
`none` for a path that cannot: there `tellg()` yields -1, and `buf.resize(end)` throws
`std::length_error`. -/
def read_file (files : String → Option String) (path : String) : Except Thrown String :=
  match files path with
  | some text => Except.ok text
  | none => Except.error Thrown.length_error

/-- The loop of `load_shader`: the paths are read in order into `loaded_sources`; an
exception thrown by `read_file` leaves the loop and the function. -/
def load_sources (files : String → Option String) :
    List (ShaderType × String) → Except Thrown (List ShaderSource)
  | [] => Except.ok []
  | source :: rest =>
      match read_file files source.2 with
      | Except.error e => Except.error e
      | Except.ok text =>
          match load_sources files rest with
          | Except.error e => Except.error e
          | Except.ok loaded => Except.ok ({ type := source.1, source := text } :: loaded)

/-- The helper `load_shader`: every path is read first, then the loaded sources are passed to
`create_shader`.  When a read throws, no native call has been issued yet. -/
def load_shader (sources : List (ShaderType × String)) (files : String → Option String)
    (d : ShaderDriver) : Except Thrown (Nat × List NativeCall) :=
  match load_sources files sources with
  | Except.error e => Except.error e
  | Except.ok loaded => Except.ok (create_shader loaded d)

/-- The factory `Shader::wrap`. -/
def Shader.wrap (handle : Nat) (take_ownership : Bool) : Shader × List NativeCall :=
  ({ handle := handle, owned := take_ownership }, [])

/-- The factory `Shader::create`. -/
def Shader.create (sources : List ShaderSource) (d : ShaderDriver) : Shader × List NativeCall :=
  let r := create_shader sources d
  let w := Shader.wrap r.1 true
  (w.1, r.2 ++ w.2)

/-- The factory `Shader::load`: an exception thrown in `load_shader` propagates and no
wrapper is made. -/
def Shader.load (sources : List (ShaderType × String)) (files : String → Option String)
    (d : ShaderDriver) : Except Thrown (Shader × List NativeCall) :=
  match load_shader sources files d with
  | Except.error e => Except.error e
  | Except.ok r =>
      let w := Shader.wrap r.1 true
      Except.ok (w.1, r.2 ++ w.2)

/-- The factory `Shader::wrap_shared`. -/
def Shader.wrap_shared (handle : Nat) (take_ownership : Bool) : Shader × List NativeCall :=
  ({ handle := handle, owned := take_ownership }, [])

/-- The factory `Shader::create_shared`. -/
def Shader.create_shared (sources : List ShaderSource) (d : ShaderDriver) :
    Shader × List NativeCall :=
  let r := create_shader sources d
  let w := Shader.wrap_shared r.1 true
  (w.1, r.2 ++ w.2)

/-- The factory `Shader::load_shared`: an exception thrown in `load_shader` propagates and no
wrapper is made. -/
def Shader.load_shared (sources : List (ShaderType × String)) (files : String → Option String)
    (d : ShaderDriver) : Except Thrown (Shader × List NativeCall) :=
  match load_shader sources files d with
  | Except.error e => Except.error e
  | Except.ok r =>
      let w := Shader.wrap_shared r.1 true
      Except.ok (w.1, r.2 ++ w.2)

/-! ## Shader: uniform uploads of 1 to 4 components (shader.hpp, shader.cpp) -/

/-- The member `Shader::get_uniform_location`; `locations` is what `glGetUniformLocation`
answers for this program. -/
def Shader.get_uniform_location (self : Shader) (locations : String → Int) (name : String) :
    Int × List NativeCall :=
  (locations name, [NativeCall.glGetUniformLocation self.handle name (locations name)])

/-- The overload `Shader::uniform_1f(int location, const float&)`. -/
def Shader.uniform_1f (self : Shader) (location : Int) (x : GLfloat) : List NativeCall :=
  [NativeCall.glProgramUniform (UniformCall.glProgramUniform1f self.handle location x)]

/-- The overload `Shader::uniform_1f(const std::string& name, const float&)`. -/
def Shader.uniform_1f_name (self : Shader) (locations : String → Int) (name : String)
    (x : GLfloat) : List NativeCall :=
  let location := self.get_uniform_location locations name
  location.2 ++ self.uniform_1f location.1 x

/-- The overload `Shader::uniform_1f(int location, const glm::vec1&)`. -/
def Shader.uniform_1f_vec (self : Shader) (location : Int) (v : vec1) : List NativeCall :=
  self.uniform_1f location v.x

/-- The overload `Shader::uniform_1f(const std::string& name, const glm::vec1&)`. -/
def Shader.uniform_1f_name_vec (self : Shader) (locations : String → Int) (name : String)
    (v : vec1) : List NativeCall :=
  let location := self.get_uniform_location locations name
  location.2 ++ self.uniform_1f_vec location.1 v

/-- The overload `Shader::uniform_1i(int location, const int&)`. -/
def Shader.uniform_1i (self : Shader) (location : Int) (x : Int) : List NativeCall :=
  [NativeCall.glProgramUniform (UniformCall.glProgramUniform1i self.handle location x)]

/-- The overload `Shader::uniform_1i(const std::string& name, const int&)`. -/
def Shader.uniform_1i_name (self : Shader) (locations : String → Int) (name : String)
    (x : Int) : List NativeCall :=
  let location := self.get_uniform_location locations name
  location.2 ++ self.uniform_1i location.1 x

/-- The overload `Shader::uniform_1i(int location, const glm::ivec1&)`. -/
def Shader.uniform_1i_vec (self : Shader) (location : Int) (v : ivec1) : List NativeCall :=
  self.uniform_1i location v.x

/-- The overload `Shader::uniform_1i(const std::string& name, const glm::ivec1&)`. -/
def Shader.uniform_1i_name_vec (self : Shader) (locations : String → Int) (name : String)
    (v : ivec1) : List NativeCall :=
  let location := self.get_uniform_location locations name
  location.2 ++ self.uniform_1i_vec location.1 v

/-- The overload `Shader::uniform_1ui(int location, const unsigned int&)`. -/
def Shader.uniform_1ui (self : Shader) (location : Int) (x : Nat) : List NativeCall :=
  [NativeCall.glProgramUniform (UniformCall.glProgramUniform1ui self.handle location x)]

/-- The overload `Shader::uniform_1ui(const std::string& name, const unsigned int&)`. -/
def Shader.uniform_1ui_name (self : Shader) (locations : String → Int) (name : String)
    (x : Nat) : List NativeCall :=
  let location := self.get_uniform_location locations name
  location.2 ++ self.uniform_1ui location.1 x

/-- The overload `Shader::uniform_1ui(int location, const glm::uvec1&)`. -/
def Shader.uniform_1ui_vec (self : Shader) (location : Int) (v : uvec1) : List NativeCall :=
  self.uniform_1ui location v.x

/-- The overload `Shader::uniform_1ui(const std::string& name, const glm::uvec1&)`. -/
def Shader.uniform_1ui_name_vec (self : Shader) (locations : String → Int) (name : String)
    (v : uvec1) : List NativeCall :=
  let location := self.get_uniform_location locations name
  location.2 ++ self.uniform_1ui_vec location.1 v

/-- The overload `Shader::uniform_1d(int location, const double&)`. -/
def Shader.uniform_1d (self : Shader) (location : Int) (x : GLdouble) : List NativeCall :=
  [NativeCall.glProgramUniform (UniformCall.glProgramUniform1d self.handle location x)]

/-- The overload `Shader::uniform_1d(const std::string& name, const double&)`. -/
def Shader.uniform_1d_name (self : Shader) (locations : String → Int) (name : String)
    (x : GLdouble) : List NativeCall :=
  let location := self.get_uniform_location locations name
  location.2 ++ self.uniform_1d location.1 x

/-- The overload `Shader::uniform_1d(int location, const glm::dvec1&)`. -/
def Shader.uniform_1d_vec (self : Shader) (location : Int) (v : dvec1) : List NativeCall :=
  self.uniform_1d location v.x

/-- The overload `Shader::uniform_1d(const std::string& name, const glm::dvec1&)`. -/
def Shader.uniform_1d_name_vec (self : Shader) (locations : String → Int) (name : String)
    (v : dvec1) : List NativeCall :=
  let location := self.get_uniform_location locations name
  location.2 ++ self.uniform_1d_vec location.1 v

/-- The overload `Shader::uniform_2f(int location, const float&, const float&)`. -/
def Shader.uniform_2f (self : Shader) (location : Int) (x : GLfloat) (y : GLfloat) : List NativeCall :=
  [NativeCall.glProgramUniform (UniformCall.glProgramUniform2f self.handle location x y)]

/-- The overload `Shader::uniform_2f(const std::string& name, const float&, const float&)`. -/
def Shader.uniform_2f_name (self : Shader) (locations : String → Int) (name : String)
    (x : GLfloat) (y : GLfloat) : List NativeCall :=
  let location := self.get_uniform_location locations name
  location.2 ++ self.uniform_2f location.1 x y

/-- The overload `Shader::uniform_2f(int location, const glm::vec2&)`. -/
def Shader.uniform_2f_vec (self : Shader) (location : Int) (v : vec2) : List NativeCall :=
  self.uniform_2f location v.x v.y

/-- The overload `Shader::uniform_2f(const std::string& name, const glm::vec2&)`. -/
def Shader.uniform_2f_name_vec (self : Shader) (locations : String → Int) (name : String)
    (v : vec2) : List NativeCall :=
  let location := self.get_uniform_location locations name
  location.2 ++ self.uniform_2f_vec location.1 v

/-- The overload `Shader::uniform_2i(int location, const int&, const int&)`. -/
def Shader.uniform_2i (self : Shader) (location : Int) (x : Int) (y : Int) : List NativeCall :=
  [NativeCall.glProgramUniform (UniformCall.glProgramUniform2i self.handle location x y)]

/-- The overload `Shader::uniform_2i(const std::string& name, const int&, const int&)`. -/
def Shader.uniform_2i_name (self : Shader) (locations : String → Int) (name : String)
    (x : Int) (y : Int) : List NativeCall :=
  let location := self.get_uniform_location locations name
  location.2 ++ self.uniform_2i location.1 x y

/-- The overload `Shader::uniform_2i(int location, const glm::ivec2&)`. -/
def Shader.uniform_2i_vec (self : Shader) (location : Int) (v : ivec2) : List NativeCall :=
  self.uniform_2i location v.x v.y

/-- The overload `Shader::uniform_2i(const std::string& name, const glm::ivec2&)`. -/
def Shader.uniform_2i_name_vec (self : Shader) (locations : String → Int) (name : String)
    (v : ivec2) : List NativeCall :=
  let location := self.get_uniform_location locations name
  location.2 ++ self.uniform_2i_vec location.1 v

/-- The overload `Shader::uniform_2ui(int location, const unsigned int&, const unsigned int&)`. -/
def Shader.uniform_2ui (self : Shader) (location : Int) (x : Nat) (y : Nat) : List NativeCall :=
  [NativeCall.glProgramUniform (UniformCall.glProgramUniform2ui self.handle location x y)]

/-- The overload `Shader::uniform_2ui(const std::string& name, const unsigned int&, const unsigned int&)`. -/
def Shader.uniform_2ui_name (self : Shader) (locations : String → Int) (name : String)
    (x : Nat) (y : Nat) : List NativeCall :=
  let location := self.get_uniform_location locations name
  location.2 ++ self.uniform_2ui location.1 x y

/-- The overload `Shader::uniform_2ui(int location, const glm::uvec2&)`. -/
def Shader.uniform_2ui_vec (self : Shader) (location : Int) (v : uvec2) : List NativeCall :=
  self.uniform_2ui location v.x v.y

/-- The overload `Shader::uniform_2ui(const std::string& name, const glm::uvec2&)`. -/
def Shader.uniform_2ui_name_vec (self : Shader) (locations : String → Int) (name : String)
    (v : uvec2) : List NativeCall :=
  let location := self.get_uniform_location locations name
  location.2 ++ self.uniform_2ui_vec location.1 v

/-- The overload `Shader::uniform_2d(int location, const double&, const double&)`. -/
def Shader.uniform_2d (self : Shader) (location : Int) (x : GLdouble) (y : GLdouble) : List NativeCall :=
  [NativeCall.glProgramUniform (UniformCall.glProgramUniform2d self.handle location x y)]

/-- The overload `Shader::uniform_2d(const std::string& name, const double&, const double&)`. -/
def Shader.uniform_2d_name (self : Shader) (locations : String → Int) (name : String)
    (x : GLdouble) (y : GLdouble) : List NativeCall :=
  let location := self.get_uniform_location locations name
  location.2 ++ self.uniform_2d location.1 x y

/-- The overload `Shader::uniform_2d(int location, const glm::dvec2&)`. -/
def Shader.uniform_2d_vec (self : Shader) (location : Int) (v : dvec2) : List NativeCall :=
  self.uniform_2d location v.x v.y

/-- The overload `Shader::uniform_2d(const std::string& name, const glm::dvec2&)`. -/
def Shader.uniform_2d_name_vec (self : Shader) (locations : String → Int) (name : String)
    (v : dvec2) : List NativeCall :=
  let location := self.get_uniform_location locations name
  location.2 ++ self.uniform_2d_vec location.1 v

/-- The overload `Shader::uniform_3f(int location, const float&, const float&, const float&)`. -/
def Shader.uniform_3f (self : Shader) (location : Int) (x : GLfloat) (y : GLfloat) (z : GLfloat) : List NativeCall :=
  [NativeCall.glProgramUniform (UniformCall.glProgramUniform3f self.handle location x y z)]

/-- The overload `Shader::uniform_3f(const std::string& name, const float&, const float&, const float&)`. -/
def Shader.uniform_3f_name (self : Shader) (locations : String → Int) (name : String)
    (x : GLfloat) (y : GLfloat) (z : GLfloat) : List NativeCall :=
  let location := self.get_uniform_location locations name
  location.2 ++ self.uniform_3f location.1 x y z

/-- The overload `Shader::uniform_3f(int location, const glm::vec3&)`. -/
def Shader.uniform_3f_vec (self : Shader) (location : Int) (v : vec3) : List NativeCall :=
  self.uniform_3f location v.x v.y v.z

/-- The overload `Shader::uniform_3f(const std::string& name, const glm::vec3&)`. -/
def Shader.uniform_3f_name_vec (self : Shader) (locations : String → Int) (name : String)
    (v : vec3) : List NativeCall :=
  let location := self.get_uniform_location locations name
  location.2 ++ self.uniform_3f_vec location.1 v

/-- The overload `Shader::uniform_3i(int location, const int&, const int&, const int&)`. -/
def Shader.uniform_3i (self : Shader) (location : Int) (x : Int) (y : Int) (z : Int) : List NativeCall :=
  [NativeCall.glProgramUniform (UniformCall.glProgramUniform3i self.handle location x y z)]

/-- The overload `Shader::uniform_3i(const std::string& name, const int&, const int&, const int&)`. -/
def Shader.uniform_3i_name (self : Shader) (locations : String → Int) (name : String)
    (x : Int) (y : Int) (z : Int) : List NativeCall :=
  let location := self.get_uniform_location locations name
  location.2 ++ self.uniform_3i location.1 x y z

/-- The overload `Shader::uniform_3i(int location, const glm::ivec3&)`. -/
def Shader.uniform_3i_vec (self : Shader) (location : Int) (v : ivec3) : List NativeCall :=
  self.uniform_3i location v.x v.y v.z

/-- The overload `Shader::uniform_3i(const std::string& name, const glm::ivec3&)`. -/
def Shader.uniform_3i_name_vec (self : Shader) (locations : String → Int) (name : String)
    (v : ivec3) : List NativeCall :=
  let location := self.get_uniform_location locations name
  location.2 ++ self.uniform_3i_vec location.1 v

/-- The overload `Shader::uniform_3ui(int location, const unsigned int&, const unsigned int&, const unsigned int&)`. -/
def Shader.uniform_3ui (self : Shader) (location : Int) (x : Nat) (y : Nat) (z : Nat) : List NativeCall :=
  [NativeCall.glProgramUniform (UniformCall.glProgramUniform3ui self.handle location x y z)]

/-- The overload `Shader::uniform_3ui(const std::string& name, const unsigned int&, const unsigned int&, const unsigned int&)`. -/
def Shader.uniform_3ui_name (self : Shader) (locations : String → Int) (name : String)
    (x : Nat) (y : Nat) (z : Nat) : List NativeCall :=
  let location := self.get_uniform_location locations name
  location.2 ++ self.uniform_3ui location.1 x y z

/-- The overload `Shader::uniform_3ui(int location, const glm::uvec3&)`. -/
def Shader.uniform_3ui_vec (self : Shader) (location : Int) (v : uvec3) : List NativeCall :=
  self.uniform_3ui location v.x v.y v.z

/-- The overload `Shader::uniform_3ui(const std::string& name, const glm::uvec3&)`. -/
def Shader.uniform_3ui_name_vec (self : Shader) (locations : String → Int) (name : String)
    (v : uvec3) : List NativeCall :=
  let location := self.get_uniform_location locations name
  location.2 ++ self.uniform_3ui_vec location.1 v

/-- The overload `Shader::uniform_3d(int location, const double&, const double&, const double&)`. -/
def Shader.uniform_3d (self : Shader) (location : Int) (x : GLdouble) (y : GLdouble) (z : GLdouble) : List NativeCall :=
  [NativeCall.glProgramUniform (UniformCall.glProgramUniform3d self.handle location x y z)]

/-- The overload `Shader::uniform_3d(const std::string& name, const double&, const double&, const double&)`. -/
def Shader.uniform_3d_name (self : Shader) (locations : String → Int) (name : String)
    (x : GLdouble) (y : GLdouble) (z : GLdouble) : List NativeCall :=
  let location := self.get_uniform_location locations name
  location.2 ++ self.uniform_3d location.1 x y z

/-- The overload `Shader::uniform_3d(int location, const glm::dvec3&)`. -/
def Shader.uniform_3d_vec (self : Shader) (location : Int) (v : dvec3) : List NativeCall :=
  self.uniform_3d location v.x v.y v.z

/-- The overload `Shader::uniform_3d(const std::string& name, const glm::dvec3&)`. -/
def Shader.uniform_3d_name_vec (self : Shader) (locations : String → Int) (name : String)
    (v : dvec3) : List NativeCall :=
  let location := self.get_uniform_location locations name
  location.2 ++ self.uniform_3d_vec location.1 v

/-- The overload `Shader::uniform_4f(int location, const float&, const float&, const float&, const float&)`. -/
def Shader.uniform_4f (self : Shader) (location : Int) (x : GLfloat) (y : GLfloat) (z : GLfloat) (w : GLfloat) : List NativeCall :=
  [NativeCall.glProgramUniform (UniformCall.glProgramUniform4f self.handle location x y z w)]

/-- The overload `Shader::uniform_4f(const std::string& name, const float&, const float&, const float&, const float&)`. -/
def Shader.uniform_4f_name (self : Shader) (locations : String → Int) (name : String)
    (x : GLfloat) (y : GLfloat) (z : GLfloat) (w : GLfloat) : List NativeCall :=
  let location := self.get_uniform_location locations name
  location.2 ++ self.uniform_4f location.1 x y z w

/-- The overload `Shader::uniform_4f(int location, const glm::vec4&)`. -/
def Shader.uniform_4f_vec (self : Shader) (location : Int) (v : vec4) : List NativeCall :=
  self.uniform_4f location v.x v.y v.z v.w

/-- The overload `Shader::uniform_4f(const std::string& name, const glm::vec4&)`. -/
def Shader.uniform_4f_name_vec (self : Shader) (locations : String → Int) (name : String)
    (v : vec4) : List NativeCall :=
  let location := self.get_uniform_location locations name
  location.2 ++ self.uniform_4f_vec location.1 v

/-- The overload `Shader::uniform_4i(int location, const int&, const int&, const int&, const int&)`. -/
def Shader.uniform_4i (self : Shader) (location : Int) (x : Int) (y : Int) (z : Int) (w : Int) : List NativeCall :=
  [NativeCall.glProgramUniform (UniformCall.glProgramUniform4i self.handle location x y z w)]

/-- The overload `Shader::uniform_4i(const std::string& name, const int&, const int&, const int&, const int&)`. -/
def Shader.uniform_4i_name (self : Shader) (locations : String → Int) (name : String)
    (x : Int) (y : Int) (z : Int) (w : Int) : List NativeCall :=
  let location := self.get_uniform_location locations name
  location.2 ++ self.uniform_4i location.1 x y z w

/-- The overload `Shader::uniform_4i(int location, const glm::ivec4&)`. -/
def Shader.uniform_4i_vec (self : Shader) (location : Int) (v : ivec4) : List NativeCall :=
  self.uniform_4i location v.x v.y v.z v.w

/-- The overload `Shader::uniform_4i(const std::string& name, const glm::ivec4&)`. -/
def Shader.uniform_4i_name_vec (self : Shader) (locations : String → Int) (name : String)
    (v : ivec4) : List NativeCall :=
  let location := self.get_uniform_location locations name
  location.2 ++ self.uniform_4i_vec location.1 v

/-- The overload `Shader::uniform_4ui(int location, const unsigned int&, const unsigned int&, const unsigned int&, const unsigned int&)`. -/
def Shader.uniform_4ui (self : Shader) (location : Int) (x : Nat) (y : Nat) (z : Nat) (w : Nat) : List NativeCall :=
  [NativeCall.glProgramUniform (UniformCall.glProgramUniform4ui self.handle location x y z w)]

/-- The overload `Shader::uniform_4ui(const std::string& name, const unsigned int&, const unsigned int&, const unsigned int&, const unsigned int&)`. -/
def Shader.uniform_4ui_name (self : Shader) (locations : String → Int) (name : String)
    (x : Nat) (y : Nat) (z : Nat) (w : Nat) : List NativeCall :=
  let location := self.get_uniform_location locations name
  location.2 ++ self.uniform_4ui location.1 x y z w

/-- The overload `Shader::uniform_4ui(int location, const glm::uvec4&)`. -/
def Shader.uniform_4ui_vec (self : Shader) (location : Int) (v : uvec4) : List NativeCall :=
  self.uniform_4ui location v.x v.y v.z v.w

/-- The overload `Shader::uniform_4ui(const std::string& name, const glm::uvec4&)`. -/
def Shader.uniform_4ui_name_vec (self : Shader) (locations : String → Int) (name : String)
    (v : uvec4) : List NativeCall :=
  let location := self.get_uniform_location locations name
  location.2 ++ self.uniform_4ui_vec location.1 v

/-- The overload `Shader::uniform_4d(int location, const double&, const double&, const double&, const double&)`. -/
def Shader.uniform_4d (self : Shader) (location : Int) (x : GLdouble) (y : GLdouble) (z : GLdouble) (w : GLdouble) : List NativeCall :=
  [NativeCall.glProgramUniform (UniformCall.glProgramUniform4d self.handle location x y z w)]

/-- The overload `Shader::uniform_4d(const std::string& name, const double&, const double&, const double&, const double&)`. -/
def Shader.uniform_4d_name (self : Shader) (locations : String → Int) (name : String)
    (x : GLdouble) (y : GLdouble) (z : GLdouble) (w : GLdouble) : List NativeCall :=
  let location := self.get_uniform_location locations name
  location.2 ++ self.uniform_4d location.1 x y z w

/-- The overload `Shader::uniform_4d(int location, const glm::dvec4&)`. -/
def Shader.uniform_4d_vec (self : Shader) (location : Int) (v : dvec4) : List NativeCall :=
  self.uniform_4d location v.x v.y v.z v.w

/-- The overload `Shader::uniform_4d(const std::string& name, const glm::dvec4&)`. -/
def Shader.uniform_4d_name_vec (self : Shader) (locations : String → Int) (name : String)
    (v : dvec4) : List NativeCall :=
  let location := self.get_uniform_location locations name
  location.2 ++ self.uniform_4d_vec location.1 v

/-! ## Process lifecycle guard (graphicat.cpp) and WindowSystem (window.cpp) -/

/-- The class `WindowSystem`: the vector of monitor handles. -/
structure WindowSystem where
  monitors : List Nat
deriving DecidableEq, Repr

/-- The class `GlobalState`; it has no data members. -/
structure GlobalState where
deriving DecidableEq, Repr

/-- The two static pointers `GlobalState::s_global_state` and
`WindowSystem::s_window_system`; `none` is the null pointer. -/
structure Globals where
  s_global_state : Option GlobalState
  s_window_system : Option WindowSystem
deriving DecidableEq, Repr

/-- The state at program start: both static pointers are null. -/
def Globals.initial : Globals :=
  { s_global_state := none, s_window_system := none }

/-- The member `WindowSystem::reload_monitors`; `reply` is the array returned by
`glfwGetMonitors`. -/
def WindowSystem.reload_monitors (_self : WindowSystem) (reply : List Nat) :
    WindowSystem × List NativeCall :=
  ({ monitors := reply }, [NativeCall.glfwGetMonitors reply])

/-- The constructor `WindowSystem::WindowSystem`. -/
def WindowSystem.construct (reply : List Nat) : WindowSystem × List NativeCall :=
  let r := WindowSystem.reload_monitors { monitors := [] } reply
  (r.1, [NativeCall.glfwInit] ++ r.2 ++ [NativeCall.glfwSetMonitorCallback])

/-- The destructor `WindowSystem::~WindowSystem`. -/
def WindowSystem.destroy (_self : WindowSystem) : List NativeCall :=
  [NativeCall.glfwTerminate]

/-- The static function `WindowSystem::init`. -/
def WindowSystem.init (g : Globals) (reply : List Nat) : Globals × List NativeCall :=
  match g.s_window_system with
  | none =>
      let r := WindowSystem.construct reply
      ({ g with s_window_system := some r.1 }, r.2)
  | some _ => (g, [])

/-- The static function `WindowSystem::terminate`: `delete` of a null pointer does nothing. -/
def WindowSystem.terminate (g : Globals) : Globals × List NativeCall :=
  match g.s_window_system with
  | none => ({ g with s_window_system := none }, [])
  | some ws => ({ g with s_window_system := none }, ws.destroy)

/-- The static function `WindowSystem::get`. -/
def WindowSystem.get (g : Globals) : Option WindowSystem := g.s_window_system

/-- The constructor `GlobalState::GlobalState`: it calls `WindowSystem::init`. -/
def GlobalState.construct (g : Globals) (reply : List Nat) :
    GlobalState × Globals × List NativeCall :=
  let r := WindowSystem.init g reply
  ({}, r.1, r.2)

/-- The destructor `GlobalState::~GlobalState`: it calls `WindowSystem::terminate`. -/
def GlobalState.destroy (_self : GlobalState) (g : Globals) : Globals × List NativeCall :=
  WindowSystem.terminate g

/-- The static function `GlobalState::init`. -/
def GlobalState.init (g : Globals) (reply : List Nat) : Globals × List NativeCall :=
  match g.s_global_state with
  | none =>
      let r := GlobalState.construct g reply
      ({ r.2.1 with s_global_state := some r.1 }, r.2.2)
  | some _ => (g, [])

/-- The static function `GlobalState::terminate`. -/
def GlobalState.terminate (g : Globals) : Globals × List NativeCall :=
  match g.s_global_state with
  | none => ({ g with s_global_state := none }, [])
  | some gs =>
      let r := gs.destroy g
      ({ r.1 with s_global_state := none }, r.2)

/-- The static function `GlobalState::get`. -/
def GlobalState.get (g : Globals) : Option GlobalState := g.s_global_state

/-- One call of a lifecycle function made by a client; the `reply` of an init call is the
monitor array `glfwGetMonitors` would return if the windowing subsystem is initialised. -/
inductive LifecycleCall where
  | global_init (reply : List Nat)
  | global_terminate
  | window_init (reply : List Nat)
  | window_terminate
deriving DecidableEq, Repr

/-- Dispatch of one client call to the lifecycle function it names. -/
def Globals.step (g : Globals) : LifecycleCall → Globals × List NativeCall
  | LifecycleCall.global_init reply => GlobalState.init g reply
  | LifecycleCall.global_terminate => GlobalState.terminate g
  | LifecycleCall.window_init reply => WindowSystem.init g reply
  | LifecycleCall.window_terminate => WindowSystem.terminate g

/-- A sequence of client calls executed in order; the native calls are concatenated. -/
def Globals.run (g : Globals) : List LifecycleCall → Globals × List NativeCall
  | [] => (g, [])
  | c :: rest =>
      let r := g.step c
      let r2 := r.1.run rest
      (r2.1, r.2 ++ r2.2)

/-! ## Monitor queries (window.hpp, window.cpp) -/

/-- The struct `Monitor`: a native monitor handle. -/
structure Monitor where
  handle : Nat
deriving DecidableEq, Repr

/-- The struct `ColorDepth`, with its default member initialisers. -/
structure ColorDepth where
  red : Nat := 8
  green : Nat := 8
  blue : Nat := 8
  alpha : Nat := 8
  depth : Nat := 24
  stencil : Nat := 8
deriving DecidableEq, Repr

/-- The struct `VideoMode`; `size` is a `glm::uvec2`. -/
structure VideoMode where
  size : Nat × Nat
  color_depth : ColorDepth
  refresh_rate : Nat
deriving DecidableEq, Repr

/-- The function `VideoMode::from`: every field is converted to `unsigned int`; the colour
depth is initialised from three values, its other members keep their defaults. -/
def VideoMode.from_native (video_mode : GLFWvidmode) : VideoMode :=
  { size := (to_uint video_mode.width, to_uint video_mode.height)
    color_depth :=
      { red := to_uint video_mode.redBits
        green := to_uint video_mode.greenBits
        blue := to_uint video_mode.blueBits }
    refresh_rate := to_uint video_mode.refreshRate }

/-- What the windowing library reports when queried: the current video mode and the position
of each monitor (by handle) and the position of each window (by handle). -/
structure Desktop where
  video_mode : Nat → GLFWvidmode
  monitor_pos : Nat → Int × Int
  window_pos : Option Nat → Int × Int

/-- The member `Monitor::get_video_mode`. -/
def Monitor.get_video_mode (self : Monitor) (env : Desktop) : VideoMode × List NativeCall :=
  (VideoMode.from_native (env.video_mode self.handle),
    [NativeCall.glfwGetVideoMode self.handle (env.video_mode self.handle)])

/-- The member `Monitor::get_pos`. -/
def Monitor.get_pos (self : Monitor) (env : Desktop) : (Int × Int) × List NativeCall :=
  (env.monitor_pos self.handle,
    [NativeCall.glfwGetMonitorPos self.handle (env.monitor_pos self.handle).1
      (env.monitor_pos self.handle).2])

/-- The member `WindowSystem::try_get_monitor`. -/
def WindowSystem.try_get_monitor (self : WindowSystem) (monitorIndex : Nat) : Option Monitor :=
  if h : monitorIndex < self.monitors.length then
    some (Monitor.mk (self.monitors.get ⟨monitorIndex, h⟩))
  else
    none

/-- The member `WindowSystem::get_monitor_or`: `try_get_monitor(monitorIndex).value_or(other)`. -/
def WindowSystem.get_monitor_or (self : WindowSystem) (monitorIndex : Nat) (other : Monitor) :
    Monitor :=
  (self.try_get_monitor monitorIndex).getD other

/-- The unchecked element access `monitors[index]` of the `std::vector`; `none` stands for a
read outside the vector, whose behaviour is undefined. -/
def WindowSystem.monitors_at (self : WindowSystem) (index : Nat) : Option Nat :=
  self.monitors.get? index

/-- The member `WindowSystem::get_monitor_or_primary`: the argument `Monitor(monitors[0])` is
evaluated before `get_monitor_or` is called; `none` when that read is outside the vector. -/
def WindowSystem.get_monitor_or_primary (self : WindowSystem) (monitorIndex : Nat) :
    Option Monitor :=
  match self.monitors_at 0 with
  | none => none
  | some handle => some (self.get_monitor_or monitorIndex (Monitor.mk handle))

/-- The index expression `monitorIndex - 1` of `get_monitor_or_last`, in `unsigned int`
arithmetic. -/
def last_fallback_index (monitorIndex : Nat) : Nat :=
  (monitorIndex + 4294967295) % 4294967296

/-- The member `WindowSystem::get_monitor_or_last`: the argument
`Monitor(monitors[monitorIndex - 1])` is evaluated before `get_monitor_or` is called; `none`
when that read is outside the vector. -/
def WindowSystem.get_monitor_or_last (self : WindowSystem) (monitorIndex : Nat) :
    Option Monitor :=
  match self.monitors_at (last_fallback_index monitorIndex) with
  | none => none
  | some handle => some (self.get_monitor_or monitorIndex (Monitor.mk handle))

/-! ## Window modes (window.hpp, window.cpp) -/

/-- The variant `WindowMode` over `wm::Windowed`, `wm::FullscreenWindowed` and
`wm::FullscreenExclusive`. -/
inductive WindowMode where
  | Windowed (size : Nat × Nat) (position : Option (Int × Int)) (decorated : Bool)
  | FullscreenWindowed (monitor : Nat)
  | FullscreenExclusive (monitor : Nat) (video_mode : Option VideoMode)
deriving DecidableEq, Repr

/-- The member `index()` of the variant. -/
def WindowMode.index : WindowMode → Nat
  | WindowMode.Windowed _ _ _ => 0
  | WindowMode.FullscreenWindowed _ => 1
  | WindowMode.FullscreenExclusive _ _ => 2

/-- The class `Window`: the native window pointer (`none` is the null pointer). -/
structure Window where
  window : Option Nat
deriving DecidableEq, Repr

/-- The member `Window::set_pos`. -/
def Window.set_pos (self : Window) (pos : Int × Int) : List NativeCall :=
  [NativeCall.glfwSetWindowPos self.window pos.1 pos.2]

/-- The member `Window::set_size`. -/
def Window.set_size (self : Window) (size : Nat × Nat) : List NativeCall :=
  [NativeCall.glfwSetWindowSize self.window (to_int (size.1 : Int)) (to_int (size.2 : Int))]

/-- The member `Window::get_pos`. -/
def Window.get_pos (self : Window) (env : Desktop) : (Int × Int) × List NativeCall :=
  (env.window_pos self.window,
    [NativeCall.glfwGetWindowPos self.window (env.window_pos self.window).1
      (env.window_pos self.window).2])

/-- The member `Window::set_decorated`. -/
def Window.set_decorated (self : Window) (decorated : Bool) : List NativeCall :=
  [NativeCall.glfwSetWindowAttrib self.window WindowAttrib.GLFW_DECORATED decorated]

/-- The locals of `Window::set_window_mode` after its `switch`, with the native calls issued
so far. -/
structure ModeLocals where
  size : Nat × Nat
  pos : Option (Int × Int)
  fs_monitor : Option Nat
  refresh_rate : Int
  calls : List NativeCall
deriving DecidableEq, Repr

/-- The `switch (wm.index())` of `Window::set_window_mode`.  `none` stands for undefined
behaviour: `WindowSystem::get()` is null, or `get_monitor_or_primary` reads outside the
monitor vector.  The arguments of both `value_or` calls are evaluated whether or not the
optional holds a value. -/
def Window.set_window_mode_switch (self : Window) (g : Globals) (env : Desktop) :
    WindowMode → Option ModeLocals
  | WindowMode.Windowed size position decorated =>
      some
        { size := size
          pos := some (position.getD (200, 200))
          fs_monitor := none
          refresh_rate := GLFW_DONT_CARE
          calls := self.set_decorated decorated }
  | WindowMode.FullscreenWindowed m =>
      match WindowSystem.get g with
      | none => none
      | some ws =>
          match ws.get_monitor_or_primary m with
          | none => none
          | some monitor =>
              let vm := monitor.get_video_mode env
              let p := monitor.get_pos env
              some
                { size := vm.1.size
                  pos := some p.1
                  fs_monitor := none
                  refresh_rate := to_int (vm.1.refresh_rate : Int)
                  calls := vm.2 ++ self.set_decorated true ++ p.2 }
  | WindowMode.FullscreenExclusive m video_mode =>
      match WindowSystem.get g with
      | none => none
      | some ws =>
          match ws.get_monitor_or_primary m with
          | none => none
          | some monitor =>
              let current := monitor.get_video_mode env
              let vm := video_mode.getD current.1
              some
                { size := vm.size
                  pos := none
                  fs_monitor := some monitor.handle
                  refresh_rate := to_int (vm.refresh_rate : Int)
                  calls := current.2 }

/-- The member `Window::set_window_mode`: the native calls issued, or `none` for undefined
behaviour in the `switch`. -/
def Window.set_window_mode (self : Window) (g : Globals) (env : Desktop) (wm : WindowMode) :
    Option (List NativeCall) :=
  match self.set_window_mode_switch g env wm with
  | none => none
  | some l =>
      let current := self.get_pos env
      let pos_ := l.pos.getD current.1
      let calls := l.calls ++ current.2 ++
        [NativeCall.glfwSetWindowMonitor self.window l.fs_monitor pos_.1 pos_.2
          (to_int (l.size.1 : Int)) (to_int (l.size.2 : Int)) l.refresh_rate]
      match l.pos with
      | some p =>
          some (calls ++ (if wm.index = 1 then self.set_decorated false else []) ++
            self.set_pos p ++ self.set_size l.size)
      | none => some calls

/-! ## Window construction (window.hpp, window.cpp) -/

/-- The struct `ContextProperties`, with its default member initialisers. -/
structure ContextProperties where
  debug : Bool := false
  robustness : ContextRobustness := ContextRobustness.None
  release_behavior : ContextReleaseBehavior := ContextReleaseBehavior.Any
deriving DecidableEq, Repr

/-- The struct `WindowProperties`, with its default member initialisers. -/
structure WindowProperties where
  title : String := "Window"
  window_mode : WindowMode := WindowMode.Windowed (800, 600) none true
  resizable : Bool := false
  visible : Bool := true
  auto_iconify : Bool := true
  floating : Bool := false
  maximized : Bool := false
  center_cursor : Bool := true
  transparent_framebuffer : Bool := false
  focus_on_show : Bool := true
  scale_to_monitor : Bool := false
  context_properties : ContextProperties := {}
deriving DecidableEq, Repr

/-- The member `ColorDepth::apply`. -/
def ColorDepth.apply (self : ColorDepth) : List NativeCall :=
  [ NativeCall.glfwWindowHint WindowHint.GLFW_RED_BITS (HintValue.int (to_int (self.red : Int))),
    NativeCall.glfwWindowHint WindowHint.GLFW_GREEN_BITS
      (HintValue.int (to_int (self.green : Int))),
    NativeCall.glfwWindowHint WindowHint.GLFW_BLUE_BITS (HintValue.int (to_int (self.blue : Int))),
    NativeCall.glfwWindowHint WindowHint.GLFW_ALPHA_BITS
      (HintValue.int (to_int (self.alpha : Int))),
    NativeCall.glfwWindowHint WindowHint.GLFW_DEPTH_BITS
      (HintValue.int (to_int (self.depth : Int))),
    NativeCall.glfwWindowHint WindowHint.GLFW_STENCIL_BITS
      (HintValue.int (to_int (self.stencil : Int))) ]

/-- The member `VideoMode::apply`. -/
def VideoMode.apply (self : VideoMode) : List NativeCall :=
  self.color_depth.apply ++
    [NativeCall.glfwWindowHint WindowHint.GLFW_REFRESH_RATE
      (HintValue.int (to_int (self.refresh_rate : Int)))]

/-- The member `ContextProperties::apply`. -/
def ContextProperties.apply (self : ContextProperties) : List NativeCall :=
  [ NativeCall.glfwWindowHint WindowHint.GLFW_CONTEXT_VERSION_MAJOR (HintValue.int 4),
    NativeCall.glfwWindowHint WindowHint.GLFW_CONTEXT_VERSION_MINOR (HintValue.int 6),
    NativeCall.glfwWindowHint WindowHint.GLFW_CLIENT_API HintValue.GLFW_OPENGL_API,
    NativeCall.glfwWindowHint WindowHint.GLFW_CONTEXT_CREATION_API
      HintValue.GLFW_NATIVE_CONTEXT_API,
    NativeCall.glfwWindowHint WindowHint.GLFW_CONTEXT_ROBUSTNESS
      (HintValue.robustness self.robustness),
    NativeCall.glfwWindowHint WindowHint.GLFW_CONTEXT_RELEASE_BEHAVIOR
      (HintValue.release_behavior self.release_behavior),
    NativeCall.glfwWindowHint WindowHint.GLFW_OPENGL_PROFILE HintValue.GLFW_OPENGL_CORE_PROFILE,
    NativeCall.glfwWindowHint WindowHint.GLFW_OPENGL_DEBUG_CONTEXT (HintValue.bool self.debug) ]

/-- The locals of the constructor `Window::Window` after its `switch`, with the native calls
issued so far. -/
structure ConstructLocals where
  size : Nat × Nat
  pos : Option (Int × Int)
  fs_monitor : Option Nat
  calls : List NativeCall
deriving DecidableEq, Repr

/-- The `switch (properties.window_mode.index())` of the constructor `Window::Window`.
`none` stands for undefined behaviour: `WindowSystem::get()` is null, or
`get_monitor_or_primary` reads outside the monitor vector. -/
def Window.construct_switch (g : Globals) (env : Desktop) : WindowMode → Option ConstructLocals
  | WindowMode.Windowed size position decorated =>
      some
        { size := size
          pos := position
          fs_monitor := none
          calls :=
            [NativeCall.glfwWindowHint WindowHint.GLFW_DECORATED (HintValue.bool decorated)] }
  | WindowMode.FullscreenWindowed m =>
      match WindowSystem.get g with
      | none => none
      | some ws =>
          match ws.get_monitor_or_primary m with
          | none => none
          | some monitor =>
              let vm := monitor.get_video_mode env
              let p := monitor.get_pos env
              some
                { size := vm.1.size
                  pos := some p.1
                  fs_monitor := none
                  calls := vm.2 ++ vm.1.apply ++ p.2 }
  | WindowMode.FullscreenExclusive m video_mode =>
      match WindowSystem.get g with
      | none => none
      | some ws =>
          match ws.get_monitor_or_primary m with
          | none => none
          | some monitor =>
              let current := monitor.get_video_mode env
              let vm := video_mode.getD current.1
              some
                { size := vm.size
                  pos := none
                  fs_monitor := some monitor.handle
                  calls := current.2 ++ vm.apply }

/-- The constructor `Window::Window(const WindowProperties&)`: the constructed object and the
native calls issued, or `none` for undefined behaviour in the `switch`.  `created` is what
`glfwCreateWindow` returns (`none` is the null pointer) and `error_text` the description
`glfwGetError` hands back. -/
def Window.construct (properties : WindowProperties) (g : Globals) (env : Desktop)
    (created : Option Nat) (error_text : String) : Option (Window × List NativeCall) :=
  match Window.construct_switch g env properties.window_mode with
  | none => none
  | some l =>
      let self : Window := { window := created }
      let hinted := [NativeCall.glfwDefaultWindowHints] ++ l.calls ++
        [ NativeCall.glfwWindowHint WindowHint.GLFW_RESIZABLE (HintValue.bool properties.resizable),
          NativeCall.glfwWindowHint WindowHint.GLFW_VISIBLE (HintValue.bool properties.visible),
          NativeCall.glfwWindowHint WindowHint.GLFW_AUTO_ICONIFY
            (HintValue.bool properties.auto_iconify),
          NativeCall.glfwWindowHint WindowHint.GLFW_FLOATING (HintValue.bool properties.floating),
          NativeCall.glfwWindowHint WindowHint.GLFW_MAXIMIZED
            (HintValue.bool properties.maximized),
          NativeCall.glfwWindowHint WindowHint.GLFW_CENTER_CURSOR
            (HintValue.bool properties.center_cursor),
          NativeCall.glfwWindowHint WindowHint.GLFW_TRANSPARENT_FRAMEBUFFER
            (HintValue.bool properties.transparent_framebuffer),
          NativeCall.glfwWindowHint WindowHint.GLFW_FOCUS_ON_SHOW
            (HintValue.bool properties.focus_on_show),
          NativeCall.glfwWindowHint WindowHint.GLFW_SCALE_TO_MONITOR
            (HintValue.bool properties.scale_to_monitor) ] ++
        properties.context_properties.apply ++
        [NativeCall.glfwCreateWindow (to_int (l.size.1 : Int)) (to_int (l.size.2 : Int))
          properties.title l.fs_monitor created]
      let reported :=
        match created with
        | none =>
            [ NativeCall.glfwGetError error_text,
              NativeCall.std_cerr_failed_to_create_window error_text ]
        | some _ => []
      let placed :=
        match l.pos with
        | some p =>
            (if properties.window_mode.index = 1 then self.set_decorated false else []) ++
              self.set_pos p ++ self.set_size l.size
        | none => []
      some (self, hinted ++ reported ++ placed ++
        [NativeCall.glfwMakeContextCurrent created, NativeCall.gladLoadGL])

/-! ## Binding a vertex array to a shader (vertex_array.cpp, shader.cpp) -/

/-- The member `Shader::bind_attrib_location(name, int location)`: the location is converted
to the `GLuint` index of `glBindAttribLocation`. -/
def Shader.bind_attrib_location (self : Shader) (name : String) (location : Int) :
    List NativeCall :=
  [NativeCall.glBindAttribLocation self.handle (to_uint location) name]

/-- The member `VertexArray::bind()`. -/
def VertexArray.bind (self : VertexArray) : List NativeCall :=
  [NativeCall.glBindVertexArray self.handle]

/-- The const member `VertexArray::bind(const std::shared_ptr<Shader>&)`: the entries of the
map are visited in the order the association list holds them; the `unsigned int` slot is
converted to the `int` parameter of `bind_attrib_location`. -/
def VertexArray.bind_shared (self : VertexArray) (shader : Shader) : List NativeCall :=
  self.bind ++
    self.attribute_names.foldl
      (fun calls name => calls ++ shader.bind_attrib_location name.1 (to_int (name.2 : Int))) []

/-- The const member `VertexArray::bind(const std::unique_ptr<Shader>&)`. -/
def VertexArray.bind_unique (self : VertexArray) (shader : Shader) : List NativeCall :=
  self.bind ++
    self.attribute_names.foldl
      (fun calls name => calls ++ shader.bind_attrib_location name.1 (to_int (name.2 : Int))) []

/-- The const member `VertexArray::bind(const Shader*)`. -/
def VertexArray.bind_ptr (self : VertexArray) (shader : Shader) : List NativeCall :=
  self.bind ++
    self.attribute_names.foldl
      (fun calls name => calls ++ shader.bind_attrib_location name.1 (to_int (name.2 : Int))) []

/-! ## Sequences of handle operations (buffer.cpp, shader.cpp, vertex_array.cpp) -/

/-- The three wrapper classes. -/
inductive HandleKind where
  | buffer
  | shader
  | vertex_array
deriving DecidableEq, Repr

/-- A wrapper that has been made and not destroyed: its class, identifier and `owned` flag. -/
structure LiveWrapper where
  kind : HandleKind
  handle : Nat
  owned : Bool
deriving DecidableEq, Repr

/-- One call of a public factory function, with its arguments and, for the allocating ones,
what the driver answers. -/
inductive HandleOp where
  | buffer_wrap (handle : Nat) (take_ownership : Bool)
  | buffer_create (b : Nat)
  | buffer_allocate (b : Nat) (size : Nat) (usage : Nat)
  | buffer_load (b : Nat) (size : Nat) (has_data : Bool) (usage : Nat)
  | buffer_wrap_shared (handle : Nat) (take_ownership : Bool)
  | buffer_create_shared (b : Nat)
  | buffer_allocate_shared (b : Nat) (size : Nat) (usage : Nat)
  | buffer_load_shared (b : Nat) (size : Nat) (has_data : Bool) (usage : Nat)
  | shader_wrap (handle : Nat) (take_ownership : Bool)
  | shader_create (sources : List ShaderSource) (d : ShaderDriver)
  | shader_load (paths : List (ShaderType × String)) (files : String → Option String)
      (d : ShaderDriver)
  | shader_wrap_shared (handle : Nat) (take_ownership : Bool)
  | shader_create_shared (sources : List ShaderSource) (d : ShaderDriver)
  | shader_load_shared (paths : List (ShaderType × String)) (files : String → Option String)
      (d : ShaderDriver)
  | vertex_array_create (h : Nat)
  | vertex_array_wrap (handle : Nat) (take_ownership : Bool)
  | vertex_array_create_shared (h : Nat)
  | vertex_array_wrap_shared (handle : Nat) (take_ownership : Bool)

/-- The live wrapper recorded for a Buffer. -/
def LiveWrapper.of_buffer (w : Buffer) : LiveWrapper :=
  { kind := HandleKind.buffer, handle := w.handle, owned := w.owned }

/-- The live wrapper recorded for a Shader. -/
def LiveWrapper.of_shader (w : Shader) : LiveWrapper :=
  { kind := HandleKind.shader, handle := w.handle, owned := w.owned }

/-- The live wrapper recorded for a VertexArray. -/
def LiveWrapper.of_vertex_array (w : VertexArray) : LiveWrapper :=
  { kind := HandleKind.vertex_array, handle := w.handle, owned := w.owned }

/-- The wrapper a factory call returns; `none` when the call throws instead of returning,
as a shader load does on a file that cannot be opened. -/
def HandleOp.perform : HandleOp → Option LiveWrapper
  | HandleOp.buffer_wrap handle t => some (LiveWrapper.of_buffer (Buffer.wrap handle t).1)
  | HandleOp.buffer_create b => some (LiveWrapper.of_buffer (Buffer.create b).1)
  | HandleOp.buffer_allocate b size usage =>
      some (LiveWrapper.of_buffer (Buffer.allocate b size usage).1)
  | HandleOp.buffer_load b size has_data usage =>
      some (LiveWrapper.of_buffer (Buffer.load b size has_data usage).1)
  | HandleOp.buffer_wrap_shared handle t =>
      some (LiveWrapper.of_buffer (Buffer.wrap_shared handle t).1)
  | HandleOp.buffer_create_shared b => some (LiveWrapper.of_buffer (Buffer.create_shared b).1)
  | HandleOp.buffer_allocate_shared b size usage =>
      some (LiveWrapper.of_buffer (Buffer.allocate_shared b size usage).1)
  | HandleOp.buffer_load_shared b size has_data usage =>
      some (LiveWrapper.of_buffer (Buffer.load_shared b size has_data usage).1)
  | HandleOp.shader_wrap handle t => some (LiveWrapper.of_shader (Shader.wrap handle t).1)
  | HandleOp.shader_create sources d => some (LiveWrapper.of_shader (Shader.create sources d).1)
  | HandleOp.shader_load paths files d =>
      match Shader.load paths files d with
      | Except.error _ => none
      | Except.ok r => some (LiveWrapper.of_shader r.1)
  | HandleOp.shader_wrap_shared handle t =>
      some (LiveWrapper.of_shader (Shader.wrap_shared handle t).1)
  | HandleOp.shader_create_shared sources d =>
      some (LiveWrapper.of_shader (Shader.create_shared sources d).1)
  | HandleOp.shader_load_shared paths files d =>
      match Shader.load_shared paths files d with
      | Except.error _ => none
      | Except.ok r => some (LiveWrapper.of_shader r.1)
  | HandleOp.vertex_array_create h => some (LiveWrapper.of_vertex_array (VertexArray.create h).1)
  | HandleOp.vertex_array_wrap handle t =>
      some (LiveWrapper.of_vertex_array (VertexArray.wrap handle t).1)
  | HandleOp.vertex_array_create_shared h =>
      some (LiveWrapper.of_vertex_array (VertexArray.create_shared h).1)
  | HandleOp.vertex_array_wrap_shared handle t =>
      some (LiveWrapper.of_vertex_array (VertexArray.wrap_shared handle t).1)

/-- The wrappers alive after a sequence of factory calls, none having been destroyed; a call
that throws contributes none. -/
def liveWrappers (ops : List HandleOp) : List LiveWrapper :=
  ops.filterMap HandleOp.perform

/-- The class and identifier of every owning wrapper, one entry per wrapper. -/
def owners (wrappers : List LiveWrapper) : List (HandleKind × Nat) :=
  (wrappers.filter fun w => w.owned).map fun w => (w.kind, w.handle)

/-- The destructor of the class a live wrapper belongs to. -/
def LiveWrapper.destroy (w : LiveWrapper) : List NativeCall :=
  match w.kind with
  | HandleKind.buffer => (Buffer.mk w.owned w.handle).destroy
  | HandleKind.shader => (Shader.mk w.handle w.owned).destroy
  | HandleKind.vertex_array => (VertexArray.mk w.handle w.owned 0 0 []).destroy

/-- The native calls issued when every wrapper of a list is destroyed, in list order. -/
def releases : List LiveWrapper → List NativeCall
  | [] => []
  | w :: rest => w.destroy ++ releases rest

/-- The release call of a class for an identifier. -/
def releaseCall (owner : HandleKind × Nat) : NativeCall :=
  match owner.1 with
  | HandleKind.buffer => NativeCall.glDeleteBuffers owner.2
  | HandleKind.shader => NativeCall.glDeleteProgram owner.2
  | HandleKind.vertex_array => NativeCall.glDeleteVertexArrays owner.2

/-- The identifier a factory call lays an ownership claim to: the one the driver returns,
for an allocating call, and the one passed, for a wrap that takes ownership; a wrap that
does not take ownership claims none, and neither does a shader load that throws while
reading its files, before the driver is asked for a program. -/
def HandleOp.claimed : HandleOp → Option (HandleKind × Nat)
  | HandleOp.buffer_wrap handle t => if t then some (HandleKind.buffer, handle) else none
  | HandleOp.buffer_create b => some (HandleKind.buffer, b)
  | HandleOp.buffer_allocate b _ _ => some (HandleKind.buffer, b)
  | HandleOp.buffer_load b _ _ _ => some (HandleKind.buffer, b)
  | HandleOp.buffer_wrap_shared handle t => if t then some (HandleKind.buffer, handle) else none
  | HandleOp.buffer_create_shared b => some (HandleKind.buffer, b)
  | HandleOp.buffer_allocate_shared b _ _ => some (HandleKind.buffer, b)
  | HandleOp.buffer_load_shared b _ _ _ => some (HandleKind.buffer, b)
  | HandleOp.shader_wrap handle t => if t then some (HandleKind.shader, handle) else none
  | HandleOp.shader_create _ d => some (HandleKind.shader, d.program)
  | HandleOp.shader_load paths files d =>
      match load_sources files paths with
      | Except.error _ => none
      | Except.ok _ => some (HandleKind.shader, d.program)
  | HandleOp.shader_wrap_shared handle t => if t then some (HandleKind.shader, handle) else none
  | HandleOp.shader_create_shared _ d => some (HandleKind.shader, d.program)
  | HandleOp.shader_load_shared paths files d =>
      match load_sources files paths with
      | Except.error _ => none
      | Except.ok _ => some (HandleKind.shader, d.program)
  | HandleOp.vertex_array_create h => some (HandleKind.vertex_array, h)
  | HandleOp.vertex_array_wrap handle t =>
      if t then some (HandleKind.vertex_array, handle) else none
  | HandleOp.vertex_array_create_shared h => some (HandleKind.vertex_array, h)
  | HandleOp.vertex_array_wrap_shared handle t =>
      if t then some (HandleKind.vertex_array, handle) else none

/-- Whether the driver reports success throughout a shader creation over `count` sources:
every module gets a non-zero name and compiles, and the link succeeds. -/
def ShaderDriver.succeeds (d : ShaderDriver) (count : Nat) : Prop :=
  (∀ k, k < count → (d.module k).shader ≠ 0 ∧ (d.module k).compile_status = GL_TRUE) ∧
    d.link_status = GL_TRUE

/-- For a shader creation, that the driver reports success throughout; nothing for the other
factory calls. -/
def HandleOp.creation_succeeds : HandleOp → Prop
  | HandleOp.shader_create sources d => d.succeeds sources.length
  | HandleOp.shader_load paths _ d => d.succeeds paths.length
  | HandleOp.shader_create_shared sources d => d.succeeds sources.length
  | HandleOp.shader_load_shared paths _ d => d.succeeds paths.length
  | _ => True

/-! ## Observations on a list of native calls -/

/-- The `relativeoffset` arguments of the `glVertexArrayAttribFormat` calls, in call order. -/
def formatOffsets (calls : List NativeCall) : List Nat :=
  calls.filterMap fun c =>
    match c with
    | NativeCall.glVertexArrayAttribFormat _ _ _ _ _ off => some off
    | _ => none

/-- The `stride` arguments of the `glVertexArrayVertexBuffer` calls, in call order. -/
def bufferStrides (calls : List NativeCall) : List Int :=
  calls.filterMap fun c =>
    match c with
    | NativeCall.glVertexArrayVertexBuffer _ _ _ _ stride => some stride
    | _ => none

/-- The `attribindex` arguments of the `glVertexArrayAttribBinding` calls, in call order:
the attribute slots handed out. -/
def assignedSlots (calls : List NativeCall) : List Nat :=
  calls.filterMap fun c =>
    match c with
    | NativeCall.glVertexArrayAttribBinding _ attrib _ => some attrib
    | _ => none

/-- The `attribindex` arguments of the `glVertexArrayAttribFormat` calls, in call order. -/
def formatSlots (calls : List NativeCall) : List Nat :=
  calls.filterMap fun c =>
    match c with
    | NativeCall.glVertexArrayAttribFormat _ attrib _ _ _ _ => some attrib
    | _ => none

/-- The `index` arguments of the `glEnableVertexArrayAttrib` calls, in call order. -/
def enabledSlots (calls : List NativeCall) : List Nat :=
  calls.filterMap fun c =>
    match c with
    | NativeCall.glEnableVertexArrayAttrib _ attrib => some attrib
    | _ => none

/-- The `bindingindex` arguments of the `glVertexArrayAttribBinding` calls, in call order. -/
def attribBindingSlots (calls : List NativeCall) : List Nat :=
  calls.filterMap fun c =>
    match c with
    | NativeCall.glVertexArrayAttribBinding _ _ binding => some binding
    | _ => none

/-- The (`bindingindex`, `buffer`) arguments of the `glVertexArrayVertexBuffer` calls, in
call order. -/
def bufferAttachments (calls : List NativeCall) : List (Nat × Nat) :=
  calls.filterMap fun c =>
    match c with
    | NativeCall.glVertexArrayVertexBuffer _ binding buffer _ _ => some (binding, buffer)
    | _ => none

/-- The `glfwSetWindowMonitor` calls, in call order: the reconfiguration calls. -/
def reconfigurations (calls : List NativeCall) : List NativeCall :=
  calls.filter fun c =>
    match c with
    | NativeCall.glfwSetWindowMonitor _ _ _ _ _ _ _ => true
    | _ => false

/-- The calls issued after the first `glfwSetWindowMonitor` call (empty when there is
none). -/
def afterReconfiguration : List NativeCall → List NativeCall
  | [] => []
  | NativeCall.glfwSetWindowMonitor _ _ _ _ _ _ _ :: rest => rest
  | _ :: rest => afterReconfiguration rest

/-- Whether the `glfwInit` and `glfwTerminate` calls of a list alternate, given whether the
windowing subsystem is initialised (`live`) before the first call of the list. -/
def alternatesFrom : Bool → List NativeCall → Bool
  | _, [] => true
  | live, NativeCall.glfwInit :: rest => !live && alternatesFrom true rest
  | live, NativeCall.glfwTerminate :: rest => live && alternatesFrom false rest
  | live, _ :: rest => alternatesFrom live rest

/-- The monitor the claim about window modes calls M: the monitor at index `m` if `m` is in
range and the primary monitor (index 0) otherwise; 0 stands in when the list is empty. -/
def resolvedMonitor (monitors : List Nat) (m : Nat) : Nat :=
  if h : m < monitors.length then monitors.get ⟨m, h⟩ else monitors.headD 0

/-- The texts written to `std::cerr` by the Window constructor, in order. -/
def errorReports (calls : List NativeCall) : List String :=
  calls.filterMap fun c =>
    match c with
    | NativeCall.std_cerr_failed_to_create_window text => some text
    | _ => none

/-- The values of the `glfwSetWindowAttrib(window, GLFW_DECORATED, value)` calls, in call
order. -/
def decorationCalls (calls : List NativeCall) : List Bool :=
  calls.filterMap fun c =>
    match c with
    | NativeCall.glfwSetWindowAttrib _ WindowAttrib.GLFW_DECORATED value => some value
    | _ => none

/-- The calls issued before the first `glfwSetWindowMonitor` call (all of them when there is
none). -/
def beforeReconfiguration : List NativeCall → List NativeCall
  | [] => []
  | NativeCall.glfwSetWindowMonitor _ _ _ _ _ _ _ :: _ => []
  | c :: rest => c :: beforeReconfiguration rest

/-- The `offset` arguments of the `glVertexArrayVertexBuffer` calls, in call order. -/
def bufferOffsets (calls : List NativeCall) : List Int :=
  calls.filterMap fun c =>
    match c with
    | NativeCall.glVertexArrayVertexBuffer _ _ _ offset _ => some offset
    | _ => none

/-- The names returned by the `glCreateShader` calls, in call order. -/
def createdShaders (calls : List NativeCall) : List Nat :=
  calls.filterMap fun c =>
    match c with
    | NativeCall.glCreateShader _ shader => some shader
    | _ => none

/-- The arguments of the `glCompileShader` calls, in call order. -/
def compiledShaders (calls : List NativeCall) : List Nat :=
  calls.filterMap fun c =>
    match c with
    | NativeCall.glCompileShader shader => some shader
    | _ => none

/-- The `shader` arguments of the `glAttachShader` calls, in call order. -/
def attachedShaders (calls : List NativeCall) : List Nat :=
  calls.filterMap fun c =>
    match c with
    | NativeCall.glAttachShader _ shader => some shader
    | _ => none

/-- The arguments of the `glDeleteShader` calls, in call order. -/
def deletedShaders (calls : List NativeCall) : List Nat :=
  calls.filterMap fun c =>
    match c with
    | NativeCall.glDeleteShader shader => some shader
    | _ => none

/-- The arguments of the `glLinkProgram` calls, in call order. -/
def linkedPrograms (calls : List NativeCall) : List Nat :=
  calls.filterMap fun c =>
    match c with
    | NativeCall.glLinkProgram program => some program
    | _ => none

/-- The arguments of the `glDeleteProgram` calls, in call order. -/
def deletedPrograms (calls : List NativeCall) : List Nat :=
  calls.filterMap fun c =>
    match c with
    | NativeCall.glDeleteProgram program => some program
    | _ => none

/-- The names the driver gives to the modules at the `count` positions from `k` on. -/
def moduleIds (d : ShaderDriver) : Nat → Nat → List Nat
  | _, 0 => []
  | k, count + 1 => (d.module k).shader :: moduleIds d (k + 1) count

/-- Number of `glfwInit` calls. -/
def initCount (calls : List NativeCall) : Nat :=
  calls.count NativeCall.glfwInit

/-- Number of `glfwTerminate` calls. -/
def terminateCount (calls : List NativeCall) : Nat :=
  calls.count NativeCall.glfwTerminate

/-- The slots handed out by `count` successive evaluations of `next_attribute++` on an
`unsigned int` counter whose value is `next`. -/
def slotSeq : Nat → Nat → List Nat
  | _, 0 => []
  | next, count + 1 => next :: slotSeq ((next + 1) % 4294967296) count

/-- The map obtained from `m` by the assignments `m[name] = next++` for the given names in
order, with `next` an `unsigned int` counter. -/
def assign_names : List (String × Nat) → Nat → List String → List (String × Nat)
  | m, _, [] => m
  | m, next, name :: rest => assign_names (map_assign m name next) ((next + 1) % 4294967296) rest

/-- Sum of the component counts of a descriptor list of the packed overload. -/
def componentSum (attributes : List (Nat × String)) : Nat :=
  (attributes.map Prod.fst).sum

/-! ## Example inputs -/

/-- A driver that names the program 7 and the module at position k by 3 + k, and answers
every compile query with `compile_status` and the link query with `link_status`. -/
def exampleDriver (compile_status link_status : Int) : ShaderDriver :=
  { program := 7
    module := fun k =>
      { shader := 3 + k, compile_status := compile_status, log_length := 0, log_text := "" }
    link_status := link_status
    link_log_length := 0
    link_log_text := "" }

/-- The source list of a vertex and fragment shader pair. -/
def exampleSources : List ShaderSource :=
  [{ type := ShaderType.Vertex, source := "in vec3 posIn;" },
   { type := ShaderType.Fragment, source := "out vec4 colorOut;" }]

/-- A desktop whose monitors all run 1920 x 1080 at 60 Hz, monitor h sits at x = 1920 * h,
and every window sits at (50, 60). -/
def exampleDesktop : Desktop :=
  { video_mode := fun _ =>
      { width := 1920, height := 1080, redBits := 8, greenBits := 8, blueBits := 8,
        refreshRate := 60 }
    monitor_pos := fun h => (1920 * (h : Int), 0)
    window_pos := fun _ => (50, 60) }

/-- Global state with an initialised WindowSystem that holds the monitors 0 and 1. -/
def exampleGlobals : Globals :=
  { s_global_state := some {}, s_window_system := some { monitors := [0, 1] } }

/-! ## Vertex layout: packed stride and offsets -/

theorem formatOffsets_append (xs ys : List NativeCall) :
    formatOffsets (xs ++ ys) = formatOffsets xs ++ formatOffsets ys := by
  simp [formatOffsets, List.filterMap_append]

theorem bufferStrides_append (xs ys : List NativeCall) :
    bufferStrides (xs ++ ys) = bufferStrides xs ++ bufferStrides ys := by
  simp [bufferStrides, List.filterMap_append]

theorem to_int_of_small (z : Int) (h0 : 0 ≤ z) (h1 : z < 2147483648) : to_int z = z := by
  unfold to_int
  omega

theorem to_uint_of_small (z : Int) (h0 : 0 ≤ z) (h1 : z < 2147483648) :
    ((to_uint z : Nat) : Int) = z := by
  unfold to_uint
  omega

theorem packed_body_stride (st : PackedLoop) (pair : Nat × String)
    (h0 : 0 ≤ st.stride) (h1 : st.stride + 4 * (pair.1 : Int) < 2147483648) :
    (packed_body st pair).stride = st.stride + 4 * (pair.1 : Int) := by
  have hm : ((pair.1 * sizeof_float % 18446744073709551616 : Nat) : Int) = 4 * (pair.1 : Int) := by
    unfold sizeof_float
    omega
  simp only [packed_body, hm]
  rw [to_int_of_small (4 * (pair.1 : Int)) (by omega) (by omega)]
  exact to_int_of_small _ (by omega) (by omega)

theorem packed_fold_stride (attributes : List (Nat × String)) :
    ∀ st : PackedLoop, 0 ≤ st.stride →
      st.stride + 4 * (componentSum attributes : Int) < 2147483648 →
      (attributes.foldl packed_body st).stride = st.stride + 4 * (componentSum attributes : Int) := by
  induction attributes with
  | nil => intro st _ _; simp [componentSum]
  | cons a rest ih =>
    intro st h0 h1
    have hs : (componentSum (a :: rest) : Int) = (a.1 : Int) + (componentSum rest : Int) := by
      simp [componentSum]
    rw [hs] at h1 ⊢
    have hb := packed_body_stride st a h0 (by omega)
    rw [List.foldl_cons, ih (packed_body st a) (by omega) (by omega), hb]
    ring

theorem packed_fold_offsets (attributes : List (Nat × String)) :
    ∀ st : PackedLoop, 0 ≤ st.stride →
      st.stride + 4 * (componentSum attributes : Int) < 2147483648 →
      formatOffsets (attributes.foldl packed_body st).calls =
        formatOffsets st.calls ++
          (List.range attributes.length).map
            (fun k => (st.stride + 4 * (componentSum (attributes.take k) : Int)).toNat) := by
  induction attributes with
  | nil => intro st _ _; simp
  | cons a rest ih =>
    intro st h0 h1
    have hs : (componentSum (a :: rest) : Int) = (a.1 : Int) + (componentSum rest : Int) := by
      simp [componentSum]
    rw [hs] at h1
    have hb := packed_body_stride st a h0 (by omega)
    have hc : formatOffsets (packed_body st a).calls =
        formatOffsets st.calls ++ [st.stride.toNat] := by
      have hu : to_uint st.stride = st.stride.toNat := by
        unfold to_uint
        omega
      simp [packed_body, formatOffsets, List.filterMap_append, hu]
    rw [List.foldl_cons, ih (packed_body st a) (by omega) (by omega), hc, hb,
      List.length_cons, List.range_succ_eq_map, List.map_cons, List.map_map, List.append_assoc]
    congr 1
    simp only [List.singleton_append, List.take_zero, componentSum, List.map_nil, List.sum_nil]
    congr 1
    · simp
    · apply List.map_congr_left
      intro k _
      simp only [Function.comp, List.take_succ_cons, List.map_cons, List.sum_cons]
      push_cast
      ring_nf

/-- C1: for every VertexArray state and every descriptor list of the packed overload whose
total byte size fits in a signed 32-bit int, the relative offset recorded for the k-th
attribute is 4 times the sum of the component counts before it, the stride recorded for the
buffer attachment is 4 times the sum of all component counts, and neither depends on the
state of the array (hence not on earlier attachments). -/
theorem vertex_buffer_packed_layout (self : VertexArray) (buffer : Nat)
    (attributes : List (Nat × String))
    (hfit : 4 * componentSum attributes < 2147483648) :
    formatOffsets (self.vertex_buffer buffer attributes).2 =
        (List.range attributes.length).map (fun k => 4 * componentSum (attributes.take k)) ∧
      bufferStrides (self.vertex_buffer buffer attributes).2 =
        [((4 * componentSum attributes : Nat) : Int)] ∧
      ∀ (other : VertexArray) (other_buffer : Nat),
        formatOffsets (other.vertex_buffer other_buffer attributes).2 =
            formatOffsets (self.vertex_buffer buffer attributes).2 ∧
          bufferStrides (other.vertex_buffer other_buffer attributes).2 =
            bufferStrides (self.vertex_buffer buffer attributes).2 := by
  have key : ∀ (s : VertexArray) (b : Nat),
      formatOffsets (s.vertex_buffer b attributes).2 =
          (List.range attributes.length).map (fun k => 4 * componentSum (attributes.take k)) ∧
        bufferStrides (s.vertex_buffer b attributes).2 =
          [((4 * componentSum attributes : Nat) : Int)] := by
    intro s b
    have hfit2 : (0 : Int) + 4 * (componentSum attributes : Int) < 2147483648 := by omega
    have h1 := packed_fold_stride attributes { self := s, stride := 0, calls := [] }
      (le_refl _) hfit2
    have h2 := packed_fold_offsets attributes { self := s, stride := 0, calls := [] }
      (le_refl _) hfit2
    constructor
    · simp only [VertexArray.vertex_buffer, formatOffsets_append, h2]
      simp [formatOffsets]
      intro k _
      omega
    · simp only [VertexArray.vertex_buffer, bufferStrides_append, h1]
      have hn : ∀ (st : PackedLoop), bufferStrides st.calls = [] →
          ∀ l : List (Nat × String), bufferStrides (l.foldl packed_body st).calls = [] := by
        intro st hst l
        induction l generalizing st with
        | nil => simpa using hst
        | cons a rest ih =>
          rw [List.foldl_cons]
          apply ih
          simp [packed_body, bufferStrides_append, hst]
          simp [bufferStrides]
      rw [hn _ (by simp [bufferStrides]) attributes]
      simp [bufferStrides]
  refine ⟨(key self buffer).1, (key self buffer).2, ?_⟩
  intro other ob
  rw [(key other ob).1, (key other ob).2, (key self buffer).1, (key self buffer).2]
  exact ⟨rfl, rfl⟩

/-- C1, at the descriptor list of the example program: offsets 0, 12, 20 and stride 36. -/
theorem vertex_buffer_packed_layout_witness :
    4 * componentSum [(3, "posIn"), (2, "uvIn"), (4, "colorIn")] < 2147483648 ∧
      formatOffsets ((VertexArray.mk_new 1 true).vertex_buffer 1
        [(3, "posIn"), (2, "uvIn"), (4, "colorIn")]).2 = [0, 12, 20] ∧
      bufferStrides ((VertexArray.mk_new 1 true).vertex_buffer 1
        [(3, "posIn"), (2, "uvIn"), (4, "colorIn")]).2 = [36] := by
  have hfit : 4 * componentSum [(3, "posIn"), (2, "uvIn"), (4, "colorIn")] < 2147483648 := by
    decide
  have h := vertex_buffer_packed_layout (VertexArray.mk_new 1 true) 1
    [(3, "posIn"), (2, "uvIn"), (4, "colorIn")] hfit
  refine ⟨hfit, ?_, ?_⟩
  · rw [h.1]; decide
  · rw [h.2.1]; decide

/-! ## Vertex layout: attribute slots and binding slots -/

theorem assignedSlots_append (xs ys : List NativeCall) :
    assignedSlots (xs ++ ys) = assignedSlots xs ++ assignedSlots ys := by
  simp [assignedSlots, List.filterMap_append]

theorem formatSlots_append (xs ys : List NativeCall) :
    formatSlots (xs ++ ys) = formatSlots xs ++ formatSlots ys := by
  simp [formatSlots, List.filterMap_append]

theorem enabledSlots_append (xs ys : List NativeCall) :
    enabledSlots (xs ++ ys) = enabledSlots xs ++ enabledSlots ys := by
  simp [enabledSlots, List.filterMap_append]

theorem attribBindingSlots_append (xs ys : List NativeCall) :
    attribBindingSlots (xs ++ ys) = attribBindingSlots xs ++ attribBindingSlots ys := by
  simp [attribBindingSlots, List.filterMap_append]

theorem bufferAttachments_append (xs ys : List NativeCall) :
    bufferAttachments (xs ++ ys) = bufferAttachments xs ++ bufferAttachments ys := by
  simp [bufferAttachments, List.filterMap_append]

theorem packed_fold_frame (attributes : List (Nat × String)) :
    ∀ st : PackedLoop,
      (attributes.foldl packed_body st).self.handle = st.self.handle ∧
      (attributes.foldl packed_body st).self.owned = st.self.owned ∧
      (attributes.foldl packed_body st).self.next_binding = st.self.next_binding ∧
      (attributes.foldl packed_body st).self.next_attribute % 4294967296 =
        (st.self.next_attribute + attributes.length) % 4294967296 ∧
      (attributes ≠ [] → (attributes.foldl packed_body st).self.next_attribute < 4294967296) ∧
      assignedSlots (attributes.foldl packed_body st).calls =
        assignedSlots st.calls ++ slotSeq st.self.next_attribute attributes.length ∧
      formatSlots (attributes.foldl packed_body st).calls =
        formatSlots st.calls ++ slotSeq st.self.next_attribute attributes.length ∧
      enabledSlots (attributes.foldl packed_body st).calls =
        enabledSlots st.calls ++ slotSeq st.self.next_attribute attributes.length ∧
      attribBindingSlots (attributes.foldl packed_body st).calls =
        attribBindingSlots st.calls ++ List.replicate attributes.length st.self.next_binding ∧
      bufferAttachments (attributes.foldl packed_body st).calls = bufferAttachments st.calls := by
  induction attributes with
  | nil => intro st; simp [slotSeq]
  | cons a rest ih =>
    intro st
    obtain ⟨h1, h2, h3, h4, h5, h6, h7, h8, h9, h10⟩ := ih (packed_body st a)
    rw [List.foldl_cons]
    refine ⟨by rw [h1]; rfl, by rw [h2]; rfl, by rw [h3]; rfl, ?_, ?_, ?_, ?_, ?_, ?_, ?_⟩
    · rw [h4]
      simp only [packed_body, List.length_cons]
      omega
    · intro _
      by_cases hr : rest = []
      · subst hr
        simp only [List.foldl_nil, packed_body]
        omega
      · exact h5 hr
    · rw [h6]
      simp [packed_body, assignedSlots, List.filterMap_append, slotSeq]
    · rw [h7]
      simp [packed_body, formatSlots, List.filterMap_append, slotSeq]
    · rw [h8]
      simp [packed_body, enabledSlots, List.filterMap_append, slotSeq]
    · rw [h9]
      simp [packed_body, attribBindingSlots, List.filterMap_append, List.replicate_succ]
    · rw [h10]
      simp [packed_body, bufferAttachments, List.filterMap_append]

theorem explicit_fold_frame (attributes : List VertexAttribute) :
    ∀ st : ExplicitLoop,
      (attributes.foldl explicit_body st).self.handle = st.self.handle ∧
      (attributes.foldl explicit_body st).self.owned = st.self.owned ∧
      (attributes.foldl explicit_body st).self.next_binding = st.self.next_binding ∧
      (attributes.foldl explicit_body st).self.next_attribute % 4294967296 =
        (st.self.next_attribute + attributes.length) % 4294967296 ∧
      (attributes ≠ [] → (attributes.foldl explicit_body st).self.next_attribute < 4294967296) ∧
      assignedSlots (attributes.foldl explicit_body st).calls =
        assignedSlots st.calls ++ slotSeq st.self.next_attribute attributes.length ∧
      formatSlots (attributes.foldl explicit_body st).calls =
        formatSlots st.calls ++ slotSeq st.self.next_attribute attributes.length ∧
      enabledSlots (attributes.foldl explicit_body st).calls =
        enabledSlots st.calls ++ slotSeq st.self.next_attribute attributes.length ∧
      attribBindingSlots (attributes.foldl explicit_body st).calls =
        attribBindingSlots st.calls ++ List.replicate attributes.length st.self.next_binding ∧
      bufferAttachments (attributes.foldl explicit_body st).calls = bufferAttachments st.calls := by
  induction attributes with
  | nil => intro st; simp [slotSeq]
  | cons a rest ih =>
    intro st
    obtain ⟨h1, h2, h3, h4, h5, h6, h7, h8, h9, h10⟩ := ih (explicit_body st a)
    rw [List.foldl_cons]
    refine ⟨by rw [h1]; rfl, by rw [h2]; rfl, by rw [h3]; rfl, ?_, ?_, ?_, ?_, ?_, ?_, ?_⟩
    · rw [h4]
      simp only [explicit_body, List.length_cons]
      omega
    · intro _
      by_cases hr : rest = []
      · subst hr
        simp only [List.foldl_nil, explicit_body]
        omega
      · exact h5 hr
    · rw [h6]
      simp [explicit_body, assignedSlots, List.filterMap_append, slotSeq]
    · rw [h7]
      simp [explicit_body, formatSlots, List.filterMap_append, slotSeq]
    · rw [h8]
      simp [explicit_body, enabledSlots, List.filterMap_append, slotSeq]
    · rw [h9]
      simp [explicit_body, attribBindingSlots, List.filterMap_append, List.replicate_succ]
    · rw [h10]
      simp [explicit_body, bufferAttachments, List.filterMap_append]

theorem vertex_buffer_frame (self : VertexArray) (buffer : Nat)
    (attributes : List (Nat × String)) :
    (self.vertex_buffer buffer attributes).1.handle = self.handle ∧
    (self.vertex_buffer buffer attributes).1.owned = self.owned ∧
    (self.vertex_buffer buffer attributes).1.next_binding =
      (self.next_binding + 1) % 4294967296 ∧
    (self.next_attribute < 4294967296 → (self.vertex_buffer buffer attributes).1.next_attribute =
      (self.next_attribute + attributes.length) % 4294967296) ∧
    assignedSlots (self.vertex_buffer buffer attributes).2 =
      slotSeq self.next_attribute attributes.length ∧
    formatSlots (self.vertex_buffer buffer attributes).2 =
      slotSeq self.next_attribute attributes.length ∧
    enabledSlots (self.vertex_buffer buffer attributes).2 =
      slotSeq self.next_attribute attributes.length ∧
    attribBindingSlots (self.vertex_buffer buffer attributes).2 =
      List.replicate attributes.length self.next_binding ∧
    bufferAttachments (self.vertex_buffer buffer attributes).2 = [(self.next_binding, buffer)] := by
  obtain ⟨h1, h2, h3, h4, h5, h6, h7, h8, h9, h10⟩ :=
    packed_fold_frame attributes { self := self, stride := 0, calls := [] }
  simp only [VertexArray.vertex_buffer]
  refine ⟨h1, h2, by rw [h3], ?_, ?_, ?_, ?_, ?_, ?_⟩
  · intro hna
    by_cases hr : attributes = []
    · subst hr
      simp only [List.foldl_nil, List.length_nil]
      omega
    · have := h5 hr
      simp only at h4 this ⊢
      omega
  · rw [assignedSlots_append, h6]
    simp [assignedSlots]
  · rw [formatSlots_append, h7]
    simp [formatSlots]
  · rw [enabledSlots_append, h8]
    simp [enabledSlots]
  · rw [attribBindingSlots_append, h9]
    simp [attribBindingSlots]
  · rw [bufferAttachments_append, h10, h3]
    simp [bufferAttachments]

theorem vertex_buffer_stride_frame (self : VertexArray) (buffer : Nat)
    (attributes : List VertexAttribute) (stride offset : Nat) :
    (self.vertex_buffer_stride buffer attributes stride offset).1.handle = self.handle ∧
    (self.vertex_buffer_stride buffer attributes stride offset).1.owned = self.owned ∧
    (self.vertex_buffer_stride buffer attributes stride offset).1.next_binding =
      (self.next_binding + 1) % 4294967296 ∧
    (self.next_attribute < 4294967296 → (self.vertex_buffer_stride buffer attributes stride offset).1.next_attribute =
      (self.next_attribute + attributes.length) % 4294967296) ∧
    assignedSlots (self.vertex_buffer_stride buffer attributes stride offset).2 =
      slotSeq self.next_attribute attributes.length ∧
    formatSlots (self.vertex_buffer_stride buffer attributes stride offset).2 =
      slotSeq self.next_attribute attributes.length ∧
    enabledSlots (self.vertex_buffer_stride buffer attributes stride offset).2 =
      slotSeq self.next_attribute attributes.length ∧
    attribBindingSlots (self.vertex_buffer_stride buffer attributes stride offset).2 =
      List.replicate attributes.length self.next_binding ∧
    bufferAttachments (self.vertex_buffer_stride buffer attributes stride offset).2 =
      [(self.next_binding, buffer)] := by
  obtain ⟨h1, h2, h3, h4, h5, h6, h7, h8, h9, h10⟩ :=
    explicit_fold_frame attributes { self := self, stride := stride, calls := [] }
  simp only [VertexArray.vertex_buffer_stride]
  refine ⟨h1, h2, by rw [h3], ?_, ?_, ?_, ?_, ?_, ?_⟩
  · intro hna
    by_cases hr : attributes = []
    · subst hr
      simp only [List.foldl_nil, List.length_nil]
      omega
    · have := h5 hr
      simp only at h4 this ⊢
      omega
  · rw [assignedSlots_append, h6]
    simp [assignedSlots]
  · rw [formatSlots_append, h7]
    simp [formatSlots]
  · rw [enabledSlots_append, h8]
    simp [enabledSlots]
  · rw [attribBindingSlots_append, h9]
    simp [attribBindingSlots]
  · rw [bufferAttachments_append, h10, h3]
    simp [bufferAttachments]

theorem attach_frame (self : VertexArray) (c : AttachCall) :
    (self.attach c).1.handle = self.handle ∧
    (self.attach c).1.owned = self.owned ∧
    (self.attach c).1.next_binding = (self.next_binding + 1) % 4294967296 ∧
    (self.next_attribute < 4294967296 →
      (self.attach c).1.next_attribute = (self.next_attribute + c.count) % 4294967296) ∧
    assignedSlots (self.attach c).2 = slotSeq self.next_attribute c.count ∧
    formatSlots (self.attach c).2 = slotSeq self.next_attribute c.count ∧
    enabledSlots (self.attach c).2 = slotSeq self.next_attribute c.count ∧
    attribBindingSlots (self.attach c).2 = List.replicate c.count self.next_binding ∧
    bufferAttachments (self.attach c).2 = [(self.next_binding, c.buffer_id)] := by
  cases c with
  | packed buffer attributes => exact vertex_buffer_frame self buffer attributes
  | explicit buffer attributes stride offset =>
    exact vertex_buffer_stride_frame self buffer attributes stride offset
  | packed_of_buffer buffer attributes =>
    exact vertex_buffer_frame self buffer.get_handle attributes
  | explicit_of_buffer buffer attributes stride offset =>
    exact vertex_buffer_stride_frame self buffer.get_handle attributes stride 0

theorem slotSeq_eq_range (count : Nat) :
    ∀ next : Nat, next + count ≤ 4294967296 → slotSeq next count = List.range' next count := by
  induction count with
  | zero => intro next _; simp [slotSeq]
  | succ n ih =>
    intro next h
    cases n with
    | zero => simp [slotSeq]
    | succ m =>
      have hm : (next + 1) % 4294967296 = next + 1 := Nat.mod_eq_of_lt (by omega)
      rw [slotSeq, hm, ih (next + 1) (by omega)]
      simp [List.range'_succ]

theorem totalCount_cons (c : AttachCall) (rest : List AttachCall) :
    totalCount (c :: rest) = c.count + totalCount rest := by
  simp [totalCount]

theorem totalCount_append (xs ys : List AttachCall) :
    totalCount (xs ++ ys) = totalCount xs + totalCount ys := by
  simp [totalCount]

theorem attach_all_slots (calls : List AttachCall) :
    ∀ self : VertexArray, self.next_attribute + totalCount calls < 4294967296 →
      (self.attach_all calls).1.next_attribute = self.next_attribute + totalCount calls ∧
      assignedSlots (self.attach_all calls).2 =
        List.range' self.next_attribute (totalCount calls) ∧
      formatSlots (self.attach_all calls).2 =
        List.range' self.next_attribute (totalCount calls) ∧
      enabledSlots (self.attach_all calls).2 =
        List.range' self.next_attribute (totalCount calls) := by
  induction calls with
  | nil => intro self _; simp [VertexArray.attach_all, totalCount, assignedSlots, formatSlots,
      enabledSlots]
  | cons c rest ih =>
    intro self h
    rw [totalCount_cons] at h ⊢
    obtain ⟨_, _, _, h4, h5, h6, h7, _, _⟩ := attach_frame self c
    have hn : (self.attach c).1.next_attribute = self.next_attribute + c.count := by
      rw [h4 (by omega)]
      exact Nat.mod_eq_of_lt (by omega)
    obtain ⟨i1, i2, i3, i4⟩ := ih (self.attach c).1 (by omega)
    have hs := slotSeq_eq_range c.count self.next_attribute (by omega)
    have hr : List.range' self.next_attribute c.count ++
        List.range' (self.next_attribute + c.count) (totalCount rest) =
        List.range' self.next_attribute (c.count + totalCount rest) := by
      rw [List.range'_append_1, Nat.add_comm]
    simp only [VertexArray.attach_all]
    refine ⟨by rw [i1, hn]; omega, ?_, ?_, ?_⟩
    · rw [assignedSlots_append, h5, i2, hs, hn, hr]
    · rw [formatSlots_append, h6, i3, hs, hn, hr]
    · rw [enabledSlots_append, h7, i4, hs, hn, hr]

/-- C2: on a freshly created VertexArray, for every sequence of `vertex_buffer` calls (any mix
of overloads) that attaches fewer than 2^32 attributes in total, the attribute slots handed
out are 0, 1, 2, ... in order of assignment (the format and enable calls use the same slots),
they are strictly increasing and pairwise distinct, and each call with n descriptors advances
the next free slot by exactly n. -/
theorem attribute_slots_strictly_increasing (handle : Nat) (owned : Bool)
    (calls : List AttachCall) (hfew : totalCount calls < 4294967296) :
    assignedSlots ((VertexArray.mk_new handle owned).attach_all calls).2 =
        List.range (totalCount calls) ∧
      formatSlots ((VertexArray.mk_new handle owned).attach_all calls).2 =
        List.range (totalCount calls) ∧
      enabledSlots ((VertexArray.mk_new handle owned).attach_all calls).2 =
        List.range (totalCount calls) ∧
      (assignedSlots ((VertexArray.mk_new handle owned).attach_all calls).2).Pairwise
        (fun a b => a < b) ∧
      (assignedSlots ((VertexArray.mk_new handle owned).attach_all calls).2).Nodup ∧
      ∀ (before : List AttachCall) (c : AttachCall) (after : List AttachCall),
        calls = before ++ c :: after →
          (((VertexArray.mk_new handle owned).attach_all before).1.attach c).1.next_attribute =
            ((VertexArray.mk_new handle owned).attach_all before).1.next_attribute + c.count := by
  have h0 : (VertexArray.mk_new handle owned).next_attribute = 0 := rfl
  obtain ⟨_, h2, h3, h4⟩ := attach_all_slots calls (VertexArray.mk_new handle owned)
    (by rw [h0]; omega)
  rw [h0, ← List.range_eq_range'] at h2 h3 h4
  refine ⟨h2, h3, h4, ?_, ?_, ?_⟩
  · rw [h2]
    exact List.pairwise_lt_range _
  · rw [h2]
    exact List.nodup_range _
  · intro before c after hsplit
    have ht : totalCount calls = totalCount before + (c.count + totalCount after) := by
      rw [hsplit, totalCount_append, totalCount_cons]
    obtain ⟨b1, _, _, _⟩ := attach_all_slots before (VertexArray.mk_new handle owned)
      (by rw [h0]; omega)
    rw [h0] at b1
    obtain ⟨_, _, _, a4, _⟩ := attach_frame ((VertexArray.mk_new handle owned).attach_all before).1 c
    rw [a4 (by rw [b1]; omega), b1]
    exact Nat.mod_eq_of_lt (by omega)

/-- C2, on a packed attachment of two attributes followed by an explicit attachment of one:
the slots handed out are 0, 1, 2. -/
theorem attribute_slots_strictly_increasing_witness :
    totalCount [AttachCall.packed 5 [(3, "posIn"), (2, "uvIn")],
        AttachCall.explicit 6 [{ size := 4, offset := 0, name := "colorIn" }] 16 0] < 4294967296 ∧
      assignedSlots ((VertexArray.mk_new 1 true).attach_all
        [AttachCall.packed 5 [(3, "posIn"), (2, "uvIn")],
          AttachCall.explicit 6 [{ size := 4, offset := 0, name := "colorIn" }] 16 0]).2 =
        [0, 1, 2] :=
  ⟨by decide,
    (attribute_slots_strictly_increasing 1 true
      [AttachCall.packed 5 [(3, "posIn"), (2, "uvIn")],
        AttachCall.explicit 6 [{ size := 4, offset := 0, name := "colorIn" }] 16 0]
      (by decide)).1⟩

/-! ## Vertex layout: the stride of the explicit overload -/

/-- C3: the explicit overload called with one three-component attribute and the stride 12
records the stride 24 in its `glVertexArrayVertexBuffer` call, not the 12 the caller gave:
the loop adds `size * sizeof(float)` of every descriptor to the stride parameter. -/
theorem explicit_stride_is_augmented :
    bufferStrides ((VertexArray.mk_new 1 true).vertex_buffer_stride 7
        [{ size := 3, offset := 0, name := "posIn" }] 12 0).2 = [24] ∧
      bufferStrides ((VertexArray.mk_new 1 true).vertex_buffer_stride 7
        [{ size := 3, offset := 0, name := "posIn" }] 12 0).2 ≠ [12] := by
  decide

/-! ## Vertex layout: the buffer-binding slot of an attachment -/

theorem attach_all_bindings (calls : List AttachCall) :
    ∀ self : VertexArray, self.next_binding + calls.length ≤ 4294967296 →
      (bufferAttachments (self.attach_all calls).2).map Prod.fst =
        List.range' self.next_binding calls.length := by
  induction calls with
  | nil => intro self _; simp [VertexArray.attach_all, bufferAttachments]
  | cons c rest ih =>
    intro self h
    rw [List.length_cons] at h
    obtain ⟨_, _, h3, _, _, _, _, _, h9⟩ := attach_frame self c
    simp only [VertexArray.attach_all]
    rw [bufferAttachments_append, h9, List.map_append, List.length_cons, List.range'_succ]
    cases rest with
    | nil => simp [VertexArray.attach_all, bufferAttachments]
    | cons d more =>
      rw [List.length_cons] at h
      have hn : (self.attach c).1.next_binding = self.next_binding + 1 := by
        rw [h3]
        exact Nat.mod_eq_of_lt (by omega)
      rw [ih (self.attach c).1 (by rw [hn, List.length_cons]; omega), hn]
      simp

/-- C4 as stated fails at the top of the counter's range: on an array whose binding counter
is 4294967295 a `vertex_buffer` call (here with an empty descriptor list) leaves the counter
at 0, not at 4294967296. -/
theorem binding_counter_wraps :
    ((VertexArray.mk 1 true 4294967295 0 []).vertex_buffer 7 []).1.next_binding = 0 ∧
      ((VertexArray.mk 1 true 4294967295 0 []).vertex_buffer 7 []).1.next_binding ≠
        (VertexArray.mk 1 true 4294967295 0 []).next_binding + 1 := by
  decide

/-- C4 (amended): for every `vertex_buffer` call (any overload) on a VertexArray whose binding
counter is b, every attribute of the batch is associated with buffer-binding slot b, the
buffer is attached exactly once and at slot b, and the binding counter afterwards is
(b + 1) mod 2^32, which is b + 1 whenever b + 1 < 2^32 (also for an empty descriptor list);
hence on a fresh array the k-th attachment uses binding slot k - 1, for up to 2^32
attachments. -/
theorem binding_slot_per_attachment (self : VertexArray) (c : AttachCall) :
    attribBindingSlots (self.attach c).2 = List.replicate c.count self.next_binding ∧
      (assignedSlots (self.attach c).2).length = c.count ∧
      bufferAttachments (self.attach c).2 = [(self.next_binding, c.buffer_id)] ∧
      (self.attach c).1.next_binding = (self.next_binding + 1) % 4294967296 ∧
      (self.next_binding + 1 < 4294967296 →
        (self.attach c).1.next_binding = self.next_binding + 1) ∧
      ∀ (handle : Nat) (owned : Bool) (calls : List AttachCall),
        calls.length ≤ 4294967296 →
          (bufferAttachments ((VertexArray.mk_new handle owned).attach_all calls).2).map Prod.fst =
            List.range calls.length := by
  obtain ⟨_, _, h3, _, h5, _, _, h8, h9⟩ := attach_frame self c
  have hlen : ∀ (n next : Nat), (slotSeq next n).length = n := by
    intro n
    induction n with
    | zero => intro next; simp [slotSeq]
    | succ m ih => intro next; simp [slotSeq, ih]
  refine ⟨h8, by rw [h5, hlen], h9, h3, ?_, ?_⟩
  · intro hb
    rw [h3]
    exact Nat.mod_eq_of_lt hb
  · intro handle owned calls hlen2
    have h0 : (VertexArray.mk_new handle owned).next_binding = 0 := rfl
    rw [attach_all_bindings calls (VertexArray.mk_new handle owned) (by rw [h0]; omega), h0,
      List.range_eq_range']

/-- C4 (amended), on a fresh array: the first attachment uses binding slot 0 for its two
attributes and for the buffer, and leaves the counter at 1; a second attachment uses slot 1. -/
theorem binding_slot_per_attachment_witness :
    (VertexArray.mk_new 1 true).next_binding + 1 < 4294967296 ∧
      attribBindingSlots ((VertexArray.mk_new 1 true).attach
        (AttachCall.packed 5 [(3, "posIn"), (2, "uvIn")])).2 = [0, 0] ∧
      bufferAttachments ((VertexArray.mk_new 1 true).attach
        (AttachCall.packed 5 [(3, "posIn"), (2, "uvIn")])).2 = [(0, 5)] ∧
      ((VertexArray.mk_new 1 true).attach
        (AttachCall.packed 5 [(3, "posIn"), (2, "uvIn")])).1.next_binding = 0 + 1 ∧
      (bufferAttachments ((VertexArray.mk_new 1 true).attach_all
        [AttachCall.packed 5 [(3, "posIn"), (2, "uvIn")],
          AttachCall.explicit 6 [{ size := 4, offset := 0, name := "colorIn" }] 16 0]).2).map
        Prod.fst = [0, 1] :=
  ⟨by decide,
    (binding_slot_per_attachment (VertexArray.mk_new 1 true)
      (AttachCall.packed 5 [(3, "posIn"), (2, "uvIn")])).1,
    (binding_slot_per_attachment (VertexArray.mk_new 1 true)
      (AttachCall.packed 5 [(3, "posIn"), (2, "uvIn")])).2.2.1,
    (binding_slot_per_attachment (VertexArray.mk_new 1 true)
      (AttachCall.packed 5 [(3, "posIn"), (2, "uvIn")])).2.2.2.2.1 (by decide),
    (binding_slot_per_attachment (VertexArray.mk_new 1 true)
      (AttachCall.packed 5 [(3, "posIn"), (2, "uvIn")])).2.2.2.2.2 1 true
      [AttachCall.packed 5 [(3, "posIn"), (2, "uvIn")],
        AttachCall.explicit 6 [{ size := 4, offset := 0, name := "colorIn" }] 16 0] (by decide)⟩

/-! ## Vertex layout: the name-to-slot map -/

theorem map_find_assign (m : List (String × Nat)) (key : String) (value : Nat) (other : String) :
    map_find (map_assign m key value) other =
      if key = other then some value else map_find m other := by
  induction m with
  | nil => simp [map_assign, map_find]
  | cons e rest ih =>
    obtain ⟨k, v⟩ := e
    by_cases hk : k = key
    · subst hk
      by_cases ho : k = other <;> simp [map_assign, map_find, ho]
    · by_cases ho : k = other
      · subst ho
        simp [map_assign, map_find, hk, Ne.symm hk]
      · simp [map_assign, map_find, hk, ho, ih]

theorem packed_fold_names (attributes : List (Nat × String)) :
    ∀ st : PackedLoop,
      (attributes.foldl packed_body st).self.attribute_names =
        assign_names st.self.attribute_names st.self.next_attribute
          (attributes.map Prod.snd) := by
  induction attributes with
  | nil => intro st; simp [assign_names]
  | cons a rest ih =>
    intro st
    rw [List.foldl_cons, ih (packed_body st a)]
    simp [assign_names, packed_body]

theorem explicit_fold_names (attributes : List VertexAttribute) :
    ∀ st : ExplicitLoop,
      (attributes.foldl explicit_body st).self.attribute_names =
        assign_names st.self.attribute_names st.self.next_attribute
          (attributes.map VertexAttribute.name) := by
  induction attributes with
  | nil => intro st; simp [assign_names]
  | cons a rest ih =>
    intro st
    rw [List.foldl_cons, ih (explicit_body st a)]
    simp [assign_names, explicit_body]

theorem attach_names (self : VertexArray) (c : AttachCall) :
    (self.attach c).1.attribute_names =
      assign_names self.attribute_names self.next_attribute c.names := by
  cases c with
  | packed buffer attributes =>
    simp only [VertexArray.attach, VertexArray.vertex_buffer, AttachCall.names]
    exact packed_fold_names attributes _
  | explicit buffer attributes stride offset =>
    simp only [VertexArray.attach, VertexArray.vertex_buffer_stride, AttachCall.names]
    exact explicit_fold_names attributes _
  | packed_of_buffer buffer attributes =>
    simp only [VertexArray.attach, VertexArray.vertex_buffer_of_buffer,
      VertexArray.vertex_buffer, AttachCall.names]
    exact packed_fold_names attributes _
  | explicit_of_buffer buffer attributes stride offset =>
    simp only [VertexArray.attach, VertexArray.vertex_buffer_stride_of_buffer,
      VertexArray.vertex_buffer_stride, AttachCall.names]
    exact explicit_fold_names attributes _

theorem assign_names_absent (names : List String) :
    ∀ (m : List (String × Nat)) (next : Nat) (name : String), name ∉ names →
      map_find (assign_names m next names) name = map_find m name := by
  induction names with
  | nil => intro m next name _; rfl
  | cons n rest ih =>
    intro m next name hname
    rw [List.mem_cons, not_or] at hname
    rw [assign_names, ih _ _ _ hname.2, map_find_assign, if_neg (Ne.symm hname.1)]

theorem assign_names_last (names : List String) :
    ∀ (m : List (String × Nat)) (next : Nat) (i : Nat) (hi : i < names.length),
      (∀ (j : Nat) (hj : j < names.length), i < j → names[j] ≠ names[i]) →
      map_find (assign_names m next names) names[i] = (slotSeq next names.length)[i]? := by
  induction names with
  | nil => intro m next i hi; simp at hi
  | cons n rest ih =>
    intro m next i hi hlast
    cases i with
    | zero =>
      have hn : n ∉ rest := by
        intro hmem
        obtain ⟨j, hj, hjn⟩ := List.mem_iff_getElem.mp hmem
        exact hlast (j + 1) (by simp; omega) (by omega) (by simpa using hjn)
      simp only [List.getElem_cons_zero, List.length_cons, slotSeq, List.getElem?_cons_zero]
      rw [assign_names, assign_names_absent rest _ _ n hn, map_find_assign, if_pos rfl]
    | succ k =>
      have hk : k < rest.length := by simpa using hi
      simp only [List.getElem_cons_succ, List.length_cons, slotSeq, List.getElem?_cons_succ]
      rw [assign_names]
      apply ih _ _ k hk
      intro j hj hkj
      have := hlast (j + 1) (by simp; omega) (by omega)
      simpa using this

/-- C5: after any `vertex_buffer` call, every name that does not occur in the batch keeps
the map entry (or absence of one) it had before, and every name of the batch is mapped to the
slot handed out for the last descriptor of the batch that carries it: for a position i with
no later descriptor of the same name, the map sends that name to the i-th slot assigned by
the call (one slot is assigned per descriptor).  Earlier entries for the name, from this
batch or from earlier attachments, are overwritten. -/
theorem name_map_last_write_wins (self : VertexArray) (c : AttachCall) :
    (∀ name : String, name ∉ c.names →
        map_find (self.attach c).1.attribute_names name = map_find self.attribute_names name) ∧
      (assignedSlots (self.attach c).2).length = c.names.length ∧
      ∀ (i : Nat) (hi : i < c.names.length),
        (∀ (j : Nat) (hj : j < c.names.length), i < j → c.names[j] ≠ c.names[i]) →
          map_find (self.attach c).1.attribute_names c.names[i] =
            (assignedSlots (self.attach c).2)[i]? := by
  have hcount : c.count = c.names.length := by
    cases c <;> simp [AttachCall.count, AttachCall.names]
  have hlen : ∀ (n next : Nat), (slotSeq next n).length = n := by
    intro n
    induction n with
    | zero => intro next; simp [slotSeq]
    | succ m ih => intro next; simp [slotSeq, ih]
  obtain ⟨_, _, _, _, h5, _⟩ := attach_frame self c
  refine ⟨?_, by rw [h5, hlen, hcount], ?_⟩
  · intro name hname
    rw [attach_names, assign_names_absent c.names _ _ name hname]
  · intro i hi hlast
    rw [attach_names, h5, hcount]
    exact assign_names_last c.names _ _ i hi hlast

/-- C5, on an array that already maps "posIn" to slot 0 and "uvIn" to slot 1 and whose next
free slot is 2: the batch "posIn", "colorIn", "posIn" leaves "uvIn" at 1 and sends "posIn" to
slot 4, the slot of its last occurrence. -/
theorem name_map_last_write_wins_witness :
    map_find ((VertexArray.mk 1 true 1 2 [("posIn", 0), ("uvIn", 1)]).attach
        (AttachCall.packed 5 [(3, "posIn"), (4, "colorIn"), (3, "posIn")])).1.attribute_names
        "uvIn" = some 1 ∧
      map_find ((VertexArray.mk 1 true 1 2 [("posIn", 0), ("uvIn", 1)]).attach
        (AttachCall.packed 5 [(3, "posIn"), (4, "colorIn"), (3, "posIn")])).1.attribute_names
        "posIn" = some 4 := by
  have h := name_map_last_write_wins (VertexArray.mk 1 true 1 2 [("posIn", 0), ("uvIn", 1)])
    (AttachCall.packed 5 [(3, "posIn"), (4, "colorIn"), (3, "posIn")])
  refine ⟨?_, ?_⟩
  · rw [h.1 "uvIn" (by decide)]
    decide
  · have h2 := h.2.2 2 (by decide) (by
      intro j hj hij
      have hj3 : j < 3 := hj
      omega)
    have h3 : (assignedSlots ((VertexArray.mk 1 true 1 2 [("posIn", 0), ("uvIn", 1)]).attach
        (AttachCall.packed 5 [(3, "posIn"), (4, "colorIn"), (3, "posIn")])).2)[2]? = some 4 := by
      decide
    rw [← h3]
    exact h2

/-! ## Handle ownership: destruction -/

/-- C6: for each of Buffer, Shader and VertexArray, destroying a wrapper whose `owned` flag is
true issues exactly one native call, the release of its identifier, and destroying a wrapper
whose flag is false issues no native call at all. -/
theorem destroy_releases_iff_owned :
    (∀ b : Buffer,
        (b.owned = true → b.destroy = [NativeCall.glDeleteBuffers b.handle]) ∧
        (b.owned = false → b.destroy = [])) ∧
      (∀ s : Shader,
        (s.owned = true → s.destroy = [NativeCall.glDeleteProgram s.handle]) ∧
        (s.owned = false → s.destroy = [])) ∧
      (∀ v : VertexArray,
        (v.owned = true → v.destroy = [NativeCall.glDeleteVertexArrays v.handle]) ∧
        (v.owned = false → v.destroy = [])) := by
  refine ⟨?_, ?_, ?_⟩
  · intro b
    constructor <;> intro h <;> simp [Buffer.destroy, h]
  · intro s
    constructor <;> intro h <;> simp [Shader.destroy, h]
  · intro v
    constructor <;> intro h <;> simp [VertexArray.destroy, h]

/-- C6, on wrappers of identifier 7: the owning ones issue one release of 7, the non-owning
ones issue nothing. -/
theorem destroy_releases_iff_owned_witness :
    (Buffer.mk true 7).destroy = [NativeCall.glDeleteBuffers 7] ∧
      (Buffer.mk false 7).destroy = [] ∧
      (Shader.mk 7 true).destroy = [NativeCall.glDeleteProgram 7] ∧
      (Shader.mk 7 false).destroy = [] ∧
      (VertexArray.mk 7 true 0 0 []).destroy = [NativeCall.glDeleteVertexArrays 7] ∧
      (VertexArray.mk 7 false 0 0 []).destroy = [] :=
  ⟨(destroy_releases_iff_owned.1 (Buffer.mk true 7)).1 rfl,
    (destroy_releases_iff_owned.1 (Buffer.mk false 7)).2 rfl,
    (destroy_releases_iff_owned.2.1 (Shader.mk 7 true)).1 rfl,
    (destroy_releases_iff_owned.2.1 (Shader.mk 7 false)).2 rfl,
    (destroy_releases_iff_owned.2.2 (VertexArray.mk 7 true 0 0 [])).1 rfl,
    (destroy_releases_iff_owned.2.2 (VertexArray.mk 7 false 0 0 [])).2 rfl⟩

/-! ## Shader creation: the identifier returned -/

theorem create_shader_module_zero (source : ShaderSource) (r : ModuleReply) :
    (create_shader_module source r).1 = 0 ↔ r.compile_status ≠ GL_TRUE ∨ r.shader = 0 := by
  unfold create_shader_module
  by_cases h : r.compile_status = GL_TRUE <;> simp [h]

theorem create_shader_loop_none (d : ShaderDriver) (sources : List ShaderSource) :
    ∀ (k : Nat) (shaders : List Nat) (calls : List NativeCall),
      (create_shader_loop d k sources shaders calls).1 = none ↔
        ∃ j, j < sources.length ∧
          ((d.module (k + j)).compile_status ≠ GL_TRUE ∨ (d.module (k + j)).shader = 0) := by
  induction sources with
  | nil => intro k shaders calls; simp [create_shader_loop]
  | cons source rest ih =>
    intro k shaders calls
    have hz := create_shader_module_zero source (d.module k)
    by_cases hm : (create_shader_module source (d.module k)).1 = 0
    · simp only [create_shader_loop, hm, if_true, true_iff]
      exact ⟨0, by simp, by simpa using hz.mp hm⟩
    · simp only [create_shader_loop, hm, if_false]
      rw [ih]
      constructor
      · rintro ⟨j, hj, hbad⟩
        exact ⟨j + 1, by simp; omega, by rw [show k + (j + 1) = k + 1 + j by omega]; exact hbad⟩
      · rintro ⟨j, hj, hbad⟩
        cases j with
        | zero => exact absurd (hz.mpr (by simpa using hbad)) hm
        | succ i =>
          exact ⟨i, by simpa using hj, by rw [show k + 1 + i = k + (i + 1) by omega]; exact hbad⟩

theorem create_shader_failure (sources : List ShaderSource) (d : ShaderDriver)
    (h : (∃ k, k < sources.length ∧
        ((d.module k).compile_status ≠ GL_TRUE ∨ (d.module k).shader = 0)) ∨
      d.link_status ≠ GL_TRUE) :
    (create_shader sources d).1 = 0 := by
  unfold create_shader
  have hl := create_shader_loop_none d sources 0 [] [NativeCall.glCreateProgram d.program]
  generalize create_shader_loop d 0 sources [] [NativeCall.glCreateProgram d.program] = res
    at hl ⊢
  obtain ⟨o, calls⟩ := res
  cases o with
  | none => rfl
  | some shaders =>
    rcases h with hbad | hlink
    · exfalso
      have : (some shaders : Option (List Nat)) = none :=
        hl.mpr (by simpa using hbad)
      exact Option.noConfusion this
    · simp [hlink]

theorem create_shader_success (sources : List ShaderSource) (d : ShaderDriver)
    (hnames : ∀ k, k < sources.length → (d.module k).shader ≠ 0)
    (hcompile : ∀ k, k < sources.length → (d.module k).compile_status = GL_TRUE)
    (hlink : d.link_status = GL_TRUE) :
    (create_shader sources d).1 = d.program := by
  unfold create_shader
  have hl := create_shader_loop_none d sources 0 [] [NativeCall.glCreateProgram d.program]
  generalize create_shader_loop d 0 sources [] [NativeCall.glCreateProgram d.program] = res
    at hl ⊢
  obtain ⟨o, calls⟩ := res
  cases o with
  | none =>
    exfalso
    obtain ⟨j, hj, hbad⟩ := hl.mp rfl
    rw [Nat.zero_add] at hbad
    rcases hbad with hbad | hbad
    · exact hbad (hcompile j hj)
    · exact hnames j hj hbad
  | some shaders => simp [hlink]

/-- C8: with the driver's answers as inputs, the identifier held by the wrapper that
`Shader::create` returns is 0 whenever some module reports a compile failure or the link
reports failure; and when every module compiles (the driver naming each module by a non-zero
identifier, as OpenGL does) and the link succeeds, it is the program identifier the driver
returned, hence non-zero when that identifier is.  The function is total and returns a plain
wrapper on both paths: there is no exceptional outcome. -/
theorem shader_create_identifier (sources : List ShaderSource) (d : ShaderDriver) :
    ((∃ k, k < sources.length ∧ (d.module k).compile_status ≠ GL_TRUE) ∨
        d.link_status ≠ GL_TRUE →
        (Shader.create sources d).1.handle = 0) ∧
      ((∀ k, k < sources.length → (d.module k).shader ≠ 0) →
        (∀ k, k < sources.length → (d.module k).compile_status = GL_TRUE) →
        d.link_status = GL_TRUE →
        (Shader.create sources d).1.handle = d.program ∧
          (d.program ≠ 0 → (Shader.create sources d).1.handle ≠ 0)) := by
  constructor
  · intro h
    simp only [Shader.create, Shader.wrap]
    apply create_shader_failure
    rcases h with ⟨k, hk, hbad⟩ | hlink
    · exact Or.inl ⟨k, hk, Or.inl hbad⟩
    · exact Or.inr hlink
  · intro hnames hcompile hlink
    have hp : (Shader.create sources d).1.handle = d.program := by
      simp only [Shader.create, Shader.wrap]
      exact create_shader_success sources d hnames hcompile hlink
    exact ⟨hp, fun hne => by rw [hp]; exact hne⟩

/-- C8, on a vertex and fragment pair: a driver that reports a compile failure yields
identifier 0, a driver that reports a link failure yields identifier 0, and a driver that
reports success throughout yields its program identifier 7. -/
theorem shader_create_identifier_witness :
    (Shader.create exampleSources (exampleDriver 0 1)).1.handle = 0 ∧
      (Shader.create exampleSources (exampleDriver 1 0)).1.handle = 0 ∧
      (Shader.create exampleSources (exampleDriver 1 1)).1.handle = 7 :=
  ⟨(shader_create_identifier exampleSources (exampleDriver 0 1)).1
      (Or.inl ⟨0, by decide, by decide⟩),
    (shader_create_identifier exampleSources (exampleDriver 1 0)).1 (Or.inr (by decide)),
    ((shader_create_identifier exampleSources (exampleDriver 1 1)).2
      (by decide) (by decide) (by decide)).1⟩

/-! ## Handle ownership: the factories -/

theorem load_sources_readable (files : String → Option String)
    (paths : List (ShaderType × String))
    (hread : ∀ path, path ∈ paths → (files path.2).isSome = true) :
    ∃ loaded : List ShaderSource,
      load_sources files paths = Except.ok loaded ∧ loaded.length = paths.length := by
  induction paths with
  | nil => exact ⟨[], rfl, rfl⟩
  | cons path rest ih =>
    obtain ⟨loaded, hl, hlen⟩ := ih (fun q hq => hread q (List.mem_cons_of_mem _ hq))
    have hp := hread path (List.mem_cons_self _ _)
    cases hf : files path.2 with
    | none => rw [hf] at hp; simp at hp
    | some text =>
      exact ⟨{ type := path.1, source := text } :: loaded,
        by simp [load_sources, read_file, hf, hl], by simp [hlen]⟩

/-- A path that cannot be opened makes `read_file` throw, and the exception leaves
`load_shader`: no list of sources is produced. -/
theorem load_sources_unreadable (files : String → Option String)
    (paths : List (ShaderType × String))
    (hbad : ∃ path, path ∈ paths ∧ files path.2 = none) :
    load_sources files paths = Except.error Thrown.length_error := by
  induction paths with
  | nil =>
    obtain ⟨path, hmem, _⟩ := hbad
    simp at hmem
  | cons path rest ih =>
    cases hf : files path.2 with
    | none => simp [load_sources, read_file, hf]
    | some text =>
      have hrest : ∃ q, q ∈ rest ∧ files q.2 = none := by
        obtain ⟨q, hq, hnone⟩ := hbad
        rcases List.mem_cons.mp hq with rfl | hq2
        · rw [hf] at hnone
          exact Option.noConfusion hnone
        · exact ⟨q, hq2, hnone⟩
      simp [load_sources, read_file, hf, ih hrest]

/-- With a path that cannot be opened, `Shader::load` and `Shader::load_shared` throw
`std::length_error` and return no wrapper. -/
theorem shader_load_unreadable (files : String → Option String)
    (paths : List (ShaderType × String)) (d : ShaderDriver)
    (hbad : ∃ path, path ∈ paths ∧ files path.2 = none) :
    Shader.load paths files d = Except.error Thrown.length_error ∧
      Shader.load_shared paths files d = Except.error Thrown.length_error := by
  have h := load_sources_unreadable files paths hbad
  simp [Shader.load, Shader.load_shared, load_shader, h]

/-- C7 as stated fails for Shader: when a module fails to compile, `Shader::create` returns a
wrapper holding identifier 0, although the driver returned the program identifier 7 from
`glCreateProgram`. -/
theorem shader_create_not_driver_identifier :
    NativeCall.glCreateProgram 7 ∈ (Shader.create exampleSources (exampleDriver 0 1)).2 ∧
      (Shader.create exampleSources (exampleDriver 0 1)).1.owned = true ∧
      (Shader.create exampleSources (exampleDriver 0 1)).1.handle = 0 ∧
      (Shader.create exampleSources (exampleDriver 0 1)).1.handle ≠
        (exampleDriver 0 1).program := by
  decide

/-- C7 (amended): for Buffer and VertexArray, exclusive and shared variants alike, `create`,
`allocate` and `load` return a wrapper whose `owned` flag is true and whose identifier is the
one the driver wrote in the single allocation call; for Shader, `create`, and `load` when
every source file can be read, return a wrapper whose `owned` flag is true and whose
identifier is the driver's program identifier when every module compiles and the link
succeeds, and 0 when a module fails to compile or the link fails; `wrap(id, take_ownership)` returns a wrapper holding exactly `id` with
`owned = take_ownership` and issues no native call.  A Buffer made by `load` is owning, and
destroying it issues exactly one release call. -/
theorem factories_ownership :
    (∀ (b size usage count sizeof_T : Nat) (has_data : Bool),
        Buffer.create b = (Buffer.mk true b, [NativeCall.glCreateBuffers b]) ∧
        Buffer.create_shared b = (Buffer.mk true b, [NativeCall.glCreateBuffers b]) ∧
        Buffer.allocate b size usage =
          (Buffer.mk true b, [NativeCall.glCreateBuffers b,
            NativeCall.glNamedBufferData b (to_intptr (size : Int)) false usage]) ∧
        Buffer.allocate_shared b size usage = Buffer.allocate b size usage ∧
        Buffer.load b size has_data usage =
          (Buffer.mk true b, [NativeCall.glCreateBuffers b,
            NativeCall.glNamedBufferData b (to_intptr (size : Int)) has_data usage]) ∧
        Buffer.load_shared b size has_data usage = Buffer.load b size has_data usage ∧
        Buffer.load_vector b count sizeof_T has_data usage =
          Buffer.load b (count * sizeof_T % 18446744073709551616) has_data usage ∧
        Buffer.load_shared_vector b count sizeof_T has_data usage =
          Buffer.load b (count * sizeof_T % 18446744073709551616) has_data usage ∧
        (Buffer.load b size has_data usage).1.destroy = [NativeCall.glDeleteBuffers b]) ∧
      (∀ h : Nat,
        VertexArray.create h =
          (VertexArray.mk h true 0 0 [], [NativeCall.glCreateVertexArrays h]) ∧
        VertexArray.create_shared h =
          (VertexArray.mk h true 0 0 [], [NativeCall.glCreateVertexArrays h])) ∧
      (∀ (id : Nat) (take_ownership : Bool),
        Buffer.wrap id take_ownership = (Buffer.mk take_ownership id, []) ∧
        Buffer.wrap_shared id take_ownership = (Buffer.mk take_ownership id, []) ∧
        Shader.wrap id take_ownership = (Shader.mk id take_ownership, []) ∧
        Shader.wrap_shared id take_ownership = (Shader.mk id take_ownership, []) ∧
        VertexArray.wrap id take_ownership = (VertexArray.mk id take_ownership 0 0 [], []) ∧
        VertexArray.wrap_shared id take_ownership =
          (VertexArray.mk id take_ownership 0 0 [], [])) ∧
      (∀ (sources : List ShaderSource) (d : ShaderDriver),
        (Shader.create sources d).1.owned = true ∧
        (Shader.create_shared sources d).1 = (Shader.create sources d).1 ∧
        ((∃ k, k < sources.length ∧ (d.module k).compile_status ≠ GL_TRUE) ∨
            d.link_status ≠ GL_TRUE →
          (Shader.create sources d).1.handle = 0) ∧
        ((∀ k, k < sources.length →
              (d.module k).shader ≠ 0 ∧ (d.module k).compile_status = GL_TRUE) →
            d.link_status = GL_TRUE →
          (Shader.create sources d).1.handle = d.program)) ∧
      (∀ (paths : List (ShaderType × String)) (files : String → Option String)
          (d : ShaderDriver),
        (∀ path, path ∈ paths → (files path.2).isSome = true) →
          ∃ (w : Shader) (calls : List NativeCall),
            Shader.load paths files d = Except.ok (w, calls) ∧
            Shader.load_shared paths files d = Except.ok (w, calls) ∧
            w.owned = true ∧
            ((∃ k, k < paths.length ∧ (d.module k).compile_status ≠ GL_TRUE) ∨
                d.link_status ≠ GL_TRUE →
              w.handle = 0) ∧
            ((∀ k, k < paths.length →
                  (d.module k).shader ≠ 0 ∧ (d.module k).compile_status = GL_TRUE) →
                d.link_status = GL_TRUE →
              w.handle = d.program)) := by
  refine ⟨?_, ?_, ?_, ?_, ?_⟩
  · intro b size usage count sizeof_T has_data
    simp [Buffer.create, Buffer.create_shared, Buffer.allocate, Buffer.allocate_shared,
      Buffer.load, Buffer.load_shared, Buffer.load_vector, Buffer.load_shared_vector,
      Buffer.wrap, Buffer.wrap_shared, raw_buffer_create, raw_load_buffer,
      raw_allocate_buffer, Buffer.destroy]
  · intro h
    exact ⟨rfl, rfl⟩
  · intro id take_ownership
    exact ⟨rfl, rfl, rfl, rfl, rfl, rfl⟩
  · intro sources d
    refine ⟨rfl, rfl, ?_, ?_⟩
    · intro h
      simp only [Shader.create, Shader.wrap]
      apply create_shader_failure
      rcases h with ⟨k, hk, hbad⟩ | hlink
      · exact Or.inl ⟨k, hk, Or.inl hbad⟩
      · exact Or.inr hlink
    · intro hok hlink
      simp only [Shader.create, Shader.wrap]
      exact create_shader_success sources d (fun k hk => (hok k hk).1)
        (fun k hk => (hok k hk).2) hlink
  · intro paths files d hread
    obtain ⟨loaded, hl, hlen⟩ := load_sources_readable files paths hread
    refine ⟨Shader.mk (create_shader loaded d).1 true, (create_shader loaded d).2, ?_, ?_, rfl,
      ?_, ?_⟩
    · simp [Shader.load, load_shader, hl, Shader.wrap]
    · simp [Shader.load_shared, load_shader, hl, Shader.wrap_shared]
    · intro h
      apply create_shader_failure
      rw [hlen]
      rcases h with ⟨k, hk, hbad⟩ | hlink
      · exact Or.inl ⟨k, hk, Or.inl hbad⟩
      · exact Or.inr hlink
    · intro hok hlink
      exact create_shader_success loaded d
        (fun k hk => (hok k (by rw [← hlen]; exact hk)).1)
        (fun k hk => (hok k (by rw [← hlen]; exact hk)).2) hlink

/-- C7 (amended), on the example program's shader pair: with a driver that reports success
the wrapper holds the driver's program identifier 7, with one that reports a compile failure
it holds 0; a load whose one file can be read returns a wrapper that holds 7 when the driver
reports success and 0 when the link fails. -/
theorem factories_ownership_witness :
    (Shader.create exampleSources (exampleDriver 1 1)).1.handle = 7 ∧
      (Shader.create exampleSources (exampleDriver 0 1)).1.handle = 0 ∧
      (∃ (w : Shader) (calls : List NativeCall),
        Shader.load [(ShaderType.Vertex, "a.vert")] (fun _ => some "in vec3 posIn;")
          (exampleDriver 1 1) = Except.ok (w, calls) ∧ w.owned = true ∧ w.handle = 7) ∧
      (∃ (w : Shader) (calls : List NativeCall),
        Shader.load [(ShaderType.Vertex, "a.vert")] (fun _ => some "in vec3 posIn;")
          (exampleDriver 1 0) = Except.ok (w, calls) ∧ w.owned = true ∧ w.handle = 0) :=
  ⟨(factories_ownership.2.2.2.1 exampleSources (exampleDriver 1 1)).2.2.2
      (by decide) (by decide),
    (factories_ownership.2.2.2.1 exampleSources (exampleDriver 0 1)).2.2.1
      (Or.inl ⟨0, by decide, by decide⟩),
    match factories_ownership.2.2.2.2 [(ShaderType.Vertex, "a.vert")]
      (fun _ => some "in vec3 posIn;") (exampleDriver 1 1) (fun _ _ => rfl) with
    | ⟨w, calls, hload, _, howned, _, hsuccess⟩ =>
        ⟨w, calls, hload, howned, hsuccess (by decide) (by decide)⟩,
    match factories_ownership.2.2.2.2 [(ShaderType.Vertex, "a.vert")]
      (fun _ => some "in vec3 posIn;") (exampleDriver 1 0) (fun _ _ => rfl) with
    | ⟨w, calls, hload, _, howned, hfailure, _⟩ =>
        ⟨w, calls, hload, howned, hfailure (Or.inr (by decide))⟩⟩

/-! ## Process lifecycle guard -/

/-- C9: from the uninitialised state, two calls of `GlobalState::init` with no terminate in
between perform exactly one `glfwInit` in total, the second call issues no native call, and the
global state after the second call equals the state after the first, whatever monitor lists
the windowing library would report; the same holds for `WindowSystem::init` called directly. -/
theorem init_idempotent (reply1 reply2 : List Nat) :
    (GlobalState.init (GlobalState.init Globals.initial reply1).1 reply2).1 =
        (GlobalState.init Globals.initial reply1).1 ∧
      (GlobalState.init (GlobalState.init Globals.initial reply1).1 reply2).2 = [] ∧
      initCount ((GlobalState.init Globals.initial reply1).2 ++
        (GlobalState.init (GlobalState.init Globals.initial reply1).1 reply2).2) = 1 ∧
      (WindowSystem.init (WindowSystem.init Globals.initial reply1).1 reply2).1 =
        (WindowSystem.init Globals.initial reply1).1 ∧
      (WindowSystem.init (WindowSystem.init Globals.initial reply1).1 reply2).2 = [] ∧
      initCount ((WindowSystem.init Globals.initial reply1).2 ++
        (WindowSystem.init (WindowSystem.init Globals.initial reply1).1 reply2).2) = 1 := by
  refine ⟨rfl, rfl, ?_, rfl, rfl, ?_⟩
  · simp [initCount, GlobalState.init, GlobalState.construct, WindowSystem.init,
      WindowSystem.construct, WindowSystem.reload_monitors, Globals.initial]
  · simp [initCount, WindowSystem.init, WindowSystem.construct,
      WindowSystem.reload_monitors, Globals.initial]

/-- C10 as stated fails when the other slot is occupied: after `WindowSystem::init` alone the
GlobalState slot is empty, and `GlobalState::terminate` then leaves the WindowSystem slot
occupied, not empty. -/
theorem terminate_keeps_other_slot :
    (WindowSystem.init Globals.initial [11]).1.s_global_state = none ∧
      (GlobalState.terminate (WindowSystem.init Globals.initial [11]).1).1.s_window_system =
        some { monitors := [11] } ∧
      (GlobalState.terminate (WindowSystem.init Globals.initial [11]).1).1.s_window_system ≠
        none := by
  decide

/-- C10 (amended): calling `GlobalState::terminate` (or `WindowSystem::terminate`) while the
corresponding slot is empty issues no native call, in particular no teardown, and leaves the
global state unchanged; so both slots are empty afterwards when both were empty before, as
in the uninitialised state. -/
theorem terminate_on_empty_slot (g : Globals) :
    (g.s_global_state = none → GlobalState.terminate g = (g, [])) ∧
      (g.s_window_system = none → WindowSystem.terminate g = (g, [])) ∧
      (g.s_global_state = none → g.s_window_system = none →
        (GlobalState.terminate g).1 = Globals.initial ∧
          (WindowSystem.terminate g).1 = Globals.initial ∧
          terminateCount (GlobalState.terminate g).2 = 0 ∧
          terminateCount (WindowSystem.terminate g).2 = 0) := by
  obtain ⟨gs, ws⟩ := g
  refine ⟨?_, ?_, ?_⟩
  · intro h
    simp only at h
    subst h
    rfl
  · intro h
    simp only at h
    subst h
    rfl
  · intro h1 h2
    simp only at h1 h2
    subst h1
    subst h2
    exact ⟨rfl, rfl, rfl, rfl⟩

/-- C10 (amended), in the uninitialised state: both terminate functions return the state
unchanged and issue no native call. -/
theorem terminate_on_empty_slot_witness :
    GlobalState.terminate Globals.initial = (Globals.initial, []) ∧
      WindowSystem.terminate Globals.initial = (Globals.initial, []) ∧
      terminateCount (GlobalState.terminate Globals.initial).2 = 0 :=
  ⟨(terminate_on_empty_slot Globals.initial).1 rfl,
    (terminate_on_empty_slot Globals.initial).2.1 rfl,
    ((terminate_on_empty_slot Globals.initial).2.2 rfl rfl).2.2.1⟩

/-! ## Process lifecycle guard: sequences of init and terminate calls -/

theorem step_cases (g : Globals) (c : LifecycleCall) :
    ((g.step c).2 = [] ∧
        (g.step c).1.s_window_system.isSome = g.s_window_system.isSome) ∨
      (g.s_window_system.isSome = false ∧ (g.step c).1.s_window_system.isSome = true ∧
        ∃ reply, (g.step c).2 =
          [NativeCall.glfwInit, NativeCall.glfwGetMonitors reply,
            NativeCall.glfwSetMonitorCallback]) ∨
      (g.s_window_system.isSome = true ∧ (g.step c).1.s_window_system.isSome = false ∧
        (g.step c).2 = [NativeCall.glfwTerminate]) := by
  obtain ⟨gs, ws⟩ := g
  cases c <;> cases gs <;> cases ws <;>
    simp [Globals.step, GlobalState.init, GlobalState.terminate, GlobalState.construct,
      GlobalState.destroy, WindowSystem.init, WindowSystem.terminate, WindowSystem.construct,
      WindowSystem.reload_monitors, WindowSystem.destroy]

theorem run_invariant (calls : List LifecycleCall) :
    ∀ g : Globals,
      alternatesFrom g.s_window_system.isSome (g.run calls).2 = true ∧
        initCount (g.run calls).2 + (if g.s_window_system.isSome then 1 else 0) =
          terminateCount (g.run calls).2 +
            (if (g.run calls).1.s_window_system.isSome then 1 else 0) := by
  induction calls with
  | nil => intro g; simp [Globals.run, alternatesFrom, initCount, terminateCount]
  | cons c rest ih =>
    intro g
    obtain ⟨ia, ic⟩ := ih (g.step c).1
    simp only [Globals.run]
    rcases step_cases g c with ⟨ht, hs⟩ | ⟨h0, h1, reply, ht⟩ | ⟨h0, h1, ht⟩
    · rw [ht, List.nil_append, ← hs]
      exact ⟨ia, ic⟩
    · rw [h1] at ia ic
      rw [ht, h0]
      constructor
      · simpa [alternatesFrom] using ia
      · simp [initCount, terminateCount, List.count_cons] at ic ⊢
        omega
    · rw [h1] at ia ic
      rw [ht, h0]
      constructor
      · simpa [alternatesFrom] using ia
      · simp [initCount, terminateCount, List.count_cons] at ic ⊢
        omega

/-- C11: for every finite sequence of `GlobalState` and `WindowSystem` init and terminate
calls from the uninitialised state, the `glfwInit` and `glfwTerminate` calls alternate,
beginning with `glfwInit`; the number of initialisations exceeds the number of teardowns by 0
or 1, and by 1 exactly when the WindowSystem slot is occupied at the end.  After
`WindowSystem::terminate` its slot is empty and `WindowSystem::get` returns null, after
`GlobalState::terminate` its slot is empty and `GlobalState::get` returns null, and a
`GlobalState::terminate` that finds its slot occupied also empties the WindowSystem slot. -/
theorem init_teardown_alternate (calls : List LifecycleCall) :
    alternatesFrom false (Globals.initial.run calls).2 = true ∧
      (initCount (Globals.initial.run calls).2 = terminateCount (Globals.initial.run calls).2 ∨
        initCount (Globals.initial.run calls).2 =
          terminateCount (Globals.initial.run calls).2 + 1) ∧
      (initCount (Globals.initial.run calls).2 =
          terminateCount (Globals.initial.run calls).2 + 1 ↔
        (Globals.initial.run calls).1.s_window_system ≠ none) ∧
      (∀ g : Globals,
        (WindowSystem.terminate g).1.s_window_system = none ∧
        WindowSystem.get (WindowSystem.terminate g).1 = none ∧
        (GlobalState.terminate g).1.s_global_state = none ∧
        GlobalState.get (GlobalState.terminate g).1 = none ∧
        (g.s_global_state ≠ none →
          WindowSystem.get (GlobalState.terminate g).1 = none)) := by
  obtain ⟨ha, hc⟩ := run_invariant calls Globals.initial
  have h0 : Globals.initial.s_window_system.isSome = false := rfl
  rw [h0] at ha hc
  refine ⟨ha, ?_, ?_, ?_⟩
  · cases hs : (Globals.initial.run calls).1.s_window_system <;> simp [hs] at hc <;> omega
  · cases hs : (Globals.initial.run calls).1.s_window_system <;> simp [hs] at hc ⊢ <;> omega
  · intro g
    obtain ⟨gs, ws⟩ := g
    cases gs <;> cases ws <;>
      simp [WindowSystem.terminate, WindowSystem.get, GlobalState.terminate, GlobalState.get,
        GlobalState.destroy]

/-- C11, on the sequence GlobalState::init, WindowSystem::init, WindowSystem::terminate,
GlobalState::init, GlobalState::terminate: one initialisation and one teardown, in that order,
and the WindowSystem slot is empty at the end. -/
theorem init_teardown_alternate_witness :
    alternatesFrom false (Globals.initial.run
        [LifecycleCall.global_init [11], LifecycleCall.window_init [11, 12],
          LifecycleCall.window_terminate, LifecycleCall.global_init [11],
          LifecycleCall.global_terminate]).2 = true ∧
      (Globals.initial.run
        [LifecycleCall.global_init [11], LifecycleCall.window_init [11, 12],
          LifecycleCall.window_terminate, LifecycleCall.global_init [11],
          LifecycleCall.global_terminate]).1.s_window_system = none ∧
      WindowSystem.get (GlobalState.terminate (GlobalState.init Globals.initial [11]).1).1 =
        none :=
  ⟨(init_teardown_alternate _).1, by decide,
    ((init_teardown_alternate []).2.2.2 (GlobalState.init Globals.initial [11]).1).2.2.2.2
      (by decide)⟩

/-! ## Monitor queries -/

theorem try_get_monitor_of_lt (ws : WindowSystem) (i : Nat) (h : i < ws.monitors.length) :
    ws.try_get_monitor i = some (Monitor.mk (ws.monitors.get ⟨i, h⟩)) := by
  simp [WindowSystem.try_get_monitor, h]

theorem try_get_monitor_of_ge (ws : WindowSystem) (i : Nat) (h : ws.monitors.length ≤ i) :
    ws.try_get_monitor i = none := by
  simp [WindowSystem.try_get_monitor, Nat.not_lt.mpr h]

theorem monitors_at_of_lt (ws : WindowSystem) (i : Nat) (h : i < ws.monitors.length) :
    ws.monitors_at i = some (ws.monitors.get ⟨i, h⟩) := by
  simp [WindowSystem.monitors_at, List.getElem?_eq_getElem h]

theorem monitors_at_of_ge (ws : WindowSystem) (i : Nat) (h : ws.monitors.length ≤ i) :
    ws.monitors_at i = none := by
  simp [WindowSystem.monitors_at, h]

theorem last_fallback_index_pos (i : Nat) (h1 : 1 ≤ i) (h2 : i < 4294967296) :
    last_fallback_index i = i - 1 := by
  unfold last_fallback_index
  omega

/-- C12: for every monitor list and every index i, `try_get_monitor(i)` returns nothing if and
only if i is at least the number of monitors, and otherwise returns the monitor stored at
position i of the list. -/
theorem try_get_monitor_range (ws : WindowSystem) (i : Nat) :
    (ws.try_get_monitor i = none ↔ ws.monitors.length ≤ i) ∧
      ∀ h : i < ws.monitors.length,
        ws.try_get_monitor i = some (Monitor.mk (ws.monitors.get ⟨i, h⟩)) := by
  refine ⟨?_, try_get_monitor_of_lt ws i⟩
  constructor
  · intro hnone
    by_contra hlt
    rw [try_get_monitor_of_lt ws i (by omega)] at hnone
    exact Option.noConfusion hnone
  · exact try_get_monitor_of_ge ws i

/-- C12, on the monitor list 10, 20: index 1 yields monitor 20, index 2 yields nothing. -/
theorem try_get_monitor_range_witness :
    (WindowSystem.mk [10, 20]).try_get_monitor 1 = some (Monitor.mk 20) ∧
      (WindowSystem.mk [10, 20]).try_get_monitor 2 = none :=
  ⟨(try_get_monitor_range (WindowSystem.mk [10, 20]) 1).2 (by decide),
    (try_get_monitor_range (WindowSystem.mk [10, 20]) 2).1.mpr (by decide)⟩

/-- C13: for every non-empty monitor list and every index i, `get_monitor_or_primary(i)`
returns the monitor at index 0 when i is out of range and the monitor at index i when i is in
range. -/
theorem get_monitor_or_primary_fallback (ws : WindowSystem) (i : Nat)
    (hne : 0 < ws.monitors.length) :
    (ws.monitors.length ≤ i →
        ws.get_monitor_or_primary i = some (Monitor.mk (ws.monitors.get ⟨0, hne⟩))) ∧
      ∀ h : i < ws.monitors.length,
        ws.get_monitor_or_primary i = some (Monitor.mk (ws.monitors.get ⟨i, h⟩)) := by
  constructor
  · intro hge
    simp [WindowSystem.get_monitor_or_primary, monitors_at_of_lt ws 0 hne,
      WindowSystem.get_monitor_or, try_get_monitor_of_ge ws i hge]
  · intro hlt
    simp [WindowSystem.get_monitor_or_primary, monitors_at_of_lt ws 0 hne,
      WindowSystem.get_monitor_or, try_get_monitor_of_lt ws i hlt]

/-- C13, on the monitor list 10, 20: index 1 yields monitor 20 and the out-of-range index 7
yields the primary monitor 10. -/
theorem get_monitor_or_primary_fallback_witness :
    0 < (WindowSystem.mk [10, 20]).monitors.length ∧
      (WindowSystem.mk [10, 20]).get_monitor_or_primary 7 = some (Monitor.mk 10) ∧
      (WindowSystem.mk [10, 20]).get_monitor_or_primary 1 = some (Monitor.mk 20) :=
  ⟨by decide,
    (get_monitor_or_primary_fallback (WindowSystem.mk [10, 20]) 7 (by decide)).1 (by decide),
    (get_monitor_or_primary_fallback (WindowSystem.mk [10, 20]) 1 (by decide)).2 (by decide)⟩

/-- C14 as stated fails: with the two monitors 10, 20 and the out-of-range index 5 there is
no monitor at index 4; `get_monitor_or_last(5)` evaluates `monitors[4]`, a read outside the
vector, and has no defined result. -/
theorem get_monitor_or_last_reads_outside :
    (WindowSystem.mk [10, 20]).monitors.length ≤ 5 ∧
      (WindowSystem.mk [10, 20]).monitors.get? (5 - 1) = none ∧
      (WindowSystem.mk [10, 20]).monitors_at (last_fallback_index 5) = none ∧
      (WindowSystem.mk [10, 20]).get_monitor_or_last 5 = none := by
  decide

/-- C14 (amended): for every monitor list and every out-of-range index i whose predecessor
i - 1 is in range (that is, i equal to the number of monitors, which is then at least 1),
`get_monitor_or_last(i)` returns the monitor at index i - 1, the last monitor. -/
theorem get_monitor_or_last_at_count (ws : WindowSystem) (i : Nat)
    (hi : i < 4294967296) (hout : ws.monitors.length ≤ i) (hprev : i - 1 < ws.monitors.length) :
    ws.get_monitor_or_last i = some (Monitor.mk (ws.monitors.get ⟨i - 1, hprev⟩)) ∧
      i = ws.monitors.length := by
  have h1 : 1 ≤ i := by omega
  refine ⟨?_, by omega⟩
  simp [WindowSystem.get_monitor_or_last, last_fallback_index_pos i h1 hi,
    monitors_at_of_lt ws (i - 1) hprev, WindowSystem.get_monitor_or,
    try_get_monitor_of_ge ws i hout]

/-- C14 (amended), on the monitor list 10, 20: index 2 yields the last monitor 20. -/
theorem get_monitor_or_last_at_count_witness :
    (WindowSystem.mk [10, 20]).monitors.length ≤ 2 ∧
      (WindowSystem.mk [10, 20]).get_monitor_or_last 2 = some (Monitor.mk 20) :=
  ⟨by decide,
    (get_monitor_or_last_at_count (WindowSystem.mk [10, 20]) 2 (by decide) (by decide)
      (by decide)).1⟩

/-- C15: `get_monitor_or_last(0)` computes the fallback index 0 - 1 in 32-bit unsigned
arithmetic, 4294967295, and reads the monitor list there before `get_monitor_or` looks at
index 0: for every monitor list with fewer than 2^32 entries that read is outside the list, so
the call has no defined result, also when the list is non-empty and index 0 is in range.  For
every index i (an `unsigned int`), the fallback read at (i - 1) mod 2^32 is in range exactly
when 1 <= i <= number of monitors. -/
theorem last_fallback_underflow (ws : WindowSystem) (hlen : ws.monitors.length < 4294967296) :
    last_fallback_index 0 = 4294967295 ∧
      ws.monitors_at (last_fallback_index 0) = none ∧
      ws.get_monitor_or_last 0 = none ∧
      ∀ i : Nat, i < 4294967296 →
        (last_fallback_index i < ws.monitors.length ↔ 1 ≤ i ∧ i ≤ ws.monitors.length) ∧
        ((ws.monitors_at (last_fallback_index i)).isSome = true ↔
          1 ≤ i ∧ i ≤ ws.monitors.length) := by
  have h0 : last_fallback_index 0 = 4294967295 := rfl
  have hread : ws.monitors_at (last_fallback_index 0) = none :=
    monitors_at_of_ge ws _ (by rw [h0]; omega)
  refine ⟨h0, hread, by simp [WindowSystem.get_monitor_or_last, hread], ?_⟩
  intro i hi
  have hidx : last_fallback_index i < ws.monitors.length ↔ 1 ≤ i ∧ i ≤ ws.monitors.length := by
    unfold last_fallback_index
    omega
  refine ⟨hidx, ?_⟩
  rw [← hidx]
  by_cases hlt : last_fallback_index i < ws.monitors.length
  · simp [monitors_at_of_lt ws _ hlt, hlt]
  · simp [monitors_at_of_ge ws _ (Nat.le_of_not_lt hlt), hlt]

/-- C15, on the one-monitor list 10: index 0 is in range for `try_get_monitor`, yet
`get_monitor_or_last(0)` has no defined result because it reads index 4294967295; index 1
reads index 0. -/
theorem last_fallback_underflow_witness :
    (WindowSystem.mk [10]).monitors.length < 4294967296 ∧
      (WindowSystem.mk [10]).try_get_monitor 0 = some (Monitor.mk 10) ∧
      (WindowSystem.mk [10]).get_monitor_or_last 0 = none ∧
      last_fallback_index 1 < (WindowSystem.mk [10]).monitors.length :=
  ⟨by decide, by decide,
    (last_fallback_underflow (WindowSystem.mk [10]) (by decide)).2.2.1,
    (((last_fallback_underflow (WindowSystem.mk [10]) (by decide)).2.2.2 1 (by decide)).1).mpr
      (by decide)⟩

/-! ## Window modes: the calls of `set_window_mode` -/

theorem get_monitor_or_primary_resolved (ws : WindowSystem) (m : Nat)
    (hne : 0 < ws.monitors.length) :
    ws.get_monitor_or_primary m = some (Monitor.mk (resolvedMonitor ws.monitors m)) := by
  have h0 : ∀ (l : List Nat) (hl : 0 < l.length), l.headD 0 = l.get ⟨0, hl⟩ := by
    intro l hl
    cases l with
    | nil => simp at hl
    | cons a rest => rfl
  by_cases h : m < ws.monitors.length
  · simp [WindowSystem.get_monitor_or_primary, monitors_at_of_lt ws 0 hne,
      WindowSystem.get_monitor_or, try_get_monitor_of_lt ws m h, resolvedMonitor, h]
  · simp only [WindowSystem.get_monitor_or_primary, monitors_at_of_lt ws 0 hne,
      WindowSystem.get_monitor_or, try_get_monitor_of_ge ws m (Nat.le_of_not_lt h),
      resolvedMonitor, h, dite_false, Option.getD_none, h0 ws.monitors hne]

theorem set_window_mode_windowed (self : Window) (g : Globals) (env : Desktop)
    (size : Nat × Nat) (position : Option (Int × Int)) (decorated : Bool) :
    self.set_window_mode g env (WindowMode.Windowed size position decorated) =
      some
        [ NativeCall.glfwSetWindowAttrib self.window WindowAttrib.GLFW_DECORATED decorated,
          NativeCall.glfwGetWindowPos self.window (env.window_pos self.window).1
            (env.window_pos self.window).2,
          NativeCall.glfwSetWindowMonitor self.window none (position.getD (200, 200)).1
            (position.getD (200, 200)).2 (to_int (size.1 : Int)) (to_int (size.2 : Int))
            GLFW_DONT_CARE,
          NativeCall.glfwSetWindowPos self.window (position.getD (200, 200)).1
            (position.getD (200, 200)).2,
          NativeCall.glfwSetWindowSize self.window (to_int (size.1 : Int))
            (to_int (size.2 : Int)) ] := by
  simp [Window.set_window_mode, Window.set_window_mode_switch, Window.set_decorated,
    Window.get_pos, Window.set_pos, Window.set_size, WindowMode.index]

theorem set_window_mode_fullscreen_windowed (self : Window) (g : Globals) (ws : WindowSystem)
    (env : Desktop) (m : Nat) (hws : g.s_window_system = some ws)
    (hne : 0 < ws.monitors.length) :
    self.set_window_mode g env (WindowMode.FullscreenWindowed m) =
      some
        [ NativeCall.glfwGetVideoMode (resolvedMonitor ws.monitors m)
            (env.video_mode (resolvedMonitor ws.monitors m)),
          NativeCall.glfwSetWindowAttrib self.window WindowAttrib.GLFW_DECORATED true,
          NativeCall.glfwGetMonitorPos (resolvedMonitor ws.monitors m)
            (env.monitor_pos (resolvedMonitor ws.monitors m)).1
            (env.monitor_pos (resolvedMonitor ws.monitors m)).2,
          NativeCall.glfwGetWindowPos self.window (env.window_pos self.window).1
            (env.window_pos self.window).2,
          NativeCall.glfwSetWindowMonitor self.window none
            (env.monitor_pos (resolvedMonitor ws.monitors m)).1
            (env.monitor_pos (resolvedMonitor ws.monitors m)).2
            (to_int (to_uint (env.video_mode (resolvedMonitor ws.monitors m)).width : Int))
            (to_int (to_uint (env.video_mode (resolvedMonitor ws.monitors m)).height : Int))
            (to_int (to_uint (env.video_mode (resolvedMonitor ws.monitors m)).refreshRate : Int)),
          NativeCall.glfwSetWindowAttrib self.window WindowAttrib.GLFW_DECORATED false,
          NativeCall.glfwSetWindowPos self.window
            (env.monitor_pos (resolvedMonitor ws.monitors m)).1
            (env.monitor_pos (resolvedMonitor ws.monitors m)).2,
          NativeCall.glfwSetWindowSize self.window
            (to_int (to_uint (env.video_mode (resolvedMonitor ws.monitors m)).width : Int))
            (to_int (to_uint (env.video_mode (resolvedMonitor ws.monitors m)).height : Int)) ] := by
  simp [Window.set_window_mode, Window.set_window_mode_switch, WindowSystem.get, hws,
    get_monitor_or_primary_resolved ws m hne, Monitor.get_video_mode, Monitor.get_pos,
    VideoMode.from_native, Window.set_decorated, Window.get_pos, Window.set_pos,
    Window.set_size, WindowMode.index]

theorem set_window_mode_fullscreen_exclusive (self : Window) (g : Globals) (ws : WindowSystem)
    (env : Desktop) (m : Nat) (video_mode : Option VideoMode)
    (hws : g.s_window_system = some ws) (hne : 0 < ws.monitors.length) :
    self.set_window_mode g env (WindowMode.FullscreenExclusive m video_mode) =
      some
        [ NativeCall.glfwGetVideoMode (resolvedMonitor ws.monitors m)
            (env.video_mode (resolvedMonitor ws.monitors m)),
          NativeCall.glfwGetWindowPos self.window (env.window_pos self.window).1
            (env.window_pos self.window).2,
          NativeCall.glfwSetWindowMonitor self.window (some (resolvedMonitor ws.monitors m))
            (env.window_pos self.window).1 (env.window_pos self.window).2
            (to_int ((video_mode.getD (VideoMode.from_native
              (env.video_mode (resolvedMonitor ws.monitors m)))).size.1 : Int))
            (to_int ((video_mode.getD (VideoMode.from_native
              (env.video_mode (resolvedMonitor ws.monitors m)))).size.2 : Int))
            (to_int ((video_mode.getD (VideoMode.from_native
              (env.video_mode (resolvedMonitor ws.monitors m)))).refresh_rate : Int)) ] := by
  simp [Window.set_window_mode, Window.set_window_mode_switch, WindowSystem.get, hws,
    get_monitor_or_primary_resolved ws m hne, Monitor.get_video_mode, Window.get_pos]

theorem to_int_to_uint (z : Int) (h0 : -2147483648 ≤ z) (h1 : z < 2147483648) :
    to_int ((to_uint z : Nat) : Int) = z := by
  unfold to_int to_uint
  omega

/-- C16 as stated fails for the Windowed variant: `set_window_mode` on
Windowed{size = (800, 600), no position, decorated} re-applies the position (200, 200) and the
size (800, 600) after the reconfiguration call. -/
theorem windowed_also_reapplied :
    ((Window.mk (some 1)).set_window_mode Globals.initial exampleDesktop
        (WindowMode.Windowed (800, 600) none true)).map afterReconfiguration =
      some
        [ NativeCall.glfwSetWindowPos (some 1) 200 200,
          NativeCall.glfwSetWindowSize (some 1) 800 600 ] := by
  decide

/-- C16 (amended): in `set_window_mode`, the follow-up that re-applies position and then size
after the reconfiguration call is performed for the two variants that resolve a target
position, Windowed and FullscreenWindowed, and is not performed for FullscreenExclusive, after
whose reconfiguration call nothing is issued; what is specific to FullscreenWindowed is the
`set_decorated(false)` that precedes the re-applied position and size. -/
theorem follow_up_by_variant (self : Window) (env : Desktop) :
    (∀ (g : Globals) (size : Nat × Nat) (position : Option (Int × Int)) (decorated : Bool),
        (self.set_window_mode g env (WindowMode.Windowed size position decorated)).map
            afterReconfiguration =
          some
            [ NativeCall.glfwSetWindowPos self.window (position.getD (200, 200)).1
                (position.getD (200, 200)).2,
              NativeCall.glfwSetWindowSize self.window (to_int (size.1 : Int))
                (to_int (size.2 : Int)) ]) ∧
      (∀ (g : Globals) (ws : WindowSystem) (m : Nat),
        g.s_window_system = some ws → 0 < ws.monitors.length →
          (self.set_window_mode g env (WindowMode.FullscreenWindowed m)).map
              afterReconfiguration =
            some
              [ NativeCall.glfwSetWindowAttrib self.window WindowAttrib.GLFW_DECORATED false,
                NativeCall.glfwSetWindowPos self.window
                  (env.monitor_pos (resolvedMonitor ws.monitors m)).1
                  (env.monitor_pos (resolvedMonitor ws.monitors m)).2,
                NativeCall.glfwSetWindowSize self.window
                  (to_int (to_uint (env.video_mode (resolvedMonitor ws.monitors m)).width : Int))
                  (to_int
                    (to_uint (env.video_mode (resolvedMonitor ws.monitors m)).height : Int)) ]) ∧
      (∀ (g : Globals) (ws : WindowSystem) (m : Nat) (video_mode : Option VideoMode),
        g.s_window_system = some ws → 0 < ws.monitors.length →
          (self.set_window_mode g env (WindowMode.FullscreenExclusive m video_mode)).map
              afterReconfiguration = some []) := by
  refine ⟨?_, ?_, ?_⟩
  · intro g size position decorated
    rw [set_window_mode_windowed]
    rfl
  · intro g ws m hws hne
    rw [set_window_mode_fullscreen_windowed self g ws env m hws hne]
    rfl
  · intro g ws m video_mode hws hne
    rw [set_window_mode_fullscreen_exclusive self g ws env m video_mode hws hne]
    rfl

/-- C16 (amended), on the example desktop with monitors 0 and 1: switching to
FullscreenWindowed on monitor 1 ends with undecorate, position (1920, 0), size 1920 x 1080;
switching to FullscreenExclusive issues nothing after the reconfiguration call. -/
theorem follow_up_by_variant_witness :
    ((Window.mk (some 1)).set_window_mode exampleGlobals exampleDesktop
        (WindowMode.FullscreenWindowed 1)).map afterReconfiguration =
      some
        [ NativeCall.glfwSetWindowAttrib (some 1) WindowAttrib.GLFW_DECORATED false,
          NativeCall.glfwSetWindowPos (some 1) 1920 0,
          NativeCall.glfwSetWindowSize (some 1) 1920 1080 ] ∧
      ((Window.mk (some 1)).set_window_mode exampleGlobals exampleDesktop
        (WindowMode.FullscreenExclusive 1 none)).map afterReconfiguration = some [] :=
  ⟨(follow_up_by_variant (Window.mk (some 1)) exampleDesktop).2.1 exampleGlobals
      (WindowSystem.mk [0, 1]) 1 rfl (by decide),
    (follow_up_by_variant (Window.mk (some 1)) exampleDesktop).2.2 exampleGlobals
      (WindowSystem.mk [0, 1]) 1 none rfl (by decide)⟩

/-- C17 as stated fails where a size does not fit a signed 32-bit int: `set_window_mode` on
Windowed{size = (2147483648, 600)} passes the width -2147483648 to the reconfiguration
call, not the width of the mode. -/
theorem windowed_size_converted :
    ((Window.mk (some 1)).set_window_mode Globals.initial exampleDesktop
        (WindowMode.Windowed (2147483648, 600) none true)).map reconfigurations =
      some [NativeCall.glfwSetWindowMonitor (some 1) none 200 200 (-2147483648) 600 (-1)] ∧
      ((Window.mk (some 1)).set_window_mode Globals.initial exampleDesktop
        (WindowMode.Windowed (2147483648, 600) none true)).map reconfigurations ≠
      some [NativeCall.glfwSetWindowMonitor (some 1) none 200 200 2147483648 600 (-1)] := by
  decide

/-- C17 (amended): for every window mode and non-empty monitor list, `set_window_mode` issues
one reconfiguration call whose arguments are: for Windowed{size, position, _}, no monitor, the
position or (200, 200) when absent, the size, refresh rate don't-care; for
FullscreenWindowed{m}, no monitor, the position of monitor M, the size and the refresh rate of
M's current video mode; for FullscreenExclusive{m, vm}, monitor M, the window's current
position, the size and refresh rate of vm when present and of M's current video mode
otherwise.  M is the monitor at index m if m is in range and the monitor at index 0
otherwise.  Every size component and refresh rate is passed converted to a signed 32-bit
int, which leaves values below 2^31 (and every value a native video mode holds) unchanged. -/
theorem reconfiguration_arguments (self : Window) (g : Globals) (ws : WindowSystem)
    (env : Desktop) (hws : g.s_window_system = some ws) (hne : 0 < ws.monitors.length) :
    (∀ (size : Nat × Nat) (position : Option (Int × Int)) (decorated : Bool),
        (self.set_window_mode g env (WindowMode.Windowed size position decorated)).map
            reconfigurations =
          some
            [NativeCall.glfwSetWindowMonitor self.window none (position.getD (200, 200)).1
              (position.getD (200, 200)).2 (to_int (size.1 : Int)) (to_int (size.2 : Int))
              GLFW_DONT_CARE]) ∧
      (∀ m : Nat,
        (self.set_window_mode g env (WindowMode.FullscreenWindowed m)).map reconfigurations =
          some
            [NativeCall.glfwSetWindowMonitor self.window none
              (env.monitor_pos (resolvedMonitor ws.monitors m)).1
              (env.monitor_pos (resolvedMonitor ws.monitors m)).2
              (to_int (to_uint (env.video_mode (resolvedMonitor ws.monitors m)).width : Int))
              (to_int (to_uint (env.video_mode (resolvedMonitor ws.monitors m)).height : Int))
              (to_int
                (to_uint (env.video_mode (resolvedMonitor ws.monitors m)).refreshRate : Int))]) ∧
      (∀ (m : Nat) (vm : VideoMode),
        (self.set_window_mode g env (WindowMode.FullscreenExclusive m (some vm))).map
            reconfigurations =
          some
            [NativeCall.glfwSetWindowMonitor self.window (some (resolvedMonitor ws.monitors m))
              (env.window_pos self.window).1 (env.window_pos self.window).2
              (to_int (vm.size.1 : Int)) (to_int (vm.size.2 : Int))
              (to_int (vm.refresh_rate : Int))]) ∧
      (∀ m : Nat,
        (self.set_window_mode g env (WindowMode.FullscreenExclusive m none)).map
            reconfigurations =
          some
            [NativeCall.glfwSetWindowMonitor self.window (some (resolvedMonitor ws.monitors m))
              (env.window_pos self.window).1 (env.window_pos self.window).2
              (to_int (to_uint (env.video_mode (resolvedMonitor ws.monitors m)).width : Int))
              (to_int (to_uint (env.video_mode (resolvedMonitor ws.monitors m)).height : Int))
              (to_int
                (to_uint (env.video_mode (resolvedMonitor ws.monitors m)).refreshRate : Int))]) ∧
      (∀ m : Nat,
        some (resolvedMonitor ws.monitors m) =
          if m < ws.monitors.length then ws.monitors.get? m else ws.monitors.get? 0) ∧
      (∀ n : Nat, n < 2147483648 → to_int (n : Int) = (n : Int)) ∧
      (∀ z : Int, -2147483648 ≤ z → z < 2147483648 → to_int ((to_uint z : Nat) : Int) = z) := by
  refine ⟨?_, ?_, ?_, ?_, ?_, ?_, to_int_to_uint⟩
  · intro size position decorated
    rw [set_window_mode_windowed]
    rfl
  · intro m
    rw [set_window_mode_fullscreen_windowed self g ws env m hws hne]
    rfl
  · intro m vm
    rw [set_window_mode_fullscreen_exclusive self g ws env m (some vm) hws hne]
    rfl
  · intro m
    rw [set_window_mode_fullscreen_exclusive self g ws env m none hws hne]
    rfl
  · intro m
    by_cases h : m < ws.monitors.length
    · simp [resolvedMonitor, h, List.getElem?_eq_getElem h]
    · cases hm : ws.monitors with
      | nil => rw [hm] at hne; simp at hne
      | cons a rest =>
        rw [hm] at h
        have h2 : ¬ m < rest.length + 1 := by simpa using h
        simp [resolvedMonitor, h2]
  · intro n hn
    exact to_int_of_small (n : Int) (by omega) (by omega)

/-- C17 (amended), on the example desktop with monitors 0 and 1 and a window at (50, 60):
FullscreenWindowed on the out-of-range monitor index 5 is resolved on the primary monitor 0,
and FullscreenExclusive on monitor 1 with the explicit mode 1280 x 720 at 75 Hz passes that
mode. -/
theorem reconfiguration_arguments_witness :
    ((Window.mk (some 1)).set_window_mode exampleGlobals exampleDesktop
        (WindowMode.FullscreenWindowed 5)).map reconfigurations =
      some [NativeCall.glfwSetWindowMonitor (some 1) none 0 0 1920 1080 60] ∧
      ((Window.mk (some 1)).set_window_mode exampleGlobals exampleDesktop
        (WindowMode.FullscreenExclusive 1
          (some { size := (1280, 720), color_depth := {}, refresh_rate := 75 }))).map
          reconfigurations =
        some [NativeCall.glfwSetWindowMonitor (some 1) (some 1) 50 60 1280 720 75] :=
  ⟨(reconfiguration_arguments (Window.mk (some 1)) exampleGlobals (WindowSystem.mk [0, 1])
      exampleDesktop rfl (by decide)).2.1 5,
    (reconfiguration_arguments (Window.mk (some 1)) exampleGlobals (WindowSystem.mk [0, 1])
      exampleDesktop rfl (by decide)).2.2.1 1
      { size := (1280, 720), color_depth := {}, refresh_rate := 75 }⟩

/-- C18: for every window mode value (any variant, any monitor index, out-of-range ones
included) and a non-empty monitor list, `set_window_mode` runs to completion, no transition
being rejected, and issues exactly one `glfwSetWindowMonitor` call. -/
theorem one_reconfiguration_call (self : Window) (g : Globals) (ws : WindowSystem)
    (env : Desktop) (wm : WindowMode) (hws : g.s_window_system = some ws)
    (hne : 0 < ws.monitors.length) :
    ∃ calls : List NativeCall,
      self.set_window_mode g env wm = some calls ∧ (reconfigurations calls).length = 1 := by
  cases wm with
  | Windowed size position decorated =>
    exact ⟨_, set_window_mode_windowed self g env size position decorated, rfl⟩
  | FullscreenWindowed m =>
    exact ⟨_, set_window_mode_fullscreen_windowed self g ws env m hws hne, rfl⟩
  | FullscreenExclusive m video_mode =>
    exact ⟨_, set_window_mode_fullscreen_exclusive self g ws env m video_mode hws hne, rfl⟩

/-- C18, on the example desktop: the switch to FullscreenExclusive on the out-of-range monitor
index 9 completes with one reconfiguration call. -/
theorem one_reconfiguration_call_witness :
    ∃ calls : List NativeCall,
      (Window.mk (some 1)).set_window_mode exampleGlobals exampleDesktop
          (WindowMode.FullscreenExclusive 9 none) = some calls ∧
        (reconfigurations calls).length = 1 :=
  one_reconfiguration_call (Window.mk (some 1)) exampleGlobals (WindowSystem.mk [0, 1])
    exampleDesktop (WindowMode.FullscreenExclusive 9 none) rfl (by decide)

/-! ## Vertex layout: the offsets of the explicit overload -/

theorem explicit_fold_offsets (attributes : List VertexAttribute) :
    ∀ st : ExplicitLoop,
      formatOffsets (attributes.foldl explicit_body st).calls =
        formatOffsets st.calls ++ attributes.map (fun a => a.offset % 4294967296) := by
  induction attributes with
  | nil => intro st; simp
  | cons a rest ih =>
    intro st
    have hu : to_uint (a.offset : Int) = a.offset % 4294967296 := by
      unfold to_uint
      omega
    rw [List.foldl_cons, ih (explicit_body st a)]
    simp [explicit_body, formatOffsets_append, formatOffsets, hu]

/-- C19 as stated fails for an offset that does not fit 32 bits: the explicit overload
records the relative offset 8 for a descriptor whose offset field is 4294967304, because
the `size_t` field is passed as the `GLuint` argument of `glVertexArrayAttribFormat`. -/
theorem explicit_offset_truncated :
    formatOffsets ((VertexArray.mk_new 1 true).vertex_buffer_stride 7
        [{ size := 3, offset := 4294967304, name := "posIn" }] 12 0).2 = [8] ∧
      formatOffsets ((VertexArray.mk_new 1 true).vertex_buffer_stride 7
        [{ size := 3, offset := 4294967304, name := "posIn" }] 12 0).2 ≠ [4294967304] := by
  decide

/-- C19 (amended): for every list of VertexAttribute descriptors passed to the explicit
`vertex_buffer` overload, the relative offset recorded for each attribute is that
descriptor's own offset field reduced modulo 2^32, hence exactly the offset field whenever it
is below 2^32; it depends neither on the sizes and offsets of the other descriptors nor on
the descriptor's position, nor on the array state, buffer, stride and buffer offset. -/
theorem explicit_offsets_recorded (self : VertexArray) (buffer : Nat)
    (attributes : List VertexAttribute) (stride offset : Nat) :
    formatOffsets (self.vertex_buffer_stride buffer attributes stride offset).2 =
        attributes.map (fun a => a.offset % 4294967296) ∧
      ((∀ a, a ∈ attributes → a.offset < 4294967296) →
        formatOffsets (self.vertex_buffer_stride buffer attributes stride offset).2 =
          attributes.map VertexAttribute.offset) := by
  have h : formatOffsets (self.vertex_buffer_stride buffer attributes stride offset).2 =
      attributes.map (fun a => a.offset % 4294967296) := by
    simp only [VertexArray.vertex_buffer_stride, formatOffsets_append,
      explicit_fold_offsets attributes]
    simp [formatOffsets]
  refine ⟨h, ?_⟩
  intro hsmall
  rw [h]
  apply List.map_congr_left
  intro a ha
  exact Nat.mod_eq_of_lt (hsmall a ha)

/-- C19 (amended), on two descriptors given out of order: the recorded offsets are 20 and 0,
the descriptors' own offset fields. -/
theorem explicit_offsets_recorded_witness :
    formatOffsets ((VertexArray.mk_new 1 true).vertex_buffer_stride 7
        [{ size := 4, offset := 20, name := "colorIn" },
          { size := 3, offset := 0, name := "posIn" }] 36 0).2 = [20, 0] :=
  (explicit_offsets_recorded (VertexArray.mk_new 1 true) 7
    [{ size := 4, offset := 20, name := "colorIn" },
      { size := 3, offset := 0, name := "posIn" }] 36 0).2 (by decide)

/-! ## Binding a vertex array to a shader -/

theorem bind_loop_calls (shader : Shader) (names : List (String × Nat)) :
    ∀ calls : List NativeCall,
      names.foldl
          (fun calls name =>
            calls ++ shader.bind_attrib_location name.1 (to_int (name.2 : Int))) calls =
        calls ++ names.map
          (fun e => NativeCall.glBindAttribLocation shader.handle (e.2 % 4294967296) e.1) := by
  induction names with
  | nil => intro calls; simp
  | cons e rest ih =>
    intro calls
    have hu : to_uint (to_int (e.2 : Int)) = e.2 % 4294967296 := by
      unfold to_uint to_int
      omega
    rw [List.foldl_cons, ih]
    simp [Shader.bind_attrib_location, hu]

/-- C20: for every VertexArray state and shader, `bind(shader)` first binds the vertex array
and then issues exactly one `glBindAttribLocation` on the shader's program for each entry
(name, slot) of the retained name-to-slot map, with that name and that slot (slots being
`unsigned int` values), and nothing else; the shared-pointer, unique-pointer and raw-pointer
overloads issue the same calls.  The member is const: it yields native calls only and the
array's own state is not touched. -/
theorem bind_issues_map_entries (self : VertexArray) (shader : Shader) :
    self.bind_shared shader =
        NativeCall.glBindVertexArray self.handle ::
          self.attribute_names.map
            (fun e => NativeCall.glBindAttribLocation shader.handle (e.2 % 4294967296) e.1) ∧
      ((∀ e, e ∈ self.attribute_names → e.2 < 4294967296) →
        self.bind_shared shader =
          NativeCall.glBindVertexArray self.handle ::
            self.attribute_names.map
              (fun e => NativeCall.glBindAttribLocation shader.handle e.2 e.1)) ∧
      self.bind_unique shader = self.bind_shared shader ∧
      self.bind_ptr shader = self.bind_shared shader := by
  have h : self.bind_shared shader =
      NativeCall.glBindVertexArray self.handle ::
        self.attribute_names.map
          (fun e => NativeCall.glBindAttribLocation shader.handle (e.2 % 4294967296) e.1) := by
    simp only [VertexArray.bind_shared, VertexArray.bind, bind_loop_calls]
    simp
  refine ⟨h, ?_, rfl, rfl⟩
  intro hslots
  rw [h]
  congr 1
  apply List.map_congr_left
  intro e he
  rw [Nat.mod_eq_of_lt (hslots e he)]

/-- C20, on the array of the example program after its packed attachment, bound to the shader
program 7: one bind of the array, then one attribute-location call per map entry. -/
theorem bind_issues_map_entries_witness :
    ((VertexArray.mk_new 1 true).vertex_buffer 5
        [(3, "posIn"), (2, "uvIn"), (4, "colorIn")]).1.bind_shared (Shader.mk 7 true) =
      [ NativeCall.glBindVertexArray 1,
        NativeCall.glBindAttribLocation 7 0 "posIn",
        NativeCall.glBindAttribLocation 7 1 "uvIn",
        NativeCall.glBindAttribLocation 7 2 "colorIn" ] :=
  (bind_issues_map_entries
    ((VertexArray.mk_new 1 true).vertex_buffer 5
      [(3, "posIn"), (2, "uvIn"), (4, "colorIn")]).1 (Shader.mk 7 true)).2.1 (by decide)

/-! ## Shader: uniform uploads -/

/-- C21: for every uniform upload entry point of Shader with element type float, int,
unsigned int or double and 1 to 4 components: the by-location scalar overload issues the one
typed native upload call with the shader's own program identifier, the location and the
values as given; the by-name overload queries `get_uniform_location(name)` and then issues
what the by-location overload issues for the location returned; and each vector overload
issues what the corresponding scalar overload issues for the vector's components in the order
x, y, z, w. -/
theorem uniform_forwarding (self : Shader) (locations : String → Int) (name : String)
    (location : Int) (xf yf zf wf : GLfloat) (xi yi zi wi : Int) (xui yui zui wui : Nat) (xd yd zd wd : GLdouble) :
    (self.get_uniform_location locations name).1 = locations name ∧
      (self.uniform_1f location xf =
        [NativeCall.glProgramUniform (UniformCall.glProgramUniform1f self.handle location xf)] ∧
      self.uniform_1f_name locations name xf =
        (self.get_uniform_location locations name).2 ++
          self.uniform_1f (self.get_uniform_location locations name).1 xf ∧
      ∀ v : vec1,
        self.uniform_1f_vec location v = self.uniform_1f location v.x ∧
        self.uniform_1f_name_vec locations name v =
          self.uniform_1f_name locations name v.x) ∧
      (self.uniform_1i location xi =
        [NativeCall.glProgramUniform (UniformCall.glProgramUniform1i self.handle location xi)] ∧
      self.uniform_1i_name locations name xi =
        (self.get_uniform_location locations name).2 ++
          self.uniform_1i (self.get_uniform_location locations name).1 xi ∧
      ∀ v : ivec1,
        self.uniform_1i_vec location v = self.uniform_1i location v.x ∧
        self.uniform_1i_name_vec locations name v =
          self.uniform_1i_name locations name v.x) ∧
      (self.uniform_1ui location xui =
        [NativeCall.glProgramUniform (UniformCall.glProgramUniform1ui self.handle location xui)] ∧
      self.uniform_1ui_name locations name xui =
        (self.get_uniform_location locations name).2 ++
          self.uniform_1ui (self.get_uniform_location locations name).1 xui ∧
      ∀ v : uvec1,
        self.uniform_1ui_vec location v = self.uniform_1ui location v.x ∧
        self.uniform_1ui_name_vec locations name v =
          self.uniform_1ui_name locations name v.x) ∧
      (self.uniform_1d location xd =
        [NativeCall.glProgramUniform (UniformCall.glProgramUniform1d self.handle location xd)] ∧
      self.uniform_1d_name locations name xd =
        (self.get_uniform_location locations name).2 ++
          self.uniform_1d (self.get_uniform_location locations name).1 xd ∧
      ∀ v : dvec1,
        self.uniform_1d_vec location v = self.uniform_1d location v.x ∧
        self.uniform_1d_name_vec locations name v =
          self.uniform_1d_name locations name v.x) ∧
      (self.uniform_2f location xf yf =
        [NativeCall.glProgramUniform (UniformCall.glProgramUniform2f self.handle location xf yf)] ∧
      self.uniform_2f_name locations name xf yf =
        (self.get_uniform_location locations name).2 ++
          self.uniform_2f (self.get_uniform_location locations name).1 xf yf ∧
      ∀ v : vec2,
        self.uniform_2f_vec location v = self.uniform_2f location v.x v.y ∧
        self.uniform_2f_name_vec locations name v =
          self.uniform_2f_name locations name v.x v.y) ∧
      (self.uniform_2i location xi yi =
        [NativeCall.glProgramUniform (UniformCall.glProgramUniform2i self.handle location xi yi)] ∧
      self.uniform_2i_name locations name xi yi =
        (self.get_uniform_location locations name).2 ++
          self.uniform_2i (self.get_uniform_location locations name).1 xi yi ∧
      ∀ v : ivec2,
        self.uniform_2i_vec location v = self.uniform_2i location v.x v.y ∧
        self.uniform_2i_name_vec locations name v =
          self.uniform_2i_name locations name v.x v.y) ∧
      (self.uniform_2ui location xui yui =
        [NativeCall.glProgramUniform (UniformCall.glProgramUniform2ui self.handle location xui yui)] ∧
      self.uniform_2ui_name locations name xui yui =
        (self.get_uniform_location locations name).2 ++
          self.uniform_2ui (self.get_uniform_location locations name).1 xui yui ∧
      ∀ v : uvec2,
        self.uniform_2ui_vec location v = self.uniform_2ui location v.x v.y ∧
        self.uniform_2ui_name_vec locations name v =
          self.uniform_2ui_name locations name v.x v.y) ∧
      (self.uniform_2d location xd yd =
        [NativeCall.glProgramUniform (UniformCall.glProgramUniform2d self.handle location xd yd)] ∧
      self.uniform_2d_name locations name xd yd =
        (self.get_uniform_location locations name).2 ++
          self.uniform_2d (self.get_uniform_location locations name).1 xd yd ∧
      ∀ v : dvec2,
        self.uniform_2d_vec location v = self.uniform_2d location v.x v.y ∧
        self.uniform_2d_name_vec locations name v =
          self.uniform_2d_name locations name v.x v.y) ∧
      (self.uniform_3f location xf yf zf =
        [NativeCall.glProgramUniform (UniformCall.glProgramUniform3f self.handle location xf yf zf)] ∧
      self.uniform_3f_name locations name xf yf zf =
        (self.get_uniform_location locations name).2 ++
          self.uniform_3f (self.get_uniform_location locations name).1 xf yf zf ∧
      ∀ v : vec3,
        self.uniform_3f_vec location v = self.uniform_3f location v.x v.y v.z ∧
        self.uniform_3f_name_vec locations name v =
          self.uniform_3f_name locations name v.x v.y v.z) ∧
      (self.uniform_3i location xi yi zi =
        [NativeCall.glProgramUniform (UniformCall.glProgramUniform3i self.handle location xi yi zi)] ∧
      self.uniform_3i_name locations name xi yi zi =
        (self.get_uniform_location locations name).2 ++
          self.uniform_3i (self.get_uniform_location locations name).1 xi yi zi ∧
      ∀ v : ivec3,
        self.uniform_3i_vec location v = self.uniform_3i location v.x v.y v.z ∧
        self.uniform_3i_name_vec locations name v =
          self.uniform_3i_name locations name v.x v.y v.z) ∧
      (self.uniform_3ui location xui yui zui =
        [NativeCall.glProgramUniform (UniformCall.glProgramUniform3ui self.handle location xui yui zui)] ∧
      self.uniform_3ui_name locations name xui yui zui =
        (self.get_uniform_location locations name).2 ++
          self.uniform_3ui (self.get_uniform_location locations name).1 xui yui zui ∧
      ∀ v : uvec3,
        self.uniform_3ui_vec location v = self.uniform_3ui location v.x v.y v.z ∧
        self.uniform_3ui_name_vec locations name v =
          self.uniform_3ui_name locations name v.x v.y v.z) ∧
      (self.uniform_3d location xd yd zd =
        [NativeCall.glProgramUniform (UniformCall.glProgramUniform3d self.handle location xd yd zd)] ∧
      self.uniform_3d_name locations name xd yd zd =
        (self.get_uniform_location locations name).2 ++
          self.uniform_3d (self.get_uniform_location locations name).1 xd yd zd ∧
      ∀ v : dvec3,
        self.uniform_3d_vec location v = self.uniform_3d location v.x v.y v.z ∧
        self.uniform_3d_name_vec locations name v =
          self.uniform_3d_name locations name v.x v.y v.z) ∧
      (self.uniform_4f location xf yf zf wf =
        [NativeCall.glProgramUniform (UniformCall.glProgramUniform4f self.handle location xf yf zf wf)] ∧
      self.uniform_4f_name locations name xf yf zf wf =
        (self.get_uniform_location locations name).2 ++
          self.uniform_4f (self.get_uniform_location locations name).1 xf yf zf wf ∧
      ∀ v : vec4,
        self.uniform_4f_vec location v = self.uniform_4f location v.x v.y v.z v.w ∧
        self.uniform_4f_name_vec locations name v =
          self.uniform_4f_name locations name v.x v.y v.z v.w) ∧
      (self.uniform_4i location xi yi zi wi =
        [NativeCall.glProgramUniform (UniformCall.glProgramUniform4i self.handle location xi yi zi wi)] ∧
      self.uniform_4i_name locations name xi yi zi wi =
        (self.get_uniform_location locations name).2 ++
          self.uniform_4i (self.get_uniform_location locations name).1 xi yi zi wi ∧
      ∀ v : ivec4,
        self.uniform_4i_vec location v = self.uniform_4i location v.x v.y v.z v.w ∧
        self.uniform_4i_name_vec locations name v =
          self.uniform_4i_name locations name v.x v.y v.z v.w) ∧
      (self.uniform_4ui location xui yui zui wui =
        [NativeCall.glProgramUniform (UniformCall.glProgramUniform4ui self.handle location xui yui zui wui)] ∧
      self.uniform_4ui_name locations name xui yui zui wui =
        (self.get_uniform_location locations name).2 ++
          self.uniform_4ui (self.get_uniform_location locations name).1 xui yui zui wui ∧
      ∀ v : uvec4,
        self.uniform_4ui_vec location v = self.uniform_4ui location v.x v.y v.z v.w ∧
        self.uniform_4ui_name_vec locations name v =
          self.uniform_4ui_name locations name v.x v.y v.z v.w) ∧
      (self.uniform_4d location xd yd zd wd =
        [NativeCall.glProgramUniform (UniformCall.glProgramUniform4d self.handle location xd yd zd wd)] ∧
      self.uniform_4d_name locations name xd yd zd wd =
        (self.get_uniform_location locations name).2 ++
          self.uniform_4d (self.get_uniform_location locations name).1 xd yd zd wd ∧
      ∀ v : dvec4,
        self.uniform_4d_vec location v = self.uniform_4d location v.x v.y v.z v.w ∧
        self.uniform_4d_name_vec locations name v =
          self.uniform_4d_name locations name v.x v.y v.z v.w) := by
  refine ⟨rfl, ?_⟩
  repeat' constructor
  all_goals first | rfl | (intro v; exact ⟨rfl, rfl⟩)

/-! ## Window construction -/

theorem errorReports_append (xs ys : List NativeCall) :
    errorReports (xs ++ ys) = errorReports xs ++ errorReports ys := by
  simp [errorReports, List.filterMap_append]

theorem construct_switch_windowed (g : Globals) (env : Desktop) (size : Nat × Nat)
    (position : Option (Int × Int)) (decorated : Bool) :
    Window.construct_switch g env (WindowMode.Windowed size position decorated) =
      some
        { size := size
          pos := position
          fs_monitor := none
          calls :=
            [NativeCall.glfwWindowHint WindowHint.GLFW_DECORATED (HintValue.bool decorated)] } :=
  rfl

theorem construct_switch_fullscreen_windowed (g : Globals) (ws : WindowSystem) (env : Desktop)
    (m : Nat) (hws : g.s_window_system = some ws) (hne : 0 < ws.monitors.length) :
    Window.construct_switch g env (WindowMode.FullscreenWindowed m) =
      some
        { size := ((Monitor.mk (resolvedMonitor ws.monitors m)).get_video_mode env).1.size
          pos := some ((Monitor.mk (resolvedMonitor ws.monitors m)).get_pos env).1
          fs_monitor := none
          calls :=
            ((Monitor.mk (resolvedMonitor ws.monitors m)).get_video_mode env).2 ++
              ((Monitor.mk (resolvedMonitor ws.monitors m)).get_video_mode env).1.apply ++
              ((Monitor.mk (resolvedMonitor ws.monitors m)).get_pos env).2 } := by
  simp [Window.construct_switch, WindowSystem.get, hws,
    get_monitor_or_primary_resolved ws m hne]

theorem construct_switch_fullscreen_exclusive (g : Globals) (ws : WindowSystem) (env : Desktop)
    (m : Nat) (video_mode : Option VideoMode) (hws : g.s_window_system = some ws)
    (hne : 0 < ws.monitors.length) :
    Window.construct_switch g env (WindowMode.FullscreenExclusive m video_mode) =
      some
        { size := (video_mode.getD
            ((Monitor.mk (resolvedMonitor ws.monitors m)).get_video_mode env).1).size
          pos := none
          fs_monitor := some (resolvedMonitor ws.monitors m)
          calls :=
            ((Monitor.mk (resolvedMonitor ws.monitors m)).get_video_mode env).2 ++
              (video_mode.getD
                ((Monitor.mk (resolvedMonitor ws.monitors m)).get_video_mode env).1).apply } := by
  simp [Window.construct_switch, WindowSystem.get, hws,
    get_monitor_or_primary_resolved ws m hne]

theorem construct_switch_reports (g : Globals) (env : Desktop) (wm : WindowMode)
    (l : ConstructLocals) (h : Window.construct_switch g env wm = some l) :
    errorReports l.calls = [] := by
  cases wm with
  | Windowed size position decorated =>
    rw [construct_switch_windowed] at h
    cases h
    rfl
  | FullscreenWindowed m =>
    cases hg : WindowSystem.get g with
    | none => simp [Window.construct_switch, hg] at h
    | some ws =>
      cases hm : ws.get_monitor_or_primary m with
      | none => simp [Window.construct_switch, hg, hm] at h
      | some monitor =>
        simp only [Window.construct_switch, hg, hm, Option.some.injEq] at h
        subst h
        simp [errorReports, Monitor.get_video_mode, Monitor.get_pos, VideoMode.apply,
          ColorDepth.apply]
  | FullscreenExclusive m video_mode =>
    cases hg : WindowSystem.get g with
    | none => simp [Window.construct_switch, hg] at h
    | some ws =>
      cases hm : ws.get_monitor_or_primary m with
      | none => simp [Window.construct_switch, hg, hm] at h
      | some monitor =>
        simp only [Window.construct_switch, hg, hm, Option.some.injEq] at h
        subst h
        simp [errorReports, Monitor.get_video_mode, VideoMode.apply, ColorDepth.apply]

theorem construct_switch_ready (g : Globals) (env : Desktop) (wm : WindowMode)
    (hready : wm.index = 0 ∨ ∃ ws, g.s_window_system = some ws ∧ 0 < ws.monitors.length) :
    ∃ l, Window.construct_switch g env wm = some l := by
  cases wm with
  | Windowed size position decorated => exact ⟨_, construct_switch_windowed g env _ _ _⟩
  | FullscreenWindowed m =>
    rcases hready with h0 | ⟨ws, hws, hne⟩
    · simp [WindowMode.index] at h0
    · exact ⟨_, construct_switch_fullscreen_windowed g ws env m hws hne⟩
  | FullscreenExclusive m video_mode =>
    rcases hready with h0 | ⟨ws, hws, hne⟩
    · simp [WindowMode.index] at h0
    · exact ⟨_, construct_switch_fullscreen_exclusive g ws env m video_mode hws hne⟩

/-- C22: when `glfwCreateWindow` returns no handle, the Window constructor (for a Windowed
mode, or for a fullscreen mode with an initialised WindowSystem that holds a monitor) runs to
its end without an exceptional outcome, writes the text handed back by `glfwGetError` to the
error channel exactly once, and leaves the Window with a null native handle. -/
theorem window_creation_failure (properties : WindowProperties) (g : Globals) (env : Desktop)
    (error_text : String)
    (hready : properties.window_mode.index = 0 ∨
      ∃ ws, g.s_window_system = some ws ∧ 0 < ws.monitors.length) :
    ∃ calls : List NativeCall,
      Window.construct properties g env none error_text = some (Window.mk none, calls) ∧
        errorReports calls = [error_text] ∧
        NativeCall.glfwGetError error_text ∈ calls := by
  obtain ⟨l, hl⟩ := construct_switch_ready g env properties.window_mode hready
  have hr := construct_switch_reports g env properties.window_mode l hl
  simp only [Window.construct, hl]
  refine ⟨_, rfl, ?_, ?_⟩
  · simp only [errorReports_append, hr]
    cases l.pos <;> by_cases hi : properties.window_mode.index = 1 <;>
      simp [errorReports, ContextProperties.apply, Window.set_decorated, Window.set_pos,
        Window.set_size, hi]
  · simp

/-- C22, for the default window properties: the failed creation is reported once with the
native error text and the window holds no handle. -/
theorem window_creation_failure_witness :
    ∃ calls : List NativeCall,
      Window.construct {} Globals.initial exampleDesktop none "no display" =
          some (Window.mk none, calls) ∧
        errorReports calls = ["no display"] ∧
        NativeCall.glfwGetError "no display" ∈ calls :=
  window_creation_failure {} Globals.initial exampleDesktop "no display" (Or.inl rfl)

/-! ## Monitor queries: the unconditional read of the primary monitor -/

theorem get_monitor_or_primary_empty (ws : WindowSystem) (i : Nat) (hempty : ws.monitors = []) :
    ws.get_monitor_or_primary i = none := by
  simp [WindowSystem.get_monitor_or_primary, WindowSystem.monitors_at, hempty]

/-- C28: `get_monitor_or_primary` reads the monitor list at index 0 before `get_monitor_or`
decides whether the fallback is needed: for every index i the call has a defined result (all
its reads are in range) if and only if the monitor list is non-empty.  With an empty monitor
list, which `reload_monitors` produces when the windowing library reports no monitor, the
call fails for every i, and so do `set_window_mode` for both fullscreen variants and the
Window constructor for every fullscreen mode. -/
theorem primary_read_needs_monitor :
    (∀ (ws : WindowSystem) (i : Nat),
        ((ws.monitors_at 0).isSome = true ↔ 0 < ws.monitors.length) ∧
        ((ws.get_monitor_or_primary i).isSome = true ↔ 0 < ws.monitors.length)) ∧
      (WindowSystem.init Globals.initial []).1.s_window_system = some (WindowSystem.mk []) ∧
      ∀ (g : Globals) (ws : WindowSystem),
        g.s_window_system = some ws → ws.monitors = [] →
          (∀ i : Nat, ws.get_monitor_or_primary i = none) ∧
          (∀ (self : Window) (env : Desktop) (m : Nat) (video_mode : Option VideoMode),
            self.set_window_mode g env (WindowMode.FullscreenWindowed m) = none ∧
            self.set_window_mode g env (WindowMode.FullscreenExclusive m video_mode) = none) ∧
          ∀ (properties : WindowProperties) (env : Desktop) (created : Option Nat)
            (error_text : String),
            properties.window_mode.index ≠ 0 →
              Window.construct properties g env created error_text = none := by
  refine ⟨?_, rfl, ?_⟩
  · intro ws i
    by_cases h : 0 < ws.monitors.length
    · simp [monitors_at_of_lt ws 0 h, WindowSystem.get_monitor_or_primary, h]
    · have he : ws.monitors = [] := List.length_eq_zero.mp (by omega)
      simp [get_monitor_or_primary_empty ws i he, WindowSystem.monitors_at, he]
  · intro g ws hws hempty
    refine ⟨fun i => get_monitor_or_primary_empty ws i hempty, ?_, ?_⟩
    · intro self env m video_mode
      simp [Window.set_window_mode, Window.set_window_mode_switch, WindowSystem.get, hws,
        get_monitor_or_primary_empty ws m hempty]
    · intro properties env created error_text hmode
      cases hwm : properties.window_mode with
      | Windowed size position decorated => simp [hwm, WindowMode.index] at hmode
      | FullscreenWindowed m =>
        simp [Window.construct, hwm, Window.construct_switch, WindowSystem.get, hws,
          get_monitor_or_primary_empty ws m hempty]
      | FullscreenExclusive m video_mode =>
        simp [Window.construct, hwm, Window.construct_switch, WindowSystem.get, hws,
          get_monitor_or_primary_empty ws m hempty]

/-- C28, after an initialisation in which the windowing library reports no monitor: the
primary-monitor query fails for index 0, and so do the switch to FullscreenWindowed and the
construction of a FullscreenExclusive window. -/
theorem primary_read_needs_monitor_witness :
    (WindowSystem.mk []).get_monitor_or_primary 0 = none ∧
      (Window.mk (some 1)).set_window_mode (WindowSystem.init Globals.initial []).1
        exampleDesktop (WindowMode.FullscreenWindowed 0) = none ∧
      Window.construct { window_mode := WindowMode.FullscreenExclusive 0 none }
        (WindowSystem.init Globals.initial []).1 exampleDesktop (some 1) "" = none :=
  ⟨(primary_read_needs_monitor.2.2 (WindowSystem.init Globals.initial []).1 (WindowSystem.mk [])
      rfl rfl).1 0,
    ((primary_read_needs_monitor.2.2 (WindowSystem.init Globals.initial []).1
      (WindowSystem.mk []) rfl rfl).2.1 (Window.mk (some 1)) exampleDesktop 0 none).1,
    (primary_read_needs_monitor.2.2 (WindowSystem.init Globals.initial []).1
      (WindowSystem.mk []) rfl rfl).2.2 { window_mode := WindowMode.FullscreenExclusive 0 none }
      exampleDesktop (some 1) "" (by decide)⟩

/-! ## Window modes: decoration -/

/-- C29: the decoration calls of `set_window_mode` depend on the variant alone.  For Windowed
there is one, with the mode's decorated flag, before the reconfiguration call, and it is the
last; for FullscreenWindowed decorated is set to true before the reconfiguration call and to
false after it, ahead of the re-applied position and size, so the last setting is false; for
FullscreenExclusive no decoration call is issued at all. -/
theorem decoration_by_variant (self : Window) (env : Desktop) :
    (∀ (g : Globals) (size : Nat × Nat) (position : Option (Int × Int)) (decorated : Bool),
        (self.set_window_mode g env (WindowMode.Windowed size position decorated)).map
            (fun calls => (decorationCalls (beforeReconfiguration calls),
              decorationCalls (afterReconfiguration calls), (decorationCalls calls).getLast?)) =
          some ([decorated], [], some decorated)) ∧
      (∀ (g : Globals) (ws : WindowSystem) (m : Nat),
        g.s_window_system = some ws → 0 < ws.monitors.length →
          (self.set_window_mode g env (WindowMode.FullscreenWindowed m)).map
              (fun calls => (decorationCalls (beforeReconfiguration calls),
                decorationCalls (afterReconfiguration calls),
                (decorationCalls calls).getLast?)) =
            some ([true], [false], some false) ∧
          (self.set_window_mode g env (WindowMode.FullscreenWindowed m)).map
              (fun calls => (afterReconfiguration calls).take 1) =
            some [NativeCall.glfwSetWindowAttrib self.window WindowAttrib.GLFW_DECORATED
              false]) ∧
      (∀ (g : Globals) (ws : WindowSystem) (m : Nat) (video_mode : Option VideoMode),
        g.s_window_system = some ws → 0 < ws.monitors.length →
          (self.set_window_mode g env (WindowMode.FullscreenExclusive m video_mode)).map
              decorationCalls = some []) := by
  refine ⟨?_, ?_, ?_⟩
  · intro g size position decorated
    rw [set_window_mode_windowed]
    rfl
  · intro g ws m hws hne
    rw [set_window_mode_fullscreen_windowed self g ws env m hws hne]
    exact ⟨rfl, rfl⟩
  · intro g ws m video_mode hws hne
    rw [set_window_mode_fullscreen_exclusive self g ws env m video_mode hws hne]
    rfl

/-- C29, on the example desktop: FullscreenWindowed sets decorated to true and then to false;
FullscreenExclusive issues no decoration call. -/
theorem decoration_by_variant_witness :
    ((Window.mk (some 1)).set_window_mode exampleGlobals exampleDesktop
        (WindowMode.FullscreenWindowed 0)).map
        (fun calls => (decorationCalls (beforeReconfiguration calls),
          decorationCalls (afterReconfiguration calls), (decorationCalls calls).getLast?)) =
      some ([true], [false], some false) ∧
      ((Window.mk (some 1)).set_window_mode exampleGlobals exampleDesktop
        (WindowMode.FullscreenExclusive 0 none)).map decorationCalls = some [] :=
  ⟨((decoration_by_variant (Window.mk (some 1)) exampleDesktop).2.1 exampleGlobals
      (WindowSystem.mk [0, 1]) 0 rfl (by decide)).1,
    (decoration_by_variant (Window.mk (some 1)) exampleDesktop).2.2 exampleGlobals
      (WindowSystem.mk [0, 1]) 0 none rfl (by decide)⟩

/-! ## Vertex layout: the buffer offset of the Buffer overloads -/

/-- C24: the explicit overload taking a Buffer, called with the buffer offset 16, records the
offset 0 in its `glVertexArrayVertexBuffer` call, whereas the raw-identifier overload called
with the same buffer identifier, descriptors, stride and offset records 16: the Buffer
overloads forward the identifier, the descriptors and the stride but not the offset. -/
theorem buffer_overload_drops_offset :
    bufferOffsets ((VertexArray.mk_new 1 true).vertex_buffer_stride_of_buffer (Buffer.mk true 7)
        [{ size := 3, offset := 0, name := "posIn" }] 12 16).2 = [0] ∧
      bufferOffsets ((VertexArray.mk_new 1 true).vertex_buffer_stride
        (Buffer.mk true 7).get_handle [{ size := 3, offset := 0, name := "posIn" }] 12 16).2 =
        [16] ∧
      (VertexArray.mk_new 1 true).vertex_buffer_stride_of_buffer (Buffer.mk true 7)
          [{ size := 3, offset := 0, name := "posIn" }] 12 16 ≠
        (VertexArray.mk_new 1 true).vertex_buffer_stride (Buffer.mk true 7).get_handle
          [{ size := 3, offset := 0, name := "posIn" }] 12 16 := by
  decide

/-! ## Shader creation: the calls issued -/

theorem create_shader_module_ok (source : ShaderSource) (r : ModuleReply)
    (h : r.compile_status = GL_TRUE) :
    create_shader_module source r =
      (r.shader,
        [ NativeCall.glCreateShader source.type r.shader,
          NativeCall.glShaderSource r.shader source.source,
          NativeCall.glCompileShader r.shader,
          NativeCall.glGetShaderiv_compile_status r.shader r.compile_status ]) := by
  simp [create_shader_module, h]

theorem create_shader_module_failed (source : ShaderSource) (r : ModuleReply)
    (h : r.compile_status ≠ GL_TRUE) :
    create_shader_module source r =
      (0,
        [ NativeCall.glCreateShader source.type r.shader,
          NativeCall.glShaderSource r.shader source.source,
          NativeCall.glCompileShader r.shader,
          NativeCall.glGetShaderiv_compile_status r.shader r.compile_status,
          NativeCall.glGetShaderiv_info_log_length r.shader r.log_length,
          NativeCall.glGetShaderInfoLog r.shader r.log_length,
          NativeCall.spdlog_error (LogMessage.failed_to_compile_shader r.log_text),
          NativeCall.glDeleteShader r.shader ]) := by
  simp [create_shader_module, h]

theorem create_shader_module_quiet (source : ShaderSource) (r : ModuleReply) :
    linkedPrograms (create_shader_module source r).2 = [] ∧
      deletedPrograms (create_shader_module source r).2 = [] := by
  by_cases h : r.compile_status = GL_TRUE
  · rw [create_shader_module_ok source r h]
    exact ⟨rfl, rfl⟩
  · rw [create_shader_module_failed source r h]
    exact ⟨rfl, rfl⟩

theorem createdShaders_append (xs ys : List NativeCall) :
    createdShaders (xs ++ ys) = createdShaders xs ++ createdShaders ys := by
  simp [createdShaders, List.filterMap_append]

theorem compiledShaders_append (xs ys : List NativeCall) :
    compiledShaders (xs ++ ys) = compiledShaders xs ++ compiledShaders ys := by
  simp [compiledShaders, List.filterMap_append]

theorem attachedShaders_append (xs ys : List NativeCall) :
    attachedShaders (xs ++ ys) = attachedShaders xs ++ attachedShaders ys := by
  simp [attachedShaders, List.filterMap_append]

theorem deletedShaders_append (xs ys : List NativeCall) :
    deletedShaders (xs ++ ys) = deletedShaders xs ++ deletedShaders ys := by
  simp [deletedShaders, List.filterMap_append]

theorem linkedPrograms_append (xs ys : List NativeCall) :
    linkedPrograms (xs ++ ys) = linkedPrograms xs ++ linkedPrograms ys := by
  simp [linkedPrograms, List.filterMap_append]

theorem deletedPrograms_append (xs ys : List NativeCall) :
    deletedPrograms (xs ++ ys) = deletedPrograms xs ++ deletedPrograms ys := by
  simp [deletedPrograms, List.filterMap_append]

theorem createdShaders_deletes (shaders : List Nat) :
    createdShaders (shaders.map NativeCall.glDeleteShader) = [] := by
  induction shaders with
  | nil => rfl
  | cons a rest ih =>
    simp only [createdShaders] at ih
    simp [createdShaders, List.filterMap_cons, ih]

theorem compiledShaders_deletes (shaders : List Nat) :
    compiledShaders (shaders.map NativeCall.glDeleteShader) = [] := by
  induction shaders with
  | nil => rfl
  | cons a rest ih =>
    simp only [compiledShaders] at ih
    simp [compiledShaders, List.filterMap_cons, ih]

theorem attachedShaders_deletes (shaders : List Nat) :
    attachedShaders (shaders.map NativeCall.glDeleteShader) = [] := by
  induction shaders with
  | nil => rfl
  | cons a rest ih =>
    simp only [attachedShaders] at ih
    simp [attachedShaders, List.filterMap_cons, ih]

theorem linkedPrograms_deletes (shaders : List Nat) :
    linkedPrograms (shaders.map NativeCall.glDeleteShader) = [] := by
  induction shaders with
  | nil => rfl
  | cons a rest ih =>
    simp only [linkedPrograms] at ih
    simp [linkedPrograms, List.filterMap_cons, ih]

theorem deletedPrograms_deletes (shaders : List Nat) :
    deletedPrograms (shaders.map NativeCall.glDeleteShader) = [] := by
  induction shaders with
  | nil => rfl
  | cons a rest ih =>
    simp only [deletedPrograms] at ih
    simp [deletedPrograms, List.filterMap_cons, ih]

theorem deletedShaders_deletes (shaders : List Nat) :
    deletedShaders (shaders.map NativeCall.glDeleteShader) = shaders := by
  induction shaders with
  | nil => rfl
  | cons a rest ih =>
    simp only [deletedShaders] at ih
    simp [deletedShaders, List.filterMap_cons, ih]

theorem create_shader_loop_quiet (d : ShaderDriver) (sources : List ShaderSource) :
    ∀ (k : Nat) (shaders : List Nat) (calls : List NativeCall),
      ∃ added : List NativeCall,
        (create_shader_loop d k sources shaders calls).2 = calls ++ added ∧
          linkedPrograms added = [] ∧ deletedPrograms added = [] := by
  induction sources with
  | nil => intro k shaders calls; exact ⟨[], by simp [create_shader_loop], rfl, rfl⟩
  | cons source rest ih =>
    intro k shaders calls
    obtain ⟨hq1, hq2⟩ := create_shader_module_quiet source (d.module k)
    by_cases hm : (create_shader_module source (d.module k)).1 = 0
    · refine ⟨(create_shader_module source (d.module k)).2 ++
        [NativeCall.spdlog_error LogMessage.module_failed_not_linking] ++
        shaders.map NativeCall.glDeleteShader, ?_, ?_, ?_⟩
      · simp [create_shader_loop, hm]
      · rw [linkedPrograms_append, linkedPrograms_append, hq1, linkedPrograms_deletes]
        rfl
      · rw [deletedPrograms_append, deletedPrograms_append, hq2, deletedPrograms_deletes]
        rfl
    · obtain ⟨added, h1, h2, h3⟩ := ih (k + 1)
        (shaders ++ [(create_shader_module source (d.module k)).1])
        (calls ++ (create_shader_module source (d.module k)).2 ++
          [NativeCall.glAttachShader d.program (create_shader_module source (d.module k)).1])
      refine ⟨(create_shader_module source (d.module k)).2 ++
        [NativeCall.glAttachShader d.program (create_shader_module source (d.module k)).1] ++
        added, ?_, ?_, ?_⟩
      · simp only [create_shader_loop, hm, if_false]
        rw [h1]
        simp only [List.append_assoc]
      · rw [linkedPrograms_append, linkedPrograms_append, hq1, h2]
        rfl
      · rw [deletedPrograms_append, deletedPrograms_append, hq2, h3]
        rfl

theorem moduleIds_length (d : ShaderDriver) (count : Nat) :
    ∀ k : Nat, (moduleIds d k count).length = count := by
  induction count with
  | zero => intro k; rfl
  | succ n ih => intro k; simp [moduleIds, ih]

theorem moduleIds_succ_last (d : ShaderDriver) (count : Nat) :
    ∀ k : Nat, moduleIds d k (count + 1) =
      moduleIds d k count ++ [(d.module (k + count)).shader] := by
  induction count with
  | zero => intro k; simp [moduleIds]
  | succ n ih =>
    intro k
    rw [moduleIds, ih (k + 1)]
    simp only [moduleIds, List.cons_append]
    rw [show k + 1 + n = k + (n + 1) by omega]

theorem create_shader_loop_all_ok (d : ShaderDriver) (sources : List ShaderSource) :
    ∀ (k : Nat) (shaders : List Nat) (calls : List NativeCall),
      (∀ j, j < sources.length →
        (d.module (k + j)).compile_status = GL_TRUE ∧ (d.module (k + j)).shader ≠ 0) →
      ∃ added : List NativeCall,
        create_shader_loop d k sources shaders calls =
            (some (shaders ++ moduleIds d k sources.length), calls ++ added) ∧
          createdShaders added = moduleIds d k sources.length ∧
          compiledShaders added = moduleIds d k sources.length ∧
          attachedShaders added = moduleIds d k sources.length ∧
          deletedShaders added = [] := by
  induction sources with
  | nil =>
    intro k shaders calls _
    exact ⟨[], by simp [create_shader_loop, moduleIds], rfl, rfl, rfl, rfl⟩
  | cons source rest ih =>
    intro k shaders calls hok
    obtain ⟨hs, hn⟩ := hok 0 (by simp)
    rw [Nat.add_zero] at hs hn
    have hm := create_shader_module_ok source (d.module k) hs
    obtain ⟨added, h1, h2, h3, h4, h5⟩ := ih (k + 1) (shaders ++ [(d.module k).shader])
      (calls ++ (create_shader_module source (d.module k)).2 ++
        [NativeCall.glAttachShader d.program (d.module k).shader])
      (fun j hj => by
        rw [show k + 1 + j = k + (j + 1) by omega]
        exact hok (j + 1) (by simp; omega))
    refine ⟨(create_shader_module source (d.module k)).2 ++
      [NativeCall.glAttachShader d.program (d.module k).shader] ++ added, ?_, ?_, ?_, ?_, ?_⟩
    · have hne : ¬ (create_shader_module source (d.module k)).1 = 0 := by rw [hm]; exact hn
      simp only [create_shader_loop, hne, if_false]
      rw [show (create_shader_module source (d.module k)).1 = (d.module k).shader by rw [hm],
        h1]
      simp [moduleIds, List.append_assoc]
    · rw [createdShaders_append, h2, hm]
      rfl
    · rw [compiledShaders_append, h3, hm]
      rfl
    · rw [attachedShaders_append, h4, hm]
      rfl
    · rw [deletedShaders_append, h5, hm]
      rfl

theorem create_shader_loop_first_failure (d : ShaderDriver) (sources : List ShaderSource) :
    ∀ (j0 k : Nat) (shaders : List Nat) (calls : List NativeCall),
      j0 < sources.length →
      (∀ j, j < j0 →
        (d.module (k + j)).compile_status = GL_TRUE ∧ (d.module (k + j)).shader ≠ 0) →
      (d.module (k + j0)).compile_status ≠ GL_TRUE →
      ∃ added : List NativeCall,
        create_shader_loop d k sources shaders calls = (none, calls ++ added) ∧
          createdShaders added = moduleIds d k (j0 + 1) ∧
          compiledShaders added = moduleIds d k (j0 + 1) ∧
          attachedShaders added = moduleIds d k j0 ∧
          deletedShaders added = (d.module (k + j0)).shader :: (shaders ++ moduleIds d k j0) ∧
          NativeCall.spdlog_error LogMessage.module_failed_not_linking ∈ added := by
  induction sources with
  | nil => intro j0 k shaders calls hj0; simp at hj0
  | cons source rest ih =>
    intro j0 k shaders calls hj0 hprior hfail
    cases j0 with
    | zero =>
      rw [Nat.add_zero] at hfail
      have hm := create_shader_module_failed source (d.module k) hfail
      refine ⟨(create_shader_module source (d.module k)).2 ++
        [NativeCall.spdlog_error LogMessage.module_failed_not_linking] ++
        shaders.map NativeCall.glDeleteShader, ?_, ?_, ?_, ?_, ?_, ?_⟩
      · have hz : (create_shader_module source (d.module k)).1 = 0 := by rw [hm]
        simp [create_shader_loop, hz]
      · rw [createdShaders_append, createdShaders_deletes, hm]
        rfl
      · rw [compiledShaders_append, compiledShaders_deletes, hm]
        rfl
      · rw [attachedShaders_append, attachedShaders_deletes, hm]
        rfl
      · rw [deletedShaders_append, deletedShaders_deletes, hm]
        simp [deletedShaders, moduleIds]
      · simp
    | succ j =>
      obtain ⟨hs, hn⟩ := hprior 0 (by omega)
      rw [Nat.add_zero] at hs hn
      have hm := create_shader_module_ok source (d.module k) hs
      obtain ⟨added, h1, h2, h3, h4, h5, h6⟩ := ih j (k + 1) (shaders ++ [(d.module k).shader])
        (calls ++ (create_shader_module source (d.module k)).2 ++
          [NativeCall.glAttachShader d.program (d.module k).shader])
        (by simpa using hj0)
        (fun i hi => by
          rw [show k + 1 + i = k + (i + 1) by omega]
          exact hprior (i + 1) (by omega))
        (by rw [show k + 1 + j = k + (j + 1) by omega]; exact hfail)
      refine ⟨(create_shader_module source (d.module k)).2 ++
        [NativeCall.glAttachShader d.program (d.module k).shader] ++ added,
        ?_, ?_, ?_, ?_, ?_, ?_⟩
      · have hne : ¬ (create_shader_module source (d.module k)).1 = 0 := by rw [hm]; exact hn
        simp only [create_shader_loop, hne, if_false]
        rw [show (create_shader_module source (d.module k)).1 = (d.module k).shader by rw [hm],
          h1]
        simp [List.append_assoc]
      · rw [createdShaders_append, h2, hm]
        rfl
      · rw [compiledShaders_append, h3, hm]
        rfl
      · rw [attachedShaders_append, h4, hm]
        rfl
      · rw [deletedShaders_append, h5, hm, show k + 1 + j = k + (j + 1) by omega]
        simp [deletedShaders, moduleIds]
      · exact List.mem_append_right _ h6

theorem create_shader_of_loop_none (sources : List ShaderSource) (d : ShaderDriver)
    (calls : List NativeCall)
    (h : create_shader_loop d 0 sources [] [NativeCall.glCreateProgram d.program] =
      (none, calls)) :
    create_shader sources d = (0, calls) := by
  simp [create_shader, h]

theorem create_shader_of_loop_some (sources : List ShaderSource) (d : ShaderDriver)
    (shaders : List Nat) (calls : List NativeCall)
    (h : create_shader_loop d 0 sources [] [NativeCall.glCreateProgram d.program] =
      (some shaders, calls)) :
    (create_shader sources d).2 =
      calls ++
        [ NativeCall.glLinkProgram d.program,
          NativeCall.glGetProgramiv_link_status d.program d.link_status ] ++
        (if d.link_status = GL_TRUE then []
          else
            [ NativeCall.glGetProgramiv_info_log_length d.program d.link_log_length,
              NativeCall.glGetProgramInfoLog d.program d.link_log_length,
              NativeCall.spdlog_error (LogMessage.failed_to_link_shader d.link_log_text) ]) ++
        shaders.map NativeCall.glDeleteShader := by
  by_cases hl : d.link_status = GL_TRUE <;> simp [create_shader, h, hl]

theorem create_shader_calls_failure (sources : List ShaderSource) (d : ShaderDriver) (k : Nat)
    (hk : k < sources.length)
    (hprior : ∀ j, j < k → (d.module j).compile_status = GL_TRUE ∧ (d.module j).shader ≠ 0)
    (hfail : (d.module k).compile_status ≠ GL_TRUE) :
    createdShaders (create_shader sources d).2 = moduleIds d 0 (k + 1) ∧
      compiledShaders (create_shader sources d).2 = moduleIds d 0 (k + 1) ∧
      attachedShaders (create_shader sources d).2 = moduleIds d 0 k ∧
      deletedShaders (create_shader sources d).2 = (d.module k).shader :: moduleIds d 0 k ∧
      linkedPrograms (create_shader sources d).2 = [] ∧
      NativeCall.spdlog_error LogMessage.module_failed_not_linking ∈
        (create_shader sources d).2 := by
  obtain ⟨added, h1, h2, h3, h4, h5, h6⟩ :=
    create_shader_loop_first_failure d sources k 0 [] [NativeCall.glCreateProgram d.program] hk
      (fun j hj => by rw [Nat.zero_add]; exact hprior j hj)
      (by rw [Nat.zero_add]; exact hfail)
  obtain ⟨added2, q1, q2, _⟩ :=
    create_shader_loop_quiet d sources 0 [] [NativeCall.glCreateProgram d.program]
  rw [Nat.zero_add] at h5
  rw [create_shader_of_loop_none sources d _ h1]
  refine ⟨?_, ?_, ?_, ?_, ?_, List.mem_append_right _ h6⟩
  · rw [createdShaders_append, h2]
    rfl
  · rw [compiledShaders_append, h3]
    rfl
  · rw [attachedShaders_append, h4]
    rfl
  · rw [deletedShaders_append, h5]
    rfl
  · rw [h1] at q1
    simp only at q1
    rw [q1, linkedPrograms_append, q2]
    rfl

theorem create_shader_calls_all_ok (sources : List ShaderSource) (d : ShaderDriver)
    (hok : ∀ j, j < sources.length →
      (d.module j).compile_status = GL_TRUE ∧ (d.module j).shader ≠ 0) :
    createdShaders (create_shader sources d).2 = moduleIds d 0 sources.length ∧
      compiledShaders (create_shader sources d).2 = moduleIds d 0 sources.length ∧
      attachedShaders (create_shader sources d).2 = moduleIds d 0 sources.length ∧
      deletedShaders (create_shader sources d).2 = moduleIds d 0 sources.length ∧
      linkedPrograms (create_shader sources d).2 = [d.program] := by
  obtain ⟨added, h1, h2, h3, h4, h5⟩ :=
    create_shader_loop_all_ok d sources 0 [] [NativeCall.glCreateProgram d.program]
      (fun j hj => by rw [Nat.zero_add]; exact hok j hj)
  obtain ⟨added2, q1, q2, _⟩ :=
    create_shader_loop_quiet d sources 0 [] [NativeCall.glCreateProgram d.program]
  rw [h1] at q1
  simp only at q1
  have hq : linkedPrograms added = [] := by
    have := List.append_cancel_left q1
    rw [this]
    exact q2
  rw [create_shader_of_loop_some sources d _ _ h1]
  simp only [List.nil_append]
  refine ⟨?_, ?_, ?_, ?_, ?_⟩
  · rw [createdShaders_append, createdShaders_append, createdShaders_append,
      createdShaders_append, h2, createdShaders_deletes]
    by_cases hl : d.link_status = GL_TRUE <;> simp [hl, createdShaders]
  · rw [compiledShaders_append, compiledShaders_append, compiledShaders_append,
      compiledShaders_append, h3, compiledShaders_deletes]
    by_cases hl : d.link_status = GL_TRUE <;> simp [hl, compiledShaders]
  · rw [attachedShaders_append, attachedShaders_append, attachedShaders_append,
      attachedShaders_append, h4, attachedShaders_deletes]
    by_cases hl : d.link_status = GL_TRUE <;> simp [hl, attachedShaders]
  · rw [deletedShaders_append, deletedShaders_append, deletedShaders_append,
      deletedShaders_append, h5, deletedShaders_deletes]
    by_cases hl : d.link_status = GL_TRUE <;> simp [hl, deletedShaders]
  · rw [linkedPrograms_append, linkedPrograms_append, linkedPrograms_append,
      linkedPrograms_append, hq, linkedPrograms_deletes]
    by_cases hl : d.link_status = GL_TRUE <;> simp [hl, linkedPrograms]

theorem create_shader_keeps_program (sources : List ShaderSource) (d : ShaderDriver) :
    (create_shader sources d).2.head? = some (NativeCall.glCreateProgram d.program) ∧
      deletedPrograms (create_shader sources d).2 = [] := by
  obtain ⟨added, q1, _, q3⟩ :=
    create_shader_loop_quiet d sources 0 [] [NativeCall.glCreateProgram d.program]
  cases hres : create_shader_loop d 0 sources [] [NativeCall.glCreateProgram d.program] with
  | mk o calls =>
    rw [hres] at q1
    simp only at q1
    cases o with
    | none =>
      rw [create_shader_of_loop_none sources d _ hres, q1]
      exact ⟨rfl, by rw [deletedPrograms_append, q3]; rfl⟩
    | some shaders =>
      rw [create_shader_of_loop_some sources d _ _ hres, q1]
      refine ⟨rfl, ?_⟩
      rw [deletedPrograms_append, deletedPrograms_append, deletedPrograms_append,
        deletedPrograms_append, q3, deletedPrograms_deletes]
      by_cases hl : d.link_status = GL_TRUE <;> simp [hl, deletedPrograms]

theorem create_shader_no_link (sources : List ShaderSource) (d : ShaderDriver)
    (hbad : ∃ j, j < sources.length ∧
      ((d.module j).compile_status ≠ GL_TRUE ∨ (d.module j).shader = 0)) :
    linkedPrograms (create_shader sources d).2 = [] := by
  obtain ⟨added, q1, q2, _⟩ :=
    create_shader_loop_quiet d sources 0 [] [NativeCall.glCreateProgram d.program]
  have hnone := (create_shader_loop_none d sources 0 [] [NativeCall.glCreateProgram d.program]).mpr
    (by simpa using hbad)
  cases hres : create_shader_loop d 0 sources [] [NativeCall.glCreateProgram d.program] with
  | mk o calls =>
    rw [hres] at q1 hnone
    simp only at q1 hnone
    subst hnone
    rw [create_shader_of_loop_none sources d _ hres, q1, linkedPrograms_append, q2]
    rfl

theorem exists_first_failure (sources : List ShaderSource) (d : ShaderDriver)
    (hbad : ∃ j, j < sources.length ∧ (d.module j).compile_status ≠ GL_TRUE) :
    ∃ k, k < sources.length ∧ (d.module k).compile_status ≠ GL_TRUE ∧
      ∀ j, j < k → (d.module j).compile_status = GL_TRUE := by
  classical
  refine ⟨Nat.find hbad, (Nat.find_spec hbad).1, (Nat.find_spec hbad).2, ?_⟩
  intro j hj
  by_contra hne
  exact Nat.find_min hbad hj ⟨by have := (Nat.find_spec hbad).1; omega, hne⟩

/-- C25: in shader creation, when the module at position k is the one that fails to compile
(the modules before it having compiled), shader objects are created and compiled for the
positions 0 to k only, the modules attached are those of the positions before k, the
"not proceeding to link" message is logged and no `glLinkProgram` call is issued.  With the
driver naming every module by a non-zero identifier, the link step is attempted (once, on the
created program) exactly when every module compiled successfully. -/
theorem compile_failure_stops_creation (sources : List ShaderSource) (d : ShaderDriver) :
    (∀ k, k < sources.length →
        (∀ j, j < k → (d.module j).compile_status = GL_TRUE ∧ (d.module j).shader ≠ 0) →
        (d.module k).compile_status ≠ GL_TRUE →
          createdShaders (create_shader sources d).2 = moduleIds d 0 (k + 1) ∧
          compiledShaders (create_shader sources d).2 = moduleIds d 0 (k + 1) ∧
          (compiledShaders (create_shader sources d).2).length = k + 1 ∧
          attachedShaders (create_shader sources d).2 = moduleIds d 0 k ∧
          (attachedShaders (create_shader sources d).2).length = k ∧
          linkedPrograms (create_shader sources d).2 = [] ∧
          NativeCall.spdlog_error LogMessage.module_failed_not_linking ∈
            (create_shader sources d).2) ∧
      ((∀ j, j < sources.length → (d.module j).shader ≠ 0) →
        (linkedPrograms (create_shader sources d).2 = [d.program] ↔
          ∀ j, j < sources.length → (d.module j).compile_status = GL_TRUE) ∧
        (linkedPrograms (create_shader sources d).2 = [] ∨
          linkedPrograms (create_shader sources d).2 = [d.program])) := by
  constructor
  · intro k hk hprior hfail
    obtain ⟨h1, h2, h3, _, h5, h6⟩ := create_shader_calls_failure sources d k hk hprior hfail
    refine ⟨h1, h2, ?_, h3, ?_, h5, h6⟩
    · rw [h2, moduleIds_length]
    · rw [h3, moduleIds_length]
  · intro hnames
    by_cases hall : ∀ j, j < sources.length → (d.module j).compile_status = GL_TRUE
    · have hl := (create_shader_calls_all_ok sources d
        (fun j hj => ⟨hall j hj, hnames j hj⟩)).2.2.2.2
      exact ⟨⟨fun _ => hall, fun _ => hl⟩, Or.inr hl⟩
    · have hbad : ∃ j, j < sources.length ∧
          ((d.module j).compile_status ≠ GL_TRUE ∨ (d.module j).shader = 0) := by
        by_contra hno
        apply hall
        intro j hj
        by_contra hne
        exact hno ⟨j, hj, Or.inl hne⟩
      have hl := create_shader_no_link sources d hbad
      refine ⟨⟨fun h => ?_, fun h => absurd h hall⟩, Or.inl hl⟩
      rw [hl] at h
      exact absurd h (by simp)

/-- C25, on the example pair of sources: with a driver that fails every compile, only the
module of position 0 is created and compiled, none is attached and no link is attempted; with
a driver that reports success, the program 7 is linked once. -/
theorem compile_failure_stops_creation_witness :
    compiledShaders (create_shader exampleSources (exampleDriver 0 1)).2 = [3] ∧
      attachedShaders (create_shader exampleSources (exampleDriver 0 1)).2 = [] ∧
      linkedPrograms (create_shader exampleSources (exampleDriver 0 1)).2 = [] ∧
      linkedPrograms (create_shader exampleSources (exampleDriver 1 1)).2 = [7] :=
  ⟨((compile_failure_stops_creation exampleSources (exampleDriver 0 1)).1 0 (by decide)
      (by intro j hj; omega) (by decide)).2.1,
    ((compile_failure_stops_creation exampleSources (exampleDriver 0 1)).1 0 (by decide)
      (by intro j hj; omega) (by decide)).2.2.2.1,
    ((compile_failure_stops_creation exampleSources (exampleDriver 0 1)).1 0 (by decide)
      (by intro j hj; omega) (by decide)).2.2.2.2.2.1,
    (((compile_failure_stops_creation exampleSources (exampleDriver 1 1)).2
      (by decide)).1).mpr (by decide)⟩

/-- C26: for every list of shader sources and every outcome, with the driver naming every
module by a non-zero identifier, the `glDeleteShader` calls issued by the time `create_shader`
returns are a rearrangement of the names returned by its `glCreateShader` calls, so each
module created is deleted exactly once.  `create_shader_module` deletes its module exactly when
the compile failed; the modules that compiled are deleted by the loops of `create_shader`:
all of them, in creation order, when every module compiled (whether the link succeeds or
fails), and the ones before the failing position otherwise. -/
theorem modules_deleted_once (sources : List ShaderSource) (d : ShaderDriver)
    (hnames : ∀ j, j < sources.length → (d.module j).shader ≠ 0) :
    (deletedShaders (create_shader sources d).2).Perm
        (createdShaders (create_shader sources d).2) ∧
      (∀ (source : ShaderSource) (r : ModuleReply),
        deletedShaders (create_shader_module source r).2 =
          if r.compile_status = GL_TRUE then [] else [r.shader]) ∧
      ((∀ j, j < sources.length → (d.module j).compile_status = GL_TRUE) →
        deletedShaders (create_shader sources d).2 = moduleIds d 0 sources.length ∧
        createdShaders (create_shader sources d).2 = moduleIds d 0 sources.length) ∧
      (∀ k, k < sources.length →
        (∀ j, j < k → (d.module j).compile_status = GL_TRUE) →
        (d.module k).compile_status ≠ GL_TRUE →
          deletedShaders (create_shader sources d).2 = (d.module k).shader :: moduleIds d 0 k ∧
          createdShaders (create_shader sources d).2 =
            moduleIds d 0 k ++ [(d.module k).shader]) := by
  have hfailcase : ∀ k, k < sources.length →
      (∀ j, j < k → (d.module j).compile_status = GL_TRUE) →
      (d.module k).compile_status ≠ GL_TRUE →
        deletedShaders (create_shader sources d).2 = (d.module k).shader :: moduleIds d 0 k ∧
        createdShaders (create_shader sources d).2 =
          moduleIds d 0 k ++ [(d.module k).shader] := by
    intro k hk hprior hfail
    obtain ⟨h1, _, _, h4, _⟩ := create_shader_calls_failure sources d k hk
      (fun j hj => ⟨hprior j hj, hnames j (by omega)⟩) hfail
    rw [moduleIds_succ_last, Nat.zero_add] at h1
    exact ⟨h4, h1⟩
  have hokcase : (∀ j, j < sources.length → (d.module j).compile_status = GL_TRUE) →
      deletedShaders (create_shader sources d).2 = moduleIds d 0 sources.length ∧
      createdShaders (create_shader sources d).2 = moduleIds d 0 sources.length := by
    intro hall
    obtain ⟨h1, _, _, h4, _⟩ := create_shader_calls_all_ok sources d
      (fun j hj => ⟨hall j hj, hnames j hj⟩)
    exact ⟨h4, h1⟩
  refine ⟨?_, ?_, hokcase, hfailcase⟩
  · by_cases hall : ∀ j, j < sources.length → (d.module j).compile_status = GL_TRUE
    · rw [(hokcase hall).1, (hokcase hall).2]
    · have hbad : ∃ j, j < sources.length ∧ (d.module j).compile_status ≠ GL_TRUE := by
        by_contra hno
        apply hall
        intro j hj
        by_contra hne
        exact hno ⟨j, hj, hne⟩
      obtain ⟨k, hk, hfail, hprior⟩ := exists_first_failure sources d hbad
      rw [(hfailcase k hk hprior hfail).1, (hfailcase k hk hprior hfail).2]
      exact (List.perm_append_singleton _ _).symm
  · intro source r
    by_cases h : r.compile_status = GL_TRUE
    · rw [create_shader_module_ok source r h, if_pos h]
      rfl
    · rw [create_shader_module_failed source r h, if_neg h]
      rfl

/-- C26, on the example pair of sources: when the link fails both modules 3 and 4 are
deleted, and when the first compile fails module 3 is deleted. -/
theorem modules_deleted_once_witness :
    deletedShaders (create_shader exampleSources (exampleDriver 1 0)).2 = [3, 4] ∧
      createdShaders (create_shader exampleSources (exampleDriver 1 0)).2 = [3, 4] ∧
      deletedShaders (create_shader exampleSources (exampleDriver 0 1)).2 = [3] ∧
      createdShaders (create_shader exampleSources (exampleDriver 0 1)).2 = [3] :=
  ⟨((modules_deleted_once exampleSources (exampleDriver 1 0) (by decide)).2.2.1
      (by decide)).1,
    ((modules_deleted_once exampleSources (exampleDriver 1 0) (by decide)).2.2.1
      (by decide)).2,
    ((modules_deleted_once exampleSources (exampleDriver 0 1) (by decide)).2.2.2 0 (by decide)
      (by intro j hj; omega) (by decide)).1,
    ((modules_deleted_once exampleSources (exampleDriver 0 1) (by decide)).2.2.2 0 (by decide)
      (by intro j hj; omega) (by decide)).2⟩

/-- C27: on every failure path of shader creation (a module fails to compile, or linking
fails) the program created by the first call of `create_shader` is never passed to
`glDeleteProgram` and its identifier is not returned: the wrapper that `Shader::create`
returns holds identifier 0 with owned = true, and destroying it issues `glDeleteProgram(0)`,
which is not a release of the created program (the driver naming programs by non-zero
identifiers). -/
theorem failed_creation_leaks_program (sources : List ShaderSource) (d : ShaderDriver)
    (hfail : (∃ k, k < sources.length ∧ (d.module k).compile_status ≠ GL_TRUE) ∨
      d.link_status ≠ GL_TRUE) :
    (Shader.create sources d).2.head? = some (NativeCall.glCreateProgram d.program) ∧
      deletedPrograms (Shader.create sources d).2 = [] ∧
      (Shader.create sources d).1 = Shader.mk 0 true ∧
      (Shader.create sources d).1.destroy = [NativeCall.glDeleteProgram 0] ∧
      (d.program ≠ 0 →
        deletedPrograms ((Shader.create sources d).2 ++ (Shader.create sources d).1.destroy) ≠
          [d.program] ∧
        d.program ∉
          deletedPrograms ((Shader.create sources d).2 ++ (Shader.create sources d).1.destroy)) := by
  obtain ⟨hhead, hdel⟩ := create_shader_keeps_program sources d
  have hzero : (create_shader sources d).1 = 0 := by
    apply create_shader_failure
    rcases hfail with ⟨k, hk, hbad⟩ | hlink
    · exact Or.inl ⟨k, hk, Or.inl hbad⟩
    · exact Or.inr hlink
  have hcalls : (Shader.create sources d).2 = (create_shader sources d).2 := by
    simp [Shader.create, Shader.wrap]
  have hwrap : (Shader.create sources d).1 = Shader.mk 0 true := by
    simp [Shader.create, Shader.wrap, hzero]
  have hdestroy : (Shader.create sources d).1.destroy = [NativeCall.glDeleteProgram 0] := by
    rw [hwrap]
    rfl
  refine ⟨by rw [hcalls]; exact hhead, by rw [hcalls]; exact hdel, hwrap, hdestroy, ?_⟩
  intro hp
  have hall : deletedPrograms ((Shader.create sources d).2 ++
      (Shader.create sources d).1.destroy) = [0] := by
    rw [deletedPrograms_append, hcalls, hdel, hdestroy]
    rfl
  rw [hall]
  constructor
  · intro h
    exact hp (by simpa using h.symm)
  · simpa using hp

/-- C27, on the example pair of sources with a driver whose link fails: the created program
7 is never released, the wrapper holds 0 and its destruction releases 0. -/
theorem failed_creation_leaks_program_witness :
    deletedPrograms (Shader.create exampleSources (exampleDriver 1 0)).2 = [] ∧
      (Shader.create exampleSources (exampleDriver 1 0)).1 = Shader.mk 0 true ∧
      (Shader.create exampleSources (exampleDriver 1 0)).1.destroy =
        [NativeCall.glDeleteProgram 0] :=
  ⟨(failed_creation_leaks_program exampleSources (exampleDriver 1 0) (Or.inr (by decide))).2.1,
    (failed_creation_leaks_program exampleSources (exampleDriver 1 0)
      (Or.inr (by decide))).2.2.1,
    (failed_creation_leaks_program exampleSources (exampleDriver 1 0)
      (Or.inr (by decide))).2.2.2.1⟩

/-! ## Handle ownership: owning wrappers per identifier -/

theorem load_sources_length (files : String → Option String)
    (paths : List (ShaderType × String)) :
    ∀ loaded : List ShaderSource,
      load_sources files paths = Except.ok loaded → loaded.length = paths.length := by
  induction paths with
  | nil =>
    intro loaded h
    simp [load_sources] at h
    subst h
    rfl
  | cons path rest ih =>
    intro loaded h
    cases hf : files path.2 with
    | none => simp [load_sources, read_file, hf] at h
    | some text =>
      cases hr : load_sources files rest with
      | error e => simp [load_sources, read_file, hf, hr] at h
      | ok tail =>
        simp [load_sources, read_file, hf, hr] at h
        subst h
        simp [ih tail hr]

theorem perform_owner (op : HandleOp) (hok : op.creation_succeeds) :
    owners op.perform.toList = op.claimed.toList := by
  cases op with
  | buffer_wrap handle t => cases t <;> rfl
  | buffer_create b => rfl
  | buffer_allocate b size usage => rfl
  | buffer_load b size has_data usage => rfl
  | buffer_wrap_shared handle t => cases t <;> rfl
  | buffer_create_shared b => rfl
  | buffer_allocate_shared b size usage => rfl
  | buffer_load_shared b size has_data usage => rfl
  | shader_wrap handle t => cases t <;> rfl
  | shader_create sources d =>
    have h := create_shader_success sources d (fun k hk => (hok.1 k hk).1)
      (fun k hk => (hok.1 k hk).2) hok.2
    simp [owners, HandleOp.perform, LiveWrapper.of_shader, Shader.create, Shader.wrap, h,
      HandleOp.claimed]
  | shader_load paths files d =>
    cases hl : load_sources files paths with
    | error e =>
      simp [owners, HandleOp.perform, Shader.load, load_shader, hl, HandleOp.claimed]
    | ok loaded =>
      have hlen := load_sources_length files paths loaded hl
      have h := create_shader_success loaded d
        (fun k hk => (hok.1 k (by rw [← hlen]; exact hk)).1)
        (fun k hk => (hok.1 k (by rw [← hlen]; exact hk)).2) hok.2
      simp [owners, HandleOp.perform, LiveWrapper.of_shader, Shader.load, Shader.wrap,
        load_shader, hl, h, HandleOp.claimed]
  | shader_wrap_shared handle t => cases t <;> rfl
  | shader_create_shared sources d =>
    have h := create_shader_success sources d (fun k hk => (hok.1 k hk).1)
      (fun k hk => (hok.1 k hk).2) hok.2
    simp [owners, HandleOp.perform, LiveWrapper.of_shader, Shader.create_shared,
      Shader.wrap_shared, h, HandleOp.claimed]
  | shader_load_shared paths files d =>
    cases hl : load_sources files paths with
    | error e =>
      simp [owners, HandleOp.perform, Shader.load_shared, load_shader, hl, HandleOp.claimed]
    | ok loaded =>
      have hlen := load_sources_length files paths loaded hl
      have h := create_shader_success loaded d
        (fun k hk => (hok.1 k (by rw [← hlen]; exact hk)).1)
        (fun k hk => (hok.1 k (by rw [← hlen]; exact hk)).2) hok.2
      simp [owners, HandleOp.perform, LiveWrapper.of_shader, Shader.load_shared,
        Shader.wrap_shared, load_shader, hl, h, HandleOp.claimed]
  | vertex_array_create h => rfl
  | vertex_array_wrap handle t => cases t <;> rfl
  | vertex_array_create_shared h => rfl
  | vertex_array_wrap_shared handle t => cases t <;> rfl

theorem owners_cons (w : LiveWrapper) (rest : List LiveWrapper) :
    owners (w :: rest) = owners [w] ++ owners rest := by
  by_cases h : w.owned = true <;> simp [owners, List.filter_cons, h]

theorem owners_eq_claims (ops : List HandleOp)
    (hok : ∀ op, op ∈ ops → op.creation_succeeds) :
    owners (liveWrappers ops) = ops.filterMap HandleOp.claimed := by
  induction ops with
  | nil => rfl
  | cons op rest ih =>
    have h1 := perform_owner op (hok op (List.mem_cons_self _ _))
    have h2 := ih (fun o ho => hok o (List.mem_cons_of_mem _ ho))
    simp only [liveWrappers] at h2 ⊢
    rw [List.filterMap_cons, List.filterMap_cons]
    cases hp : op.perform with
    | none =>
      rw [hp] at h1
      cases hc : op.claimed with
      | none => exact h2
      | some c =>
        rw [hc] at h1
        simp [owners] at h1
    | some w =>
      rw [hp] at h1
      simp only [Option.toList] at h1
      show owners (w :: List.filterMap HandleOp.perform rest) = _
      rw [owners_cons, h1, h2]
      cases op.claimed <;> rfl

theorem releases_eq_owners (wrappers : List LiveWrapper) :
    releases wrappers = (owners wrappers).map releaseCall := by
  induction wrappers with
  | nil => rfl
  | cons w rest ih =>
    rw [releases, owners_cons, List.map_append, ih]
    congr 1
    obtain ⟨kind, handle, owned⟩ := w
    cases kind <;> cases owned <;> rfl

theorem releaseCall_injective : Function.Injective releaseCall := by
  rintro ⟨k1, i1⟩ ⟨k2, i2⟩ h
  cases k1 <;> cases k2 <;> simp [releaseCall] at h ⊢ <;> exact h

/-- C23 as stated fails: `Buffer::create()` followed by `Buffer::wrap` of the same identifier
with take_ownership = true leaves two live owning wrappers for identifier 5, and destroying
both releases identifier 5 twice. -/
theorem two_owners_after_wrap :
    owners (liveWrappers [HandleOp.buffer_create 5, HandleOp.buffer_wrap 5 true]) =
        [(HandleKind.buffer, 5), (HandleKind.buffer, 5)] ∧
      releases (liveWrappers [HandleOp.buffer_create 5, HandleOp.buffer_wrap 5 true]) =
        [NativeCall.glDeleteBuffers 5, NativeCall.glDeleteBuffers 5] := by
  decide

/-- C23 (amended): for every sequence of create / allocate / load / wrap operations in
which the identifiers claimed (the ones the driver returns to the allocating calls and the
ones passed to wraps that take ownership) are pairwise distinct within each class, and every
shader creation succeeds, at most one live wrapper with owned = true exists per identifier,
and destroying all wrappers releases each identifier at most once.  The factories themselves
check nothing: the owning wrappers are exactly the claims made. -/
theorem one_owner_when_claims_distinct (ops : List HandleOp)
    (hok : ∀ op, op ∈ ops → op.creation_succeeds)
    (hdistinct : (ops.filterMap HandleOp.claimed).Nodup) :
    owners (liveWrappers ops) = ops.filterMap HandleOp.claimed ∧
      (owners (liveWrappers ops)).Nodup ∧
      (releases (liveWrappers ops)).Nodup := by
  have h := owners_eq_claims ops hok
  refine ⟨h, by rw [h]; exact hdistinct, ?_⟩
  rw [releases_eq_owners, h]
  exact hdistinct.map releaseCall_injective

/-- C23 (amended), on a buffer created with identifier 5, a non-owning wrap of 5, a vertex
array created with identifier 5 and a successful shader creation with program 7: three
owners, all distinct, and three distinct release calls. -/
theorem one_owner_when_claims_distinct_witness :
    owners (liveWrappers
        [HandleOp.buffer_create 5, HandleOp.buffer_wrap 5 false,
          HandleOp.vertex_array_create 5,
          HandleOp.shader_create exampleSources (exampleDriver 1 1)]) =
      [(HandleKind.buffer, 5), (HandleKind.vertex_array, 5), (HandleKind.shader, 7)] ∧
      (releases (liveWrappers
        [HandleOp.buffer_create 5, HandleOp.buffer_wrap 5 false,
          HandleOp.vertex_array_create 5,
          HandleOp.shader_create exampleSources (exampleDriver 1 1)])).Nodup := by
  have h := one_owner_when_claims_distinct
    [HandleOp.buffer_create 5, HandleOp.buffer_wrap 5 false, HandleOp.vertex_array_create 5,
      HandleOp.shader_create exampleSources (exampleDriver 1 1)]
    (by
      intro op hop
      simp only [List.mem_cons, List.mem_singleton, List.not_mem_nil, or_false] at hop
      rcases hop with rfl | rfl | rfl | rfl
      · trivial
      · trivial
      · trivial
      · exact ⟨by decide, by decide⟩)
    (by decide)
  exact ⟨h.1, h.2.2⟩

end gc
